import Mathlib

/-!
# VUnit Python bridge (`vunit/vhdl/python/src`)

A shallow embedding of the C sources of the bridge between a VHDL simulator and an
embedded Python interpreter:

* `python_pkg.c`: the shared marshaling code (`get_string`, `check_conversion_error`,
  `handle_type_check_error`, `eval`, `get_integer`, `get_real`);
* `python_pkg_fli.c`, `python_pkg_vhpidirect_ghdl.c`, `python_pkg_vhpidirect_nvc.c`,
  `python_pkg_vhpi.c`: the four host adapters.

C functions become functions `World → Outcome α` (the monad `M`): they read and update the
interpreter's error indicator and append the observable actions they perform (reference
releases, output, stores into host arrays, host calls) to a trace. The CPython API and the
simulator APIs are not part of the repository; they are modelled after their documented
behaviour and everything they decide on their own is an explicit input (`Env`, `vhpiCbDataS`).
-/

namespace VUnit

/-! ## C values -/

/-- A value of the C type `double`: a finite number (every finite double is a rational),
an infinity, or a NaN. -/
inductive CDouble
  | finite (q : ℚ)
  | pos_inf
  | neg_inf
  | nan
deriving DecidableEq

/-- The C operator `<` on doubles: false as soon as one operand is a NaN. -/
def CDouble.lt : CDouble → CDouble → Bool
  | .nan, _ => false
  | _, .nan => false
  | .neg_inf, .neg_inf => false
  | .neg_inf, _ => true
  | _, .neg_inf => false
  | .pos_inf, _ => false
  | .finite _, .pos_inf => true
  | .finite x, .finite y => decide (x < y)

/-- The C operator `>` on doubles. -/
def CDouble.gt (x y : CDouble) : Bool := CDouble.lt y x

/-- The C operator `<=` on doubles: false as soon as one operand is a NaN. -/
def CDouble.le : CDouble → CDouble → Bool
  | .nan, _ => false
  | _, .nan => false
  | .neg_inf, _ => true
  | _, .pos_inf => true
  | _, .neg_inf => false
  | .pos_inf, _ => false
  | .finite x, .finite y => decide (x ≤ y)

/-- Unary minus on doubles. -/
def CDouble.neg : CDouble → CDouble
  | .finite q => .finite (-q)
  | .pos_inf => .neg_inf
  | .neg_inf => .pos_inf
  | .nan => .nan

/-- Conversion of an integer to the C type `int` (32 bits, two's complement): the value is
reduced modulo `2^32` into `[-2^31, 2^31 - 1]`. -/
def to_int (x : Int) : Int := (x + 2 ^ 31) % 2 ^ 32 - 2 ^ 31

/-- The two widths of the C type `long` on the supported platforms. -/
inductive DataModel
  | lp64
  | llp64
deriving DecidableEq

/-- Number of bits of the C type `long`. -/
def DataModel.long_bits : DataModel → Nat
  | .lp64 => 64
  | .llp64 => 32

/-- The value of `LONG_MIN`. -/
def LONG_MIN (dm : DataModel) : Int := -(2 ^ (dm.long_bits - 1))

/-- The value of `LONG_MAX`. -/
def LONG_MAX (dm : DataModel) : Int := 2 ^ (dm.long_bits - 1) - 1

/-- The function `strncat(dst, src, n)`: `dst` followed by the first `n` characters of `src`.
A `Char` of a C string stands for one byte. -/
def strncat (dst src : String) (n : Nat) : String := ⟨dst.data ++ src.data.take n⟩

/-! ## Interpreter objects -/

/-- What the bridge reads of a Python type object: the result of `PyType_GetName` (`none` for
`NULL`) and, inside, the UTF-8 text of that name (`none` when it cannot be encoded). -/
structure PyTypeObject where
  name : Option (Option String)
deriving DecidableEq

/-- A Python object as seen through the checks of the bridge. -/
inductive PyObject
  /-- An `int` or an instance of a subclass: `PyLong_Check` holds. -/
  | long (tp : PyTypeObject) (v : Int)
  /-- A `float` or an instance of a subclass: `PyFloat_Check` holds. -/
  | float (tp : PyTypeObject) (d : CDouble)
  /-- A `list` or an instance of a subclass: `PyList_Check` holds. -/
  | list (tp : PyTypeObject) (items : List PyObject)
  /-- A `str` with its UTF-8 encoding (`none` when it cannot be encoded). -/
  | unicode (utf8 : Option String)
  /-- An object of any other type (tuple, set, dict, None, ...). -/
  | other (tp : PyTypeObject)

/-- The macro `Py_TYPE`. -/
def Py_TYPE : PyObject → PyTypeObject
  | .long tp _ => tp
  | .float tp _ => tp
  | .list tp _ => tp
  | .unicode _ => ⟨some (some "str")⟩
  | .other tp => tp

/-- The function `PyType_GetName(Py_TYPE(pyobj))`: a `str` object, or `NULL`. -/
def PyType_GetName (pyobj : PyObject) : Option PyObject :=
  (Py_TYPE pyobj).name.map PyObject.unicode

/-- The macro `PyLong_Check`. -/
def PyLong_Check : PyObject → Bool
  | .long _ _ => true
  | _ => false

/-- The macro `PyFloat_Check`. -/
def PyFloat_Check : PyObject → Bool
  | .float _ _ => true
  | _ => false

/-- The macro `PyList_Check`. -/
def PyList_Check : PyObject → Bool
  | .list _ _ => true
  | _ => false

/-- The interpreter's error indicator when it is set (`ptype != NULL`): the value of the raised
exception, `none` when `pvalue` is `NULL`. -/
structure PyErr where
  pvalue : Option PyObject

/-! ## Observable actions -/

/-- The simulators served by the four adapters. -/
inductive Adapter
  | fli
  | ghdl
  | nvc
  | vhpi
deriving DecidableEq

/-- Severity argument of `vhpi_assert`. -/
inductive vhpiSeverityT
  | vhpiNote
  | vhpiWarning
  | vhpiError
  | vhpiFailure
  | vhpiSystem
  | vhpiInternal
deriving DecidableEq

/-- The fields of a `vhpiErrorInfoT` read by the bridge. -/
structure vhpiErrorInfoT where
  severity : vhpiSeverityT
  message : String
  file : String
  line : Int
deriving DecidableEq

/-- Mode argument of `vhpi_put_value`. -/
inductive vhpiPutValueModeT
  | vhpiSizeConstraint
  | vhpiDeposit
deriving DecidableEq

/-- The payload of a `vhpiValueT`. -/
inductive vhpiValue
  | intg (v : Int)
  | real (d : CDouble)
  | intgs (vs : Option (List Int))
  | reals (ds : Option (List CDouble))
  | str (s : String)
deriving DecidableEq

/-- The fields of a `vhpiValueT` set by the adapter. -/
structure vhpiValueT where
  bufSize : Int
  numElems : Option Int
  value : vhpiValue
deriving DecidableEq

/-- One observable action of the bridge. -/
inductive Event
  /-- The call `putenv(text)`. -/
  | putenv (text : String)
  /-- The call `Py_SetPythonHome(home)`. -/
  | Py_SetPythonHome (home : String)
  /-- The call `Py_Initialize()`. -/
  | Py_Initialize
  /-- The call `Py_DECREF(pyobj)` on an evaluation result. -/
  | Py_DECREF (pyobj : PyObject)
  /-- The call `Py_DECREF(exc)` on an exception: in `check_conversion_error`, where `exc` is
  the borrowed reference `PyErr_Occurred()` has returned, and in `py_error_handler` of
  `python_fli.c` and `python_vhpi.cpp`. -/
  | Py_DECREF_exc
  /-- The call `Py_DECREF(locals)` in `python_cleanup`. -/
  | Py_DECREF_locals
  /-- The call `Py_FinalizeEx()`. -/
  | Py_FinalizeEx
  /-- Text written with `printf`. -/
  | printf (text : String)
  /-- Text reported with `vhpi_assert`. -/
  | vhpi_assert (severity : vhpiSeverityT) (text : String)
  /-- The call `mti_FatalError()`. -/
  | mti_FatalError
  /-- The failing `assert(0)`. -/
  | assert_0
  /-- The call `vhpi_control(vhpiStop)`. -/
  | vhpi_control_stop
  /-- The store `arr[idx] = value` of an `int`. -/
  | store_int (idx : Nat) (value : Int)
  /-- The store `arr[idx] = value` of a `double`. -/
  | store_real (idx : Nat) (value : CDouble)
  /-- The call `malloc(n_bytes)`. -/
  | malloc (n_bytes : Int)
  /-- The call `free` on the buffer obtained from `malloc`. -/
  | free
  /-- The call `vhpi_put_value(cb_p->obj, &vhdl_result, mode)`. -/
  | vhpi_put_value (mode : vhpiPutValueModeT) (vhdl_result : vhpiValueT)

/-- Whether an action is the call of a halting primitive. -/
def Event.is_halting : Event → Bool
  | .mti_FatalError => true
  | .assert_0 => true
  | .vhpi_control_stop => true
  | _ => false

/-- Whether an action is the call `Py_FinalizeEx()`, made by `python_cleanup` and nowhere
else. -/
def Event.is_finalize : Event → Bool
  | .Py_FinalizeEx => true
  | _ => false

/-- Whether an action is the release `Py_DECREF` of an evaluation result. -/
def Event.is_release : Event → Bool
  | .Py_DECREF _ => true
  | _ => false

/-- Whether an action is the call `malloc`. -/
def Event.is_malloc : Event → Bool
  | .malloc _ => true
  | _ => false

/-- Whether an action is the call `free`. -/
def Event.is_free : Event → Bool
  | .free => true
  | _ => false

/-- Whether an action is a call `vhpi_put_value` with the mode `vhpiDeposit`. -/
def Event.is_deposit : Event → Bool
  | .vhpi_put_value .vhpiDeposit _ => true
  | _ => false

/-- The mutable state the bridge works on. -/
structure World where
  /-- The interpreter's error indicator (`PyErr_Occurred`), `none` when clear. -/
  err : Option PyErr
  /-- Whether the global `locals` is not `NULL`. -/
  locals_set : Bool
  /-- The actions performed so far, oldest first. -/
  trace : List Event

/-- What the interpreter and the platform decide on their own. -/
structure Env where
  /-- Width of the C type `long`. -/
  data_model : DataModel
  /-- Text of `PyObject_Str` followed by the UTF-8 encoding, for an object that is not a
  `str`; `none` when one of the two raises. -/
  py_str : PyObject → Option String
  /-- Result of `PyRun_String(expr, Py_eval_input, globals, locals)`: the value, or the
  exception raised. -/
  run_eval_input : String → Except PyErr PyObject
  /-- Result of `PyRun_String(code, Py_file_input, globals, locals)`: `none` on success, or
  the exception raised. -/
  run_file_input : String → Option PyErr
  /-- Whether `Py_IsInitialized()` holds after `Py_Initialize()`. -/
  is_initialized : Bool
  /-- Whether `PyImport_AddModule("__main__")` is not `NULL`. -/
  main_module : Bool
  /-- Whether `PyModule_GetDict(main_module)` is not `NULL`. -/
  module_dict : Bool
  /-- Whether `Py_FinalizeEx()` returns a non-zero status. -/
  finalize_fails : Bool
  /-- Result of `vhpi_check_error`: the pending error information of the host, if any. -/
  vhpi_error : Option vhpiErrorInfoT
  /-- The indeterminate contents of a fresh `malloc` block, cell by cell. -/
  heap_int : Nat → Int
  /-- The indeterminate contents of a fresh `malloc` block, cell by cell. -/
  heap_real : Nat → CDouble
  /-- What `strlen` finds at the address `get_string` has returned, once the object the text
  was taken from is released as well: the bytes in front of the first NUL there, given the
  text the released bytes object held; `none` when that memory is not mapped any more and the
  read faults. -/
  after_release : String → Option String
  /-- What the output primitive of a reporter finds at the address `get_string` has returned,
  once `Py_FinalizeEx` has run: the bytes in front of the first NUL there, given the text the
  released bytes object held. -/
  after_finalize : String → String

/-- The ways the embedded code leaves defined C behaviour. -/
inductive Undefined
  /-- A `NULL` pointer is dereferenced. -/
  | null_dereference
  /-- The store `arr[idx]` lies outside an array of `capacity` elements. -/
  | store_out_of_bounds (idx capacity : Nat)
  /-- Memory that has been released and is not mapped any more is read. -/
  | use_after_free
deriving DecidableEq

/-- How a call of a C function of the bridge ends. -/
inductive Outcome (α : Type)
  /-- The function returns `value` to its caller. -/
  | ret (value : α) (w : World)
  /-- The error reporter ran and its halting primitive stopped the run: nothing returns. -/
  | halted (w : World)
  /-- Undefined behaviour was reached. -/
  | undefined (why : Undefined) (w : World)

/-- The state in which a call ends. -/
def Outcome.world {α : Type} : Outcome α → World
  | .ret _ w => w
  | .halted w => w
  | .undefined _ w => w

/-- A C function of the bridge returning an `α`. -/
def M (α : Type) : Type := World → Outcome α

/-- No halting primitive has been called so far. -/
def World.running (w : World) : Bool := w.trace.all fun e => !e.is_halting

/-- A call ends with nothing done after a halting primitive: either the call returns, or
reaches undefined behaviour, and no halting primitive has been called; or the run is halted
and the call of the halting primitive is its last action, and the only such call. -/
def Outcome.halts_last {α : Type} : Outcome α → Prop
  | .ret _ w1 => w1.running = true
  | .undefined _ w1 => w1.running = true
  | .halted w1 =>
    ∃ pre e, w1.trace = pre ++ [e] ∧ e.is_halting = true
      ∧ (pre.all fun e => !e.is_halting) = true

/-- A C function that, called while the run is going on, ends with nothing done after a
halting primitive. -/
def nothing_after_halt {α : Type} (m : M α) : Prop :=
  ∀ w : World, w.running = true → (m w).halts_last

/-- Sequencing of two C statements. -/
def M.bind {α β : Type} (m : M α) (f : α → M β) : M β := fun w =>
  match m w with
  | .ret a w1 => f a w1
  | .halted w1 => .halted w1
  | .undefined u w1 => .undefined u w1

instance : Monad M where
  pure a := fun w => Outcome.ret a w
  bind := M.bind

/-- Appends one action to the trace. -/
def log (e : Event) : M Unit := fun w => .ret () { w with trace := w.trace ++ [e] }

/-- The state in which a run that leaves through a halting primitive stops. -/
def halt {α : Type} : M α := fun w => .halted w

/-- Undefined behaviour is reached. -/
def undefined_behaviour {α : Type} (why : Undefined) : M α := fun w => .undefined why w

/-- Reads the current state. -/
def get_world : M World := fun w => .ret w w

/-- Sets the interpreter's error indicator. -/
def set_err (e : Option PyErr) : M Unit := fun w => .ret () { w with err := e }

/-- Sets the global `locals` (with `globals`) to the dictionary of the main module. -/
def set_locals : M Unit := fun w => .ret () { w with locals_set := true }

/-! ## The shared code of `python_pkg.c` and the error reporters of the adapters -/

/-- The function `get_string` of `python_pkg.c`: `PyObject_Str`, then the UTF-8 encoding; `none`
is the `NULL` result. `PyObject_Str(NULL)` is the text `<NULL>`.
The C function returns `PyBytes_AS_STRING(str_utf_8)` after `Py_DECREF(str_utf_8)`: the
address of the bytes of an object it has released. The result here is the text at that
address when `get_string` returns, which is what `strncat` and `strcpy` copy at once in
`handle_type_check_error` and in the string operations of the FLI, GHDL and NVC adapters.
A caller that reads later does not read this text: `eval_string` of the VHPI adapter reads
after `Py_DECREF(pyobj)` (`Env.after_release`), the error reporters read after
`python_cleanup` (`Env.after_finalize`). -/
def get_string (env : Env) : Option PyObject → Option String
  | none => some "<NULL>"
  | some (.unicode utf8) => utf8
  | some pyobj => env.py_str pyobj

/-- The output primitive of an adapter's error reporter, as an action: `printf(text)`, or
`vhpi_assert(severity, text)` in the VHPI adapter. -/
def report_event (a : Adapter) (severity : vhpiSeverityT) (text : String) : Event :=
  match a with
  | .vhpi => .vhpi_assert severity text
  | _ => .printf text

/-- The halting primitive that ends an adapter's error reporter, as an action:
`mti_FatalError()`, `assert(0)`, or `vhpi_control(vhpiStop)`. -/
def halting_event : Adapter → Event
  | .fli => .mti_FatalError
  | .ghdl => .assert_0
  | .nvc => .assert_0
  | .vhpi => .vhpi_control_stop

/-- The call of the halting primitive.
Modelled from the spec: the primitives belong to the simulators and the C library; "the
Reporter never returns control to its caller". -/
def halting_primitive {α : Type} (a : Adapter) : M α := do
  log (halting_event a)
  halt

/-- The function `python_cleanup` of the adapters. -/
def python_cleanup (a : Adapter) (env : Env) : M Unit := do
  let w ← get_world
  if w.locals_set then
    log .Py_DECREF_locals
  log .Py_FinalizeEx
  if env.finalize_fails then
    match a with
    | .vhpi => log (.vhpi_assert .vhpiWarning "WARNING: Failed to finalize Python")
    | _ => log (.printf "WARNING: Failed to finalize Python\n")

/-- The function `py_error_handler` of the adapters, registered as the callback of
`python_pkg.c`; `none` stands for a `NULL` argument. A reason the caller supplies is a string
literal or the caller's array. A reason taken from the exception is the address `get_string`
has returned: the output primitive reads it after `python_cleanup()` when `cleanup` is set,
and then finds what the finalized interpreter has left there (`Env.after_finalize`), not
the text `get_string` has produced. -/
def py_error_handler {α : Type} (a : Adapter) (env : Env) (context : String)
    (code_or_expr : Option String) (reason : Option String) (cleanup : Bool) : M α := do
  let w ← get_world
  let extracted : Option String :=
    match reason, w.err with
    | none, some e => get_string env e.pvalue
    | _, _ => none
  if cleanup then
    python_cleanup a env
  let reason : String :=
    match reason, extracted with
    | some r, _ => r
    | none, some t => if cleanup then env.after_finalize t else t
    | none, none => "Unknown error"
  match code_or_expr with
  | none => log (report_event a .vhpiError ("ERROR " ++ context ++ ":\n\n" ++ reason ++ "\n\n"))
  | some code =>
    log (report_event a .vhpiError
      ("ERROR " ++ context ++ ":\n\n" ++ code ++ "\n\n" ++ reason ++ "\n\n"))
  halting_primitive a

/-- The function `ffi_error_handler` of the adapters. -/
def ffi_error_handler {α : Type} (a : Adapter) (env : Env) (context : String)
    (cleanup : Bool) : M α := do
  if cleanup then
    python_cleanup a env
  match a, env.vhpi_error with
  | .vhpi, some err =>
    log (.vhpi_assert err.severity
      ("ERROR " ++ context ++ ": \n\n" ++ err.file ++ " (" ++ toString err.line ++ "): "
        ++ err.message ++ "\n\n"))
  | _, _ => log (report_event a .vhpiError ("ERROR " ++ context ++ "\n\n"))
  halting_primitive a

/-- The function `check_conversion_error` of `python_pkg.c`. `PyErr_Occurred()` returns a
borrowed reference, so `Py_DECREF(exc)` releases a reference the function does not hold. The
call is recorded as the action `Py_DECREF_exc` and the reporter is entered as in the C
function; what the missing reference does to the interpreter when `python_cleanup()`
finalizes it inside the reporter is outside the model. -/
def check_conversion_error (a : Adapter) (env : Env) (expr : String) : M Unit := do
  let w ← get_world
  if w.err.isSome then
    log .Py_DECREF_exc
    py_error_handler a env "parsing evaluation result of" (some expr) none true

/-- The function `handle_type_check_error` of `python_pkg.c`. -/
def handle_type_check_error {α : Type} (a : Adapter) (env : Env) (pyobj : PyObject)
    (context expr : String) : M α :=
  match PyType_GetName pyobj with
  | none =>
    py_error_handler a env context (some expr) (some "Expression evaluates to an unknown type.")
      true
  | some type_name =>
    match get_string env (some type_name) with
    | none =>
      py_error_handler a env context (some expr)
        (some "Expression evaluates to an unknown type.") true
    | some type_name_str =>
      py_error_handler a env context (some expr)
        (some (strncat "Expression evaluates to " type_name_str 75)) true

/-- The function `eval` of `python_pkg.c`. -/
def eval (a : Adapter) (env : Env) (expr : String) : M PyObject :=
  match env.run_eval_input expr with
  | .ok pyobj => pure pyobj
  | .error e => do
    set_err (some e)
    py_error_handler a env "evaluating" (some expr) none true

/-- The function `PyLong_AsLong`: the value when it fits the C type `long`; otherwise `-1` with
an `OverflowError` raised. Called on an object that is not an `int` it raises a `TypeError`
(in `get_integer` the type check in front of it has then already left through the reporter). -/
def PyLong_AsLong (env : Env) : PyObject → M Int
  | .long _ v =>
    if LONG_MIN env.data_model ≤ v ∧ v ≤ LONG_MAX env.data_model then
      pure v
    else do
      set_err (some ⟨some (.unicode (some "Python int too large to convert to C long"))⟩)
      pure (-1)
  | _ => do
    set_err (some ⟨some (.unicode (some "an integer is required"))⟩)
    pure (-1)

/-- The function `PyFloat_AsDouble`: the value of a `float`. Called on another object it
raises a `TypeError` and returns `-1.0` (in `get_real` the type check in front of it has
then already left through the reporter). -/
def PyFloat_AsDouble : PyObject → M CDouble
  | .float _ d => pure d
  | _ => do
    set_err (some ⟨some (.unicode (some "must be real number"))⟩)
    pure (.finite (-1))

/-- The function `get_integer` of `python_pkg.c`. The comparison with `pow(2, 31) - 1` and
`-pow(2, 31)` is made on doubles; the conversion of a `long` to a double is monotone and
both bounds are doubles, so it decides as the comparison of the integers does. -/
def get_integer (a : Adapter) (env : Env) (pyobj : PyObject) (expr : String)
    (dec_ref_count : Bool) : M Int := do
  if !PyLong_Check pyobj then
    handle_type_check_error a env pyobj "evaluating to integer" expr
  let value ← PyLong_AsLong env pyobj
  if dec_ref_count then
    log (.Py_DECREF pyobj)
  check_conversion_error a env expr
  if value > 2 ^ 31 - 1 ∨ value < -(2 ^ 31) then
    py_error_handler a env "parsing evaluation result of" (some expr)
      (some "Result out of VHDL integer range.") true
  return to_int value

/-- The constant `3.4028234664e38` of `get_real`: the double nearest to that decimal,
`0x1.fffffe000981dp+127`. -/
def REAL_MAX : CDouble := .finite 340282346640000009197379598318649212928

/-- The function `get_real` of `python_pkg.c`. -/
def get_real (a : Adapter) (env : Env) (pyobj : PyObject) (expr : String)
    (dec_ref_count : Bool) : M CDouble := do
  if !PyFloat_Check pyobj then
    handle_type_check_error a env pyobj "evaluating to real" expr
  let value ← PyFloat_AsDouble pyobj
  if dec_ref_count then
    log (.Py_DECREF pyobj)
  check_conversion_error a env expr
  if CDouble.gt value REAL_MAX || CDouble.lt value REAL_MAX.neg then
    py_error_handler a env "parsing evaluation result of" (some expr)
      (some "Result out of VHDL real range.") true
  return value

/-! ## The vector loop and the host interfaces -/

/-- The macro `PyList_GET_SIZE` and the function `PyList_Size` on a list. -/
def PyList_GET_SIZE : PyObject → Nat
  | .list _ items => items.length
  | _ => 0

/-- The function `PyList_GetItem(list, idx)`: the item, or `NULL` with an `IndexError` raised
when `idx` is not an index of the list. -/
def PyList_GetItem (list : PyObject) (idx : Nat) : M (Option PyObject) :=
  match list with
  | .list _ items =>
    match items.get? idx with
    | some item => pure (some item)
    | none => do
      set_err (some ⟨some (.unicode (some "list index out of range"))⟩)
      pure none
  | _ => do
    set_err (some ⟨some (.unicode (some "bad argument to internal function"))⟩)
    pure none

/-- The store `arr[idx] = value` into a C array of `arr.length` elements; `none` is the `NULL`
pointer. -/
def store {γ : Type} (store_event : Nat → γ → Event) (arr : Option (List γ)) (idx : Nat)
    (value : γ) : M (Option (List γ)) :=
  match arr with
  | none => undefined_behaviour .null_dereference
  | some cells =>
    if idx < cells.length then do
      log (store_event idx value)
      pure (some (cells.set idx value))
    else
      undefined_behaviour (.store_out_of_bounds idx cells.length)

/-- The loop of the vector operations,
`for (int idx = 0; idx < bound; idx++) arr[idx] = get(PyList_GetItem(list, idx), expr, false);`
with `count` iterations left and `idx` the next index. `get` is `get_integer` or `get_real`;
called on the `NULL` that `PyList_GetItem` returns past the end of the list, it reads the
object's type through that pointer. -/
def fill_loop {γ : Type} (get : PyObject → M γ) (store_event : Nat → γ → Event)
    (list : PyObject) : Nat → Nat → Option (List γ) → M (Option (List γ))
  | 0, _, arr => pure arr
  | count + 1, idx, arr => do
    let item ← PyList_GetItem list idx
    match item with
    | none => undefined_behaviour .null_dereference
    | some pyobj =>
      let value ← get pyobj
      let arr ← store store_event arr idx value
      fill_loop get store_event list count (idx + 1) arr

/-- The function `malloc` called with an `int n_bytes` for elements of `elem_size` bytes. A
negative `n_bytes` is converted to a `size_t` above any object size and the result is `NULL`;
otherwise the block holds `n_bytes / elem_size` elements of indeterminate contents (the
allocator is taken to have memory left). -/
def malloc {γ : Type} (heap : Nat → γ) (n_bytes : Int) (elem_size : Nat) :
    M (Option (List γ)) := do
  log (.malloc n_bytes)
  if n_bytes < 0 then
    pure none
  else
    pure (some ((List.range (n_bytes.toNat / elem_size)).map heap))

/-- The constant `MAX_VHDL_PARAMETER_STRING_LENGTH`. -/
def MAX_VHDL_PARAMETER_STRING_LENGTH : Nat := 100000

/-- The C string held by a `char` array: the characters in front of the first NUL. -/
def c_str (bytes : List Char) : String := ⟨bytes.takeWhile (fun c => c ≠ Char.ofNat 0)⟩

/-- The function `get_parameter` of the FLI, GHDL and NVC adapters, on a VHDL string of
`param.length` characters: the characters are copied into the static array
`vhdl_parameter_string` (`mti_GetArrayVarValue`, `strncpy`, `memcpy`), then
`vhdl_parameter_string[length] = 0` is stored. That store lies inside the array when the
string is shorter than the array; for a longer string the copy has left the array before
it. -/
def copy_parameter (param : String) : M String :=
  if param.length < MAX_VHDL_PARAMETER_STRING_LENGTH then
    pure (c_str param.data)
  else
    undefined_behaviour (.store_out_of_bounds param.length MAX_VHDL_PARAMETER_STRING_LENGTH)

/-- The function `strncpy(dst, src, n)` on the bytes of the two arrays, for `n` bytes that
lie inside both: the bytes of `src` in front of its first NUL, at most `n` of them, are
copied, NULs are written behind them until `n` bytes are written, and `dst` keeps its bytes
from the index `n` on. -/
def strncpy (dst src : List Char) (n : Nat) : List Char :=
  let copied := (src.take n).takeWhile (fun c => c ≠ Char.ofNat 0)
  copied ++ List.replicate (n - copied.length) (Char.ofNat 0) ++ dst.drop n

/-- The function `memcpy(dst, src, n)` on the bytes of the two arrays, for `n` bytes that lie
inside both: the first `n` bytes of `src` are copied and `dst` keeps its bytes from the index
`n` on. -/
def memcpy (dst src : List Char) (n : Nat) : List Char :=
  src.take n ++ dst.drop n

/-- The function `strcpy(dst, src)` on the array `dst`; `none` is the `NULL` pointer, which
`strcpy` reads through. The bytes of the C string and its terminator are stored from the
index 0 on, and `dst` keeps the bytes behind them. -/
def strcpy (dst : List Char) (src : Option String) : M (List Char) :=
  match src with
  | none => undefined_behaviour .null_dereference
  | some s =>
    let bytes := (c_str s.data).data ++ [Char.ofNat 0]
    if bytes.length ≤ dst.length then
      pure (bytes ++ dst.drop bytes.length)
    else
      undefined_behaviour (.store_out_of_bounds dst.length dst.length)

/-- The function `get_parameter` of `python_pkg_vhpidirect_ghdl.c` on the bytes:
`vhdl_parameter_string` is the static array as the call finds it, `arr` the bytes of the
VHDL string (`expr->arr`, of `expr->bounds->dim_1.len` bytes); the result is the array the
returned pointer points to. -/
def GHDL.get_parameter_bytes (vhdl_parameter_string arr : List Char) : M (List Char) :=
  let length := arr.length
  if length ≤ vhdl_parameter_string.length then
    let vhdl_parameter_string := strncpy vhdl_parameter_string arr length
    if length < vhdl_parameter_string.length then
      pure (vhdl_parameter_string.set length (Char.ofNat 0))
    else
      undefined_behaviour (.store_out_of_bounds length vhdl_parameter_string.length)
  else
    undefined_behaviour
      (.store_out_of_bounds vhdl_parameter_string.length vhdl_parameter_string.length)

/-- The function `get_parameter` of `python_pkg_vhpidirect_nvc.c` on the bytes:
`vhdl_parameter_string` is the static array as the call finds it, `expr` the `length` bytes
of the VHDL string; the result is the array the returned pointer points to. -/
def NVC.get_parameter_bytes (vhdl_parameter_string expr : List Char) : M (List Char) :=
  let length := expr.length
  if length ≤ vhdl_parameter_string.length then
    let vhdl_parameter_string := memcpy vhdl_parameter_string expr length
    if length < vhdl_parameter_string.length then
      pure (vhdl_parameter_string.set length (Char.ofNat 0))
    else
      undefined_behaviour (.store_out_of_bounds length vhdl_parameter_string.length)
  else
    undefined_behaviour
      (.store_out_of_bounds vhdl_parameter_string.length vhdl_parameter_string.length)

/-- What the VHPI host answers during one call of a foreign subprogram (`cb_p`). -/
structure vhpiCbDataS where
  /-- Whether `vhpi_handle_by_index(vhpiParamDecls, cb_p->obj, 0)` is not `NULL`. -/
  parameter_handle : Bool
  /-- The string `vhpi_get_value` stores in the buffer; `none` when it returns non-zero. -/
  parameter : Option String
  /-- Whether `vhpi_put_value` returns non-zero. -/
  put_value_fails : vhpiPutValueModeT → vhpiValueT → Bool

/-- The call `vhpi_put_value(cb_p->obj, &vhdl_result, mode)`; `true` is a non-zero result. -/
def vhpi_put_value (cb_p : vhpiCbDataS) (vhdl_result : vhpiValueT) (mode : vhpiPutValueModeT) :
    M Bool := do
  log (.vhpi_put_value mode vhdl_result)
  pure (cb_p.put_value_fails mode vhdl_result)

/-- The function `strlen`: the number of characters in front of the first NUL. -/
def strlen (s : String) : Nat := (c_str s.data).length

/-- The Python code run by `python_setup` of the FLI, GHDL and NVC adapters: the class
`__EvalResult__` and its instance `__eval_result__`. -/
def eval_result_code : String :=
  "class __EvalResult__():\n" ++
  "    def __init__(self):\n" ++
  "        self._result = None\n" ++
  "    def set(self, expr):\n" ++
  "        self._result = expr\n" ++
  "        return len(self._result)\n" ++
  "    def get(self):\n" ++
  "        return self._result\n" ++
  "__eval_result__=__EvalResult__()\n"

/-- The function `python_setup` of the FLI, GHDL and NVC adapters, from `Py_Initialize()` on.
The calls `register_py_error_handler` and `register_ffi_error_handler` make the reporters of
the adapter those of the shared code: that is the parameter `a` of the shared functions. -/
def python_setup_common (a : Adapter) (env : Env) : M Unit := do
  log .Py_Initialize
  if !env.is_initialized then
    ffi_error_handler a env "Failed to initialize Python" false
  if !env.main_module then
    ffi_error_handler a env "Failed to get the main module" true
  if !env.module_dict then
    ffi_error_handler a env "Failed to get the global dictionary" true
  set_locals
  match env.run_file_input eval_result_code with
  | none => pure ()
  | some e => do
    set_err (some e)
    ffi_error_handler a env "Failed to initialize predefined Python objects" true

/-- The function `exec` of the adapters, after `get_parameter`. -/
def exec_code (a : Adapter) (env : Env) (code : String) : M Unit :=
  match env.run_file_input code with
  | none => pure ()
  | some e => do
    set_err (some e)
    py_error_handler a env "executing" (some code) none true

/-! ## `python_pkg_fli.c` -/

namespace FLI

/-- The function `python_setup` of `python_pkg_fli.c`. -/
def python_setup (env : Env) : M Unit := python_setup_common .fli env

/-- The function `python_cleanup` of `python_pkg_fli.c`. -/
def python_cleanup (env : Env) : M Unit := VUnit.python_cleanup .fli env

/-- The function `get_parameter` of `python_pkg_fli.c`. -/
def get_parameter (id : String) : M String := copy_parameter id

/-- The function `eval_integer` of `python_pkg_fli.c`. -/
def eval_integer (env : Env) (id : String) : M Int := do
  let expr ← get_parameter id
  let eval_result ← eval .fli env expr
  get_integer .fli env eval_result expr true

/-- The function `eval_real` of `python_pkg_fli.c`. -/
def eval_real (env : Env) (id : String) : M CDouble := do
  let expr ← get_parameter id
  let eval_result ← eval .fli env expr
  get_real .fli env eval_result expr true

/-- The function `p_get_integer_vector` of `python_pkg_fli.c`; `vec` is the VHDL array, whose
length `mti_TickLength` returns as `vec_len`, and the result is the array after the call. -/
def p_get_integer_vector (env : Env) (vec : List Int) : M (Option (List Int)) := do
  let eval_result ← eval .fli env "__eval_result__.get()"
  if !PyList_Check eval_result then
    handle_type_check_error .fli env eval_result "evaluating to integer_vector"
      "__eval_result__.get()"
  let arr ← fill_loop (fun item => get_integer .fli env item "__eval_result__.get()" false)
    Event.store_int eval_result vec.length 0 (some vec)
  log (.Py_DECREF eval_result)
  return arr

/-- The function `p_get_real_vector` of `python_pkg_fli.c`. -/
def p_get_real_vector (env : Env) (vec : List CDouble) : M (Option (List CDouble)) := do
  let eval_result ← eval .fli env "__eval_result__.get()"
  if !PyList_Check eval_result then
    handle_type_check_error .fli env eval_result "evaluating to real_vector"
      "__eval_result__.get()"
  let arr ← fill_loop (fun item => get_real .fli env item "__eval_result__.get()" false)
    Event.store_real eval_result vec.length 0 (some vec)
  log (.Py_DECREF eval_result)
  return arr

/-- The function `p_get_string` of `python_pkg_fli.c`; `vec` is the VHDL string, and the
result is that array after the call. -/
def p_get_string (env : Env) (vec : List Char) : M (List Char) := do
  let eval_result ← eval .fli env "__eval_result__.get()"
  let py_str := get_string env (some eval_result)
  let vhdl_str ← strcpy vec py_str
  log (.Py_DECREF eval_result)
  return vhdl_str

/-- The function `exec` of `python_pkg_fli.c`. -/
def exec (env : Env) (id : String) : M Unit := do
  let code ← get_parameter id
  exec_code .fli env code

end FLI

/-! ## `python_pkg_vhpidirect_ghdl.c` -/

namespace GHDL

/-- The function `python_setup` of `python_pkg_vhpidirect_ghdl.c`. -/
def python_setup (env : Env) : M Unit := do
  log (.putenv "PYTHONLEGACYWINDOWSDLLLOADING=1")
  log (.Py_SetPythonHome "c:\\msys64\\mingw64")
  python_setup_common .ghdl env

/-- The function `python_cleanup` of `python_pkg_vhpidirect_ghdl.c`. -/
def python_cleanup (env : Env) : M Unit := VUnit.python_cleanup .ghdl env

/-- The function `get_parameter` of `python_pkg_vhpidirect_ghdl.c`. -/
def get_parameter (expr : String) : M String := copy_parameter expr

/-- The function `eval_integer` of `python_pkg_vhpidirect_ghdl.c`. -/
def eval_integer (env : Env) (expr : String) : M Int := do
  let param ← get_parameter expr
  let eval_result ← eval .ghdl env param
  get_integer .ghdl env eval_result param true

/-- The function `eval_real` of `python_pkg_vhpidirect_ghdl.c`. -/
def eval_real (env : Env) (expr : String) : M CDouble := do
  let param ← get_parameter expr
  let eval_result ← eval .ghdl env param
  get_real .ghdl env eval_result param true

/-- The function `get_integer_vector` of `python_pkg_vhpidirect_ghdl.c`; `vec` is the VHDL array and the result is the
array after the call. -/
def get_integer_vector (env : Env) (vec : List Int) : M (Option (List Int)) := do
  let eval_result ← eval .ghdl env "__eval_result__.get()"
  if !PyList_Check eval_result then
    handle_type_check_error .ghdl env eval_result "evaluating to integer_vector"
      "__eval_result__.get()"
  let arr ← fill_loop (fun item => get_integer .ghdl env item "__eval_result__.get()" false)
    Event.store_int eval_result (PyList_GET_SIZE eval_result) 0 (some vec)
  log (.Py_DECREF eval_result)
  return arr

/-- The function `get_real_vector` of `python_pkg_vhpidirect_ghdl.c`. -/
def get_real_vector (env : Env) (vec : List CDouble) : M (Option (List CDouble)) := do
  let eval_result ← eval .ghdl env "__eval_result__.get()"
  if !PyList_Check eval_result then
    handle_type_check_error .ghdl env eval_result "evaluating to real_vector"
      "__eval_result__.get()"
  let arr ← fill_loop (fun item => get_real .ghdl env item "__eval_result__.get()" false)
    Event.store_real eval_result (PyList_GET_SIZE eval_result) 0 (some vec)
  log (.Py_DECREF eval_result)
  return arr

/-- The function `get_py_string` of `python_pkg_vhpidirect_ghdl.c`; `vec` is the VHDL
string, and the result is that array after the call. -/
def get_py_string (env : Env) (vec : List Char) : M (List Char) := do
  let eval_result ← eval .ghdl env "__eval_result__.get()"
  let py_str := get_string env (some eval_result)
  let vec ← strcpy vec py_str
  log (.Py_DECREF eval_result)
  return vec

/-- The function `exec` of `python_pkg_vhpidirect_ghdl.c`. -/
def exec (env : Env) (code : String) : M Unit := do
  let param ← get_parameter code
  exec_code .ghdl env param

end GHDL

/-! ## `python_pkg_vhpidirect_nvc.c` -/

namespace NVC

/-- The function `python_setup` of `python_pkg_vhpidirect_nvc.c`. -/
def python_setup (env : Env) : M Unit := python_setup_common .nvc env

/-- The function `python_cleanup` of `python_pkg_vhpidirect_nvc.c`. -/
def python_cleanup (env : Env) : M Unit := VUnit.python_cleanup .nvc env

/-- The function `get_parameter` of `python_pkg_vhpidirect_nvc.c`; the arguments
`expr` and `length` are the VHDL string and its length. -/
def get_parameter (expr : String) : M String := copy_parameter expr

/-- The function `eval_integer` of `python_pkg_vhpidirect_nvc.c`. -/
def eval_integer (env : Env) (expr : String) : M Int := do
  let param ← get_parameter expr
  let eval_result ← eval .nvc env param
  get_integer .nvc env eval_result param true

/-- The function `eval_real` of `python_pkg_vhpidirect_nvc.c`. -/
def eval_real (env : Env) (expr : String) : M CDouble := do
  let param ← get_parameter expr
  let eval_result ← eval .nvc env param
  get_real .nvc env eval_result param true

/-- The function `get_integer_vector` of `python_pkg_vhpidirect_nvc.c`; the arguments `vec`
and `length` are the VHDL array and its length, and the result is the array after the call. -/
def get_integer_vector (env : Env) (vec : List Int) : M (Option (List Int)) := do
  let eval_result ← eval .nvc env "__eval_result__.get()"
  if !PyList_Check eval_result then
    handle_type_check_error .nvc env eval_result "evaluating to integer_vector"
      "__eval_result__.get()"
  let arr ← fill_loop (fun item => get_integer .nvc env item "__eval_result__.get()" false)
    Event.store_int eval_result vec.length 0 (some vec)
  log (.Py_DECREF eval_result)
  return arr

/-- The function `get_real_vector` of `python_pkg_vhpidirect_nvc.c`. -/
def get_real_vector (env : Env) (vec : List CDouble) : M (Option (List CDouble)) := do
  let eval_result ← eval .nvc env "__eval_result__.get()"
  if !PyList_Check eval_result then
    handle_type_check_error .nvc env eval_result "evaluating to real_vector"
      "__eval_result__.get()"
  let arr ← fill_loop (fun item => get_real .nvc env item "__eval_result__.get()" false)
    Event.store_real eval_result vec.length 0 (some vec)
  log (.Py_DECREF eval_result)
  return arr

/-- The function `get_py_string` of `python_pkg_vhpidirect_nvc.c`; `vec` is the VHDL
string, and the result is that array after the call. -/
def get_py_string (env : Env) (vec : List Char) : M (List Char) := do
  let eval_result ← eval .nvc env "__eval_result__.get()"
  let py_str := get_string env (some eval_result)
  let vec ← strcpy vec py_str
  log (.Py_DECREF eval_result)
  return vec

/-- The function `exec` of `python_pkg_vhpidirect_nvc.c`. -/
def exec (env : Env) (code : String) : M Unit := do
  let param ← get_parameter code
  exec_code .nvc env param

end NVC

/-! ## `python_pkg_vhpi.c` -/

namespace VHPI

/-- The function `python_setup` of `python_pkg_vhpi.c`. -/
def python_setup (env : Env) : M Unit := do
  log .Py_Initialize
  if !env.is_initialized then
    ffi_error_handler .vhpi env "Failed to initialize Python" false
  if !env.main_module then
    ffi_error_handler .vhpi env "Failed to get the main module" true
  if !env.module_dict then
    ffi_error_handler .vhpi env "Failed to get the global dictionary" true
  set_locals

/-- The function `python_cleanup` of `python_pkg_vhpi.c`. -/
def python_cleanup (env : Env) : M Unit := VUnit.python_cleanup .vhpi env

/-- The function `get_parameter` of `python_pkg_vhpi.c`. -/
def get_parameter (env : Env) (cb_p : vhpiCbDataS) : M String := do
  if !cb_p.parameter_handle then
    ffi_error_handler .vhpi env "getting VHDL parameter handle" true
  match cb_p.parameter with
  | none => ffi_error_handler .vhpi env "getting VHDL parameter value" true
  | some vhdl_parameter_string => pure vhdl_parameter_string

/-- The function `eval_integer` of `python_pkg_vhpi.c`. -/
def eval_integer (env : Env) (cb_p : vhpiCbDataS) : M Unit := do
  let expr ← get_parameter env cb_p
  let eval_result ← eval .vhpi env expr
  let intg ← get_integer .vhpi env eval_result expr true
  let vhdl_result : vhpiValueT := { bufSize := 0, numElems := none, value := .intg intg }
  if (← vhpi_put_value cb_p vhdl_result .vhpiDeposit) then
    py_error_handler .vhpi env "returning result for evaluation of" (some expr) none true

/-- The function `eval_real` of `python_pkg_vhpi.c`. -/
def eval_real (env : Env) (cb_p : vhpiCbDataS) : M Unit := do
  let expr ← get_parameter env cb_p
  let eval_result ← eval .vhpi env expr
  let real ← get_real .vhpi env eval_result expr true
  let vhdl_result : vhpiValueT := { bufSize := 0, numElems := none, value := .real real }
  if (← vhpi_put_value cb_p vhdl_result .vhpiDeposit) then
    py_error_handler .vhpi env "returning result for evaluation of" (some expr) none true

/-- The function `eval_integer_vector` of `python_pkg_vhpi.c`; `sizeof(int)` is 4. -/
def eval_integer_vector (env : Env) (cb_p : vhpiCbDataS) : M Unit := do
  let expr ← get_parameter env cb_p
  let pyobj ← eval .vhpi env expr
  if !PyList_Check pyobj then
    handle_type_check_error .vhpi env pyobj "evaluating to integer_vector" expr
  let list_size : Int := to_int (PyList_GET_SIZE pyobj)
  let n_bytes : Int := to_int (list_size * 4)
  let int_array ← malloc env.heap_int n_bytes 4
  let int_array ← fill_loop (fun item => get_integer .vhpi env item expr false)
    Event.store_int pyobj list_size.toNat 0 int_array
  log (.Py_DECREF pyobj)
  let vhdl_result : vhpiValueT :=
    { bufSize := n_bytes, numElems := some list_size, value := .intgs int_array }
  if (← vhpi_put_value cb_p vhdl_result .vhpiSizeConstraint) then
    log .free
    py_error_handler .vhpi env
      "setting size constraints when returning result for evaluation of" (some expr) none true
  if (← vhpi_put_value cb_p vhdl_result .vhpiDeposit) then
    log .free
    py_error_handler .vhpi env "returning result for evaluation of" (some expr) none true
  log .free

/-- The function `eval_real_vector` of `python_pkg_vhpi.c`; `sizeof(double)` is 8. -/
def eval_real_vector (env : Env) (cb_p : vhpiCbDataS) : M Unit := do
  let expr ← get_parameter env cb_p
  let pyobj ← eval .vhpi env expr
  if !PyList_Check pyobj then
    handle_type_check_error .vhpi env pyobj "evaluating to real_vector" expr
  let list_size : Int := to_int (PyList_GET_SIZE pyobj)
  let n_bytes : Int := to_int (list_size * 8)
  let double_array ← malloc env.heap_real n_bytes 8
  let double_array ← fill_loop (fun item => get_real .vhpi env item expr false)
    Event.store_real pyobj list_size.toNat 0 double_array
  log (.Py_DECREF pyobj)
  let vhdl_result : vhpiValueT :=
    { bufSize := n_bytes, numElems := some list_size, value := .reals double_array }
  if (← vhpi_put_value cb_p vhdl_result .vhpiSizeConstraint) then
    log .free
    py_error_handler .vhpi env
      "setting size constraints when returning result for evaluation of" (some expr) none true
  if (← vhpi_put_value cb_p vhdl_result .vhpiDeposit) then
    log .free
    py_error_handler .vhpi env "returning result for evaluation of" (some expr) none true
  log .free

/-- The function `eval_string` of `python_pkg_vhpi.c`. The call `strlen(str)` reads through
`str`, which is `NULL` when `get_string` fails; otherwise `str` is the address of the bytes
`get_string` has released, read after `Py_DECREF(pyobj)`: the read faults when that memory
is not mapped any more, and otherwise the host is handed what is found there
(`Env.after_release`). -/
def eval_string (env : Env) (cb_p : vhpiCbDataS) : M Unit := do
  let expr ← get_parameter env cb_p
  let pyobj ← eval .vhpi env expr
  let str := get_string env (some pyobj)
  log (.Py_DECREF pyobj)
  match str with
  | none => undefined_behaviour .null_dereference
  | some released =>
    match env.after_release released with
    | none => undefined_behaviour .use_after_free
    | some str =>
      let vhdl_result : vhpiValueT :=
        { bufSize := strlen str + 1, numElems := some (to_int (strlen str)),
          value := .str (c_str str.data) }
      if (← vhpi_put_value cb_p vhdl_result .vhpiSizeConstraint) then
        py_error_handler .vhpi env
          "setting size constraints when returning result for evaluation of" (some expr) none
          true
      if (← vhpi_put_value cb_p vhdl_result .vhpiDeposit) then
        py_error_handler .vhpi env "returning result for evaluation of" (some expr) none true

/-- The function `exec` of `python_pkg_vhpi.c`. -/
def exec (env : Env) (cb_p : vhpiCbDataS) : M Unit := do
  let code ← get_parameter env cb_p
  exec_code .vhpi env code

end VHPI

/-! ## `python_fli.c` and `python_vhpi.cpp`: the copies of the marshaler -/

/-- The two files that hold a copy of the marshaler of their own, with their own static
`py_error_handler`. -/
inductive Standalone
  /-- The file `python_fli.c`. -/
  | python_fli
  /-- The file `python_vhpi.cpp`. -/
  | python_vhpi
deriving DecidableEq

/-- The host interface a file is written for: its output and halting primitives, and its
`python_cleanup`, are those of the adapter for that interface, statement by statement. -/
def Standalone.adapter : Standalone → Adapter
  | .python_fli => .fli
  | .python_vhpi => .vhpi

namespace Standalone

/-- The function `PyErr_GetRaisedException`: the exception being raised, the error indicator
being cleared; `none` is the `NULL` returned when the indicator is not set. An exception
raised without a value is created from its type, with no argument, when it is fetched: its
text is empty. -/
def PyErr_GetRaisedException : M (Option PyObject) := do
  let w ← get_world
  match w.err with
  | none => pure none
  | some e => do
    set_err none
    pure (some (e.pvalue.getD (.unicode (some ""))))

/-- The function `py_error_handler` of `python_fli.c` and of `python_vhpi.cpp`. As in the
adapters, a reason taken from the exception is read by the output primitive after
`python_cleanup()` when `cleanup` is set. -/
def py_error_handler {α : Type} (f : Standalone) (env : Env) (context : String)
    (code_or_expr : Option String) (reason : Option String) (cleanup : Bool) : M α := do
  let extracted : Option String ←
    (match reason with
    | some _ => pure none
    | none => do
      let exc ← PyErr_GetRaisedException
      match exc with
      | some exc => do
        let reason := get_string env (some exc)
        log .Py_DECREF_exc
        pure reason
      | none => pure none)
  if cleanup then
    python_cleanup f.adapter env
  let reason : String :=
    match reason, extracted with
    | some r, _ => r
    | none, some t => if cleanup then env.after_finalize t else t
    | none, none => "Unknown error"
  match code_or_expr with
  | none =>
    log (report_event f.adapter .vhpiError ("ERROR " ++ context ++ ":\n\n" ++ reason ++ "\n\n"))
  | some code =>
    log (report_event f.adapter .vhpiError
      ("ERROR " ++ context ++ ":\n\n" ++ code ++ "\n\n" ++ reason ++ "\n\n"))
  halting_primitive f.adapter

/-- The function `handle_type_check_error` of `python_fli.c` (the array `error_message[100]`
and `strncat` with the bound 75) and of `python_vhpi.cpp` (a `std::string`, the whole type
name appended). -/
def handle_type_check_error {α : Type} (f : Standalone) (env : Env) (pyobj : PyObject)
    (context expr : String) : M α :=
  match PyType_GetName pyobj with
  | none =>
    py_error_handler f env context (some expr) (some "Expression evaluates to an unknown type.")
      true
  | some type_name =>
    match get_string env (some type_name) with
    | none =>
      py_error_handler f env context (some expr)
        (some "Expression evaluates to an unknown type.") true
    | some type_name_str =>
      match f with
      | .python_fli =>
        py_error_handler f env context (some expr)
          (some (strncat "Expression evaluates to " type_name_str 75)) true
      | .python_vhpi =>
        py_error_handler f env context (some expr)
          (some ("Expression evaluates to " ++ type_name_str)) true

/-- The function `check_conversion_error` of `python_fli.c` and of `python_vhpi.cpp`. -/
def check_conversion_error (f : Standalone) (env : Env) (expr : String) : M Unit := do
  let w ← get_world
  if w.err.isSome then
    log .Py_DECREF_exc
    match f with
    | .python_fli =>
      py_error_handler f env "target type casting evaluation result of" (some expr) none true
    | .python_vhpi =>
      py_error_handler f env "parsing evaluation result of" (some expr) none true

/-- The function `get_integer` of `python_fli.c` and of `python_vhpi.cpp`. -/
def get_integer (f : Standalone) (env : Env) (pyobj : PyObject) (expr : String)
    (dec_ref_count : Bool) : M Int := do
  if !PyLong_Check pyobj then
    handle_type_check_error f env pyobj "evaluating to integer" expr
  let value ← PyLong_AsLong env pyobj
  if dec_ref_count then
    log (.Py_DECREF pyobj)
  check_conversion_error f env expr
  if value > 2 ^ 31 - 1 ∨ value < -(2 ^ 31) then
    py_error_handler f env "parsing evaluation result of" (some expr)
      (some "Result out of VHDL integer range.") true
  return to_int value

/-- The function `get_real` of `python_fli.c` and of `python_vhpi.cpp`. -/
def get_real (f : Standalone) (env : Env) (pyobj : PyObject) (expr : String)
    (dec_ref_count : Bool) : M CDouble := do
  if !PyFloat_Check pyobj then
    handle_type_check_error f env pyobj "evaluating to real" expr
  let value ← PyFloat_AsDouble pyobj
  if dec_ref_count then
    log (.Py_DECREF pyobj)
  check_conversion_error f env expr
  if CDouble.gt value REAL_MAX || CDouble.lt value REAL_MAX.neg then
    py_error_handler f env "parsing evaluation result of" (some expr)
      (some "Result out of VHDL real range.") true
  return value

end Standalone

/-! ## Objects and sessions used to instantiate the theorems -/

/-- The type object of `int`. -/
def PyLong_Type : PyTypeObject := ⟨some (some "int")⟩

/-- The type object of `float`. -/
def PyFloat_Type : PyTypeObject := ⟨some (some "float")⟩

/-- The type object of `list`. -/
def PyList_Type : PyTypeObject := ⟨some (some "list")⟩

/-- The type object of `tuple`. -/
def PyTuple_Type : PyTypeObject := ⟨some (some "tuple")⟩

/-- The bytes a read finds in the memory of an interpreter that has been finalized: here two
bytes that are no text of the session. -/
def stale_bytes : String := "\x01\x02"

/-- A session on an LP64 platform whose interpreter evaluates every expression to `result`,
finalizes cleanly and has no host error pending. A released block of less than 128 KiB keeps
its bytes until the interpreter is finalized; a larger one is returned to the system at once,
and a read of it faults. After `Py_FinalizeEx` the memory of the interpreter holds other
bytes. -/
def session (result : Except PyErr PyObject) : Env :=
  { data_model := .lp64
    py_str := fun _ => none
    run_eval_input := fun _ => result
    run_file_input := fun _ => none
    is_initialized := true
    main_module := true
    module_dict := true
    finalize_fails := false
    vhpi_error := none
    heap_int := fun _ => 0
    heap_real := fun _ => .finite 0
    after_release := fun text => if text.length < 131072 then some text else none
    after_finalize := fun _ => stale_bytes }

/-- The state after `python_setup`: no exception pending, `locals` set, nothing done yet. -/
def ready : World := { err := none, locals_set := true, trace := [] }

/-- The state before `python_setup`: `locals` is `NULL`, nothing done yet. -/
def not_set_up : World := { err := none, locals_set := false, trace := [] }

/-- A class name of 76 characters: 75 times `a`, then `b`. -/
def long_type_name : String := String.mk (List.replicate 75 'a' ++ ['b'])

/-- A call of a VHPI foreign subprogram in which the host hands over the parameter `expr` and
accepts every put. -/
def accepting_call (expr : String) : vhpiCbDataS :=
  { parameter_handle := true, parameter := some expr, put_value_fails := fun _ _ => false }

/-- A call of a VHPI foreign subprogram in which the host hands over the parameter `expr` and
refuses every put of the mode `refused`. -/
def refusing_call (expr : String) (refused : vhpiPutValueModeT) : vhpiCbDataS :=
  { parameter_handle := true, parameter := some expr,
    put_value_fails := fun mode _ => decide (mode = refused) }

/-! ## The class `__EvalResult__` of `eval_result_code` -/

/-- The object `None`. -/
def Py_None : PyObject := .other ⟨some (some "NoneType")⟩

/-- An instance of the class `__EvalResult__`: its attribute `_result`. -/
structure __EvalResult__ where
  _result : PyObject

namespace __EvalResult__

/-- The method `__init__`: `self._result = None`. -/
def __init__ : __EvalResult__ := { _result := Py_None }

/-- The method `set`: `self._result = expr`, then `return len(self._result)`. The builtin
`len` is a parameter: the length of a value that has one, the exception raised for a value
that has none. The result is the value returned or the exception raised, and the instance
after the call. -/
def set (len : PyObject → Except PyErr Nat) (self : __EvalResult__) (expr : PyObject) :
    Except PyErr PyObject × __EvalResult__ :=
  let self := { self with _result := expr }
  ((len self._result).map fun n => PyObject.long PyLong_Type n, self)

/-- The method `get`: `return self._result`. The result is the value returned and the
instance after the call. -/
def get (self : __EvalResult__) : PyObject × __EvalResult__ := (self._result, self)

end __EvalResult__

/-- The instance `__eval_result__=__EvalResult__()` that `python_setup` creates. -/
def __eval_result__ : __EvalResult__ := __EvalResult__.__init__

/-- The builtin `len` on the objects of the model whose length the model holds: the number of
items of a list; on the others, a `TypeError`. -/
def len_of_list : PyObject → Except PyErr Nat
  | .list _ items => .ok items.length
  | _ => .error ⟨some (.unicode (some "object has no len()"))⟩

/-! ## The scopes `globals` and `locals` -/

/-- The start tokens of `PyRun_String`. -/
inductive StartToken
  /-- The token `Py_eval_input`: the text is an expression. -/
  | Py_eval_input
  /-- The token `Py_file_input`: the text is a sequence of statements. -/
  | Py_file_input
deriving DecidableEq

/-- The interpreter as the bridge calls it, over the states `σ` it can be in. An object is
named by its address; what the functions answer is left to the interpreter. -/
structure Interpreter (σ : Type) where
  /-- The function `Py_Initialize`: the state of the interpreter once it is started. -/
  Py_Initialize : σ → σ
  /-- The function `PyModule_GetDict` on the module `__main__`: the address of its
  dictionary. -/
  PyModule_GetDict : σ → Nat
  /-- The function `PyRun_String(str, start, globals, locals)`, `none` standing for a `NULL`
  handle: the value, or the exception raised, and the state the interpreter is left in. -/
  PyRun_String : String → StartToken → Option Nat → Option Nat → σ → Except PyErr PyObject × σ

/-- The global variables `globals` and `locals` of an adapter (`none` for `NULL`, their
initial value), next to the state of the interpreter. -/
structure Scopes (σ : Type) where
  /-- The variable `globals`. -/
  globals : Option Nat
  /-- The variable `locals`. -/
  locals : Option Nat
  /-- The state of the interpreter. -/
  interpreter : σ

/-- What the interpreter decides in a call made with the scopes `sc`: the answers
`run_eval_input` and `run_file_input` are those of `PyRun_String` for the handles `globals`
and `locals` and the state the interpreter is in. -/
def Scopes.env {σ : Type} (I : Interpreter σ) (sc : Scopes σ) (env : Env) : Env :=
  { env with
    run_eval_input := fun expr =>
      (I.PyRun_String expr .Py_eval_input sc.globals sc.locals sc.interpreter).1
    run_file_input := fun code =>
      match (I.PyRun_String code .Py_file_input sc.globals sc.locals sc.interpreter).1 with
      | .ok _ => none
      | .error e => some e }

/-- The value returned, without the scopes. -/
def Outcome.value {α β : Type} : Outcome (α × β) → Outcome α
  | .ret x w => .ret x.1 w
  | .halted w => .halted w
  | .undefined why w => .undefined why w

namespace Scoped

/-- The function `python_setup` of the FLI, GHDL and NVC adapters from `Py_Initialize()` on,
with the two variables and the interpreter explicit. -/
def python_setup_common {σ : Type} (a : Adapter) (I : Interpreter σ) (env : Env)
    (sc : Scopes σ) : M (Unit × Scopes σ) := do
  log .Py_Initialize
  let sc := { sc with interpreter := I.Py_Initialize sc.interpreter }
  if !env.is_initialized then
    ffi_error_handler a env "Failed to initialize Python" false
  if !env.main_module then
    ffi_error_handler a env "Failed to get the main module" true
  let sc := { sc with
    globals := if env.module_dict then some (I.PyModule_GetDict sc.interpreter) else none }
  if !env.module_dict then
    ffi_error_handler a env "Failed to get the global dictionary" true
  let sc := { sc with locals := sc.globals }
  set_locals
  match I.PyRun_String eval_result_code .Py_file_input sc.globals sc.locals sc.interpreter with
  | (.ok _, interpreter) => pure ((), { sc with interpreter := interpreter })
  | (.error e, _) => do
    set_err (some e)
    ffi_error_handler a env "Failed to initialize predefined Python objects" true

/-- The function `python_setup` of `python_pkg_vhpi.c`, with the two variables and the
interpreter explicit. -/
def vhpi_python_setup {σ : Type} (I : Interpreter σ) (env : Env) (sc : Scopes σ) :
    M (Unit × Scopes σ) := do
  log .Py_Initialize
  let sc := { sc with interpreter := I.Py_Initialize sc.interpreter }
  if !env.is_initialized then
    ffi_error_handler .vhpi env "Failed to initialize Python" false
  if !env.main_module then
    ffi_error_handler .vhpi env "Failed to get the main module" true
  let sc := { sc with
    globals := if env.module_dict then some (I.PyModule_GetDict sc.interpreter) else none }
  if !env.module_dict then
    ffi_error_handler .vhpi env "Failed to get the global dictionary" true
  let sc := { sc with locals := sc.globals }
  set_locals
  pure ((), sc)

/-- The function `python_setup` of each adapter, with the two variables and the interpreter
explicit. -/
def python_setup {σ : Type} (a : Adapter) (I : Interpreter σ) (env : Env) (sc : Scopes σ) :
    M (Unit × Scopes σ) :=
  match a with
  | .fli => python_setup_common .fli I env sc
  | .ghdl => do
    log (.putenv "PYTHONLEGACYWINDOWSDLLLOADING=1")
    log (.Py_SetPythonHome "c:\\msys64\\mingw64")
    python_setup_common .ghdl I env sc
  | .nvc => python_setup_common .nvc I env sc
  | .vhpi => vhpi_python_setup I env sc

/-- The function `eval` of `python_pkg.c`, with the two variables and the interpreter
explicit. -/
def eval {σ : Type} (a : Adapter) (I : Interpreter σ) (env : Env) (expr : String)
    (sc : Scopes σ) : M (PyObject × Scopes σ) :=
  match I.PyRun_String expr .Py_eval_input sc.globals sc.locals sc.interpreter with
  | (.ok pyobj, interpreter) => pure (pyobj, { sc with interpreter := interpreter })
  | (.error e, _) => do
    set_err (some e)
    py_error_handler a env "evaluating" (some expr) none true

/-- The function `exec` of the adapters after `get_parameter`, with the two variables and the
interpreter explicit. -/
def exec_code {σ : Type} (a : Adapter) (I : Interpreter σ) (env : Env) (code : String)
    (sc : Scopes σ) : M (Unit × Scopes σ) :=
  match I.PyRun_String code .Py_file_input sc.globals sc.locals sc.interpreter with
  | (.ok _, interpreter) => pure ((), { sc with interpreter := interpreter })
  | (.error e, _) => do
    set_err (some e)
    py_error_handler a env "executing" (some code) none true

/-- The function `exec` of the FLI, GHDL and NVC adapters, with the two variables and the
interpreter explicit. -/
def exec {σ : Type} (a : Adapter) (I : Interpreter σ) (env : Env) (code : String)
    (sc : Scopes σ) : M (Unit × Scopes σ) := do
  let param ← copy_parameter code
  exec_code a I env param sc

/-- The function `eval_integer` of the FLI, GHDL and NVC adapters, with the two variables
and the interpreter explicit. -/
def eval_integer {σ : Type} (a : Adapter) (I : Interpreter σ) (env : Env) (expr : String)
    (sc : Scopes σ) : M (Int × Scopes σ) := do
  let param ← copy_parameter expr
  let (eval_result, sc) ← eval a I env param sc
  let value ← get_integer a env eval_result param true
  return (value, sc)

/-- The function `exec` of `python_pkg_vhpi.c`, with the two variables and the interpreter
explicit. -/
def vhpi_exec {σ : Type} (I : Interpreter σ) (env : Env) (cb_p : vhpiCbDataS)
    (sc : Scopes σ) : M (Unit × Scopes σ) := do
  let code ← VHPI.get_parameter env cb_p
  exec_code .vhpi I env code sc

/-- The function `eval_integer` of `python_pkg_vhpi.c`, with the two variables and the
interpreter explicit. -/
def vhpi_eval_integer {σ : Type} (I : Interpreter σ) (env : Env) (cb_p : vhpiCbDataS)
    (sc : Scopes σ) : M (Unit × Scopes σ) := do
  let expr ← VHPI.get_parameter env cb_p
  let (eval_result, sc) ← eval .vhpi I env expr sc
  let intg ← get_integer .vhpi env eval_result expr true
  let vhdl_result : vhpiValueT := { bufSize := 0, numElems := none, value := .intg intg }
  if (← vhpi_put_value cb_p vhdl_result .vhpiDeposit) then
    py_error_handler .vhpi env "returning result for evaluation of" (some expr) none true
  return ((), sc)

end Scoped

/-- The digits of a decimal number. -/
def parse_digits (cs : List Char) : Option Nat :=
  if cs ≠ [] ∧ cs.all Char.isDigit = true then
    some (cs.foldl (fun n c => 10 * n + (c.toNat - '0'.toNat)) 0)
  else none

/-- The statement `name = number`: the name and the number. -/
def parse_assignment (code : String) : Option (String × Int) :=
  match code.data.dropWhile (fun c => c ≠ ' ') with
  | ' ' :: '=' :: ' ' :: digits =>
    (parse_digits digits).map fun n => (String.mk (code.data.takeWhile (fun c => c ≠ ' ')), n)
  | _ => none

/-- Modelled from the spec: a fragment of the interpreter, which is not code of this
repository. "Expressions and statements see and mutate the same namespace, so state set by
one `exec` call is visible to a later `eval` call." The state is the list of the bindings
made, newest first, each with the address of the dictionary that holds it. A statement
`name = number` binds the name in the dictionary `locals`; any other code binds nothing. An
expression is a name: it is looked up in `locals`, then in `globals`, and a name bound in
neither raises a `NameError`. The dictionary of `__main__` is at the address 1. -/
def namespace_interpreter : Interpreter (List (Nat × String × Int)) where
  Py_Initialize := fun _ => []
  PyModule_GetDict := fun _ => 1
  PyRun_String := fun str start globals locals bindings =>
    match start with
    | .Py_file_input =>
      match parse_assignment str, locals with
      | some (name, v), some dict => (.ok Py_None, (dict, name, v) :: bindings)
      | _, _ => (.ok Py_None, bindings)
    | .Py_eval_input =>
      match bindings.find? (fun b => decide (some b.1 = locals ∧ b.2.1 = str)) with
      | some b => (.ok (.long PyLong_Type b.2.2), bindings)
      | none =>
        match bindings.find? (fun b => decide (some b.1 = globals ∧ b.2.1 = str)) with
        | some b => (.ok (.long PyLong_Type b.2.2), bindings)
        | none =>
          (.error ⟨some (.unicode (some ("name " ++ str ++ " is not defined")))⟩, bindings)

/-- The scopes before `python_setup`: both variables are `NULL`. -/
def no_scopes : Scopes (List (Nat × String × Int)) :=
  { globals := none, locals := none, interpreter := [] }

/-! ## Sequencing -/

@[simp] theorem bind_apply {α β : Type} (m : M α) (f : α → M β) (w : World) :
    (m >>= f) w =
      match m w with
      | .ret a w1 => f a w1
      | .halted w1 => .halted w1
      | .undefined u w1 => .undefined u w1 := rfl

@[simp] theorem pure_apply {α : Type} (a : α) (w : World) : (pure a : M α) w = .ret a w := rfl

@[simp] theorem log_apply (e : Event) (w : World) :
    log e w = .ret () { w with trace := w.trace ++ [e] } := rfl

@[simp] theorem get_world_apply (w : World) : get_world w = .ret w w := rfl

@[simp] theorem set_err_apply (e : Option PyErr) (w : World) :
    set_err e w = .ret () { w with err := e } := rfl

@[simp] theorem halt_apply {α : Type} (w : World) : (halt : M α) w = .halted w := rfl

@[simp] theorem undefined_behaviour_apply {α : Type} (why : Undefined) (w : World) :
    (undefined_behaviour why : M α) w = .undefined why w := rfl

/-! ## The error reporter -/

/-- The function `python_cleanup` returns, and leaves the error indicator and `locals` as they
are. -/
theorem python_cleanup_ret (a : Adapter) (env : Env) (w : World) :
    ∃ events, python_cleanup a env w = .ret () { w with trace := w.trace ++ events } := by
  unfold python_cleanup
  cases hl : w.locals_set <;> cases hf : env.finalize_fails <;> cases a <;> simp [hl, hf]

/-- The reporter `py_error_handler` never returns: the run halts, in a state that does not
depend on the type of the result its caller expects. -/
theorem py_error_handler_halted (a : Adapter) (env : Env) (context : String)
    (code_or_expr reason : Option String) (cleanup : Bool) (w : World) :
    ∃ w1, ∀ α : Type,
      (py_error_handler a env context code_or_expr reason cleanup : M α) w = .halted w1 := by
  obtain ⟨events, hc⟩ := python_cleanup_ret a env w
  unfold py_error_handler halting_primitive
  cases cleanup <;> cases code_or_expr <;> simp [hc]

/-- What follows a call of `py_error_handler` is not executed. -/
@[simp] theorem py_error_handler_then {α β : Type} (f : α → World → Outcome β) (a : Adapter)
    (env : Env) (context : String) (code_or_expr reason : Option String) (cleanup : Bool)
    (w : World) :
    (match (py_error_handler a env context code_or_expr reason cleanup : M α) w with
      | .ret x w1 => f x w1
      | .halted w1 => .halted w1
      | .undefined u w1 => .undefined u w1)
      = (py_error_handler a env context code_or_expr reason cleanup : M β) w := by
  obtain ⟨w1, h⟩ := py_error_handler_halted a env context code_or_expr reason cleanup w
  simp [h]

/-- The reporter `handle_type_check_error` is a call of `py_error_handler` with the context it
was given, the expression, a reason, and the request to clean up. -/
theorem handle_type_check_error_eq (a : Adapter) (env : Env) (pyobj : PyObject)
    (context expr : String) :
    ∃ reason, ∀ (α : Type) (w : World),
      (handle_type_check_error a env pyobj context expr : M α) w
        = py_error_handler a env context (some expr) (some reason) true w := by
  unfold handle_type_check_error
  cases h1 : PyType_GetName pyobj with
  | none => exact ⟨_, fun _ _ => rfl⟩
  | some type_name =>
    cases h2 : get_string env (some type_name) with
    | none => exact ⟨"Expression evaluates to an unknown type.", fun _ _ => by simp only [h2]⟩
    | some type_name_str =>
      exact ⟨strncat "Expression evaluates to " type_name_str 75, fun _ _ => by simp only [h2]⟩

/-- What follows a call of `handle_type_check_error` is not executed. -/
@[simp] theorem handle_type_check_error_then {α β : Type} (f : α → World → Outcome β)
    (a : Adapter) (env : Env) (pyobj : PyObject) (context expr : String) (w : World) :
    (match (handle_type_check_error a env pyobj context expr : M α) w with
      | .ret x w1 => f x w1
      | .halted w1 => .halted w1
      | .undefined u w1 => .undefined u w1)
      = (handle_type_check_error a env pyobj context expr : M β) w := by
  obtain ⟨reason, h⟩ := handle_type_check_error_eq a env pyobj context expr
  simp [h]

/-- The reporter `handle_type_check_error` never returns: the run halts. -/
theorem handle_type_check_error_halted (a : Adapter) (env : Env) (pyobj : PyObject)
    (context expr : String) (w : World) :
    ∃ w1, ∀ α : Type,
      (handle_type_check_error a env pyobj context expr : M α) w = .halted w1 := by
  obtain ⟨reason, h⟩ := handle_type_check_error_eq a env pyobj context expr
  obtain ⟨w1, h1⟩ := py_error_handler_halted a env context (some expr) (some reason) true w
  exact ⟨w1, fun α => (h α w).trans (h1 α)⟩

/-- When the type name of the object can be obtained, `handle_type_check_error` reports
"Expression evaluates to " followed by at most 75 characters of it. -/
theorem handle_type_check_error_named {α : Type} (a : Adapter) (env : Env) (pyobj : PyObject)
    (context expr name : String) (w : World) (hname : (Py_TYPE pyobj).name = some (some name)) :
    (handle_type_check_error a env pyobj context expr : M α) w
      = py_error_handler a env context (some expr)
          (some (strncat "Expression evaluates to " name 75)) true w := by
  simp [handle_type_check_error, PyType_GetName, hname, get_string]

/-! ## Scalars -/

theorem to_int_of_range (v : Int) (hlo : -(2 ^ 31) ≤ v) (hhi : v ≤ 2 ^ 31 - 1) :
    to_int v = v := by
  unfold to_int
  omega

theorem long_range (dm : DataModel) (v : Int) (hlo : -(2 ^ 31) ≤ v) (hhi : v ≤ 2 ^ 31 - 1) :
    LONG_MIN dm ≤ v ∧ v ≤ LONG_MAX dm := by
  cases dm <;> simp [LONG_MIN, LONG_MAX, DataModel.long_bits] <;> omega

/-- On an `int` inside the 32-bit range, with no exception pending, `get_integer` returns the
value; it releases the object when asked to and does nothing else. -/
theorem get_integer_ret (a : Adapter) (env : Env) (tp : PyTypeObject) (v : Int)
    (expr : String) (dec_ref_count : Bool) (w : World) (hw : w.err = none)
    (hlo : -(2 ^ 31) ≤ v) (hhi : v ≤ 2 ^ 31 - 1) :
    get_integer a env (.long tp v) expr dec_ref_count w
      = .ret v { w with trace := w.trace ++
          (if dec_ref_count then [Event.Py_DECREF (.long tp v)] else []) } := by
  have h1 := long_range env.data_model v hlo hhi
  have h2 : ¬ (2147483647 < v) := by omega
  have h3 : ¬ (v < -2147483648) := by omega
  obtain ⟨err, locals_set, trace⟩ := w
  simp only at hw
  subst hw
  cases dec_ref_count <;>
    simp [get_integer, PyLong_Check, PyLong_AsLong, h1, check_conversion_error, h2, h3,
      to_int_of_range v hlo hhi]

/-- On an `int` that fits the C type `long` but not the 32-bit range, with no exception
pending, `get_integer` reports the range error. -/
theorem get_integer_range_error (a : Adapter) (env : Env) (tp : PyTypeObject) (v : Int)
    (expr : String) (dec_ref_count : Bool) (w : World) (hw : w.err = none)
    (hfit : LONG_MIN env.data_model ≤ v ∧ v ≤ LONG_MAX env.data_model)
    (h : v < -(2 ^ 31) ∨ 2 ^ 31 - 1 < v) :
    get_integer a env (.long tp v) expr dec_ref_count w
      = py_error_handler a env "parsing evaluation result of" (some expr)
          (some "Result out of VHDL integer range.") true
          { w with trace := w.trace ++
            (if dec_ref_count then [Event.Py_DECREF (.long tp v)] else []) } := by
  have h2 : 2147483647 < v ∨ v < -2147483648 := by omega
  obtain ⟨err, locals_set, trace⟩ := w
  simp only at hw
  subst hw
  cases dec_ref_count <;>
    simp [get_integer, PyLong_Check, PyLong_AsLong, hfit, check_conversion_error, h2]

/-- On an `int` that does not fit the C type `long`, `get_integer` reports the exception
raised by the conversion. -/
theorem get_integer_conversion_error (a : Adapter) (env : Env) (tp : PyTypeObject) (v : Int)
    (expr : String) (dec_ref_count : Bool) (w : World)
    (hfit : ¬ (LONG_MIN env.data_model ≤ v ∧ v ≤ LONG_MAX env.data_model)) :
    get_integer a env (.long tp v) expr dec_ref_count w
      = py_error_handler a env "parsing evaluation result of" (some expr) none true
          { w with
            err := some ⟨some (.unicode (some "Python int too large to convert to C long"))⟩
            trace := w.trace ++
              (if dec_ref_count then [Event.Py_DECREF (.long tp v)] else []) ++
              [Event.Py_DECREF_exc] } := by
  cases dec_ref_count <;>
    simp [get_integer, PyLong_Check, PyLong_AsLong, hfit, check_conversion_error]

/-- On an `int` that fits the C type `long`, entered with an exception pending, `get_integer`
reports that exception. -/
theorem get_integer_pending (a : Adapter) (env : Env) (tp : PyTypeObject) (v : Int)
    (expr : String) (dec_ref_count : Bool) (w : World) (e : PyErr) (hw : w.err = some e)
    (hfit : LONG_MIN env.data_model ≤ v ∧ v ≤ LONG_MAX env.data_model) :
    get_integer a env (.long tp v) expr dec_ref_count w
      = py_error_handler a env "parsing evaluation result of" (some expr) none true
          { w with trace := w.trace ++
              (if dec_ref_count then [Event.Py_DECREF (.long tp v)] else []) ++
              [Event.Py_DECREF_exc] } := by
  cases dec_ref_count <;>
    simp [get_integer, PyLong_Check, PyLong_AsLong, hfit, check_conversion_error, hw]

/-- C1: for every `int` value `v` with `-2^31 ≤ v ≤ 2^31 - 1` (and no exception pending on
entry, as after a successful `eval`), `get_integer` returns exactly `v`; its only action is the
release of the object when `dec_ref_count` is set, so the error reporter is not invoked. Hence
`eval_integer` of the FLI, GHDL and NVC adapters returns `v` for every parameter that evaluates
to `v`, and `eval_integer` of the VHPI adapter deposits `v` with `vhpi_put_value`. -/
theorem get_integer_in_range (a : Adapter) (env : Env) (tp : PyTypeObject) (v : Int)
    (expr : String) (dec_ref_count : Bool) (w : World) (hw : w.err = none)
    (hlo : -(2 ^ 31) ≤ v) (hhi : v ≤ 2 ^ 31 - 1) :
    get_integer a env (.long tp v) expr dec_ref_count w
        = .ret v { w with trace := w.trace ++
            (if dec_ref_count then [Event.Py_DECREF (.long tp v)] else []) }
    ∧ (∀ param : String, param.length < MAX_VHDL_PARAMETER_STRING_LENGTH →
        env.run_eval_input (c_str param.data) = .ok (.long tp v) →
        FLI.eval_integer env param w
            = .ret v { w with trace := w.trace ++ [Event.Py_DECREF (.long tp v)] }
        ∧ GHDL.eval_integer env param w
            = .ret v { w with trace := w.trace ++ [Event.Py_DECREF (.long tp v)] }
        ∧ NVC.eval_integer env param w
            = .ret v { w with trace := w.trace ++ [Event.Py_DECREF (.long tp v)] })
    ∧ (∀ (cb_p : vhpiCbDataS) (param : String), cb_p.parameter_handle = true →
        cb_p.parameter = some param → env.run_eval_input param = .ok (.long tp v) →
        cb_p.put_value_fails .vhpiDeposit ⟨0, none, .intg v⟩ = false →
        VHPI.eval_integer env cb_p w
            = .ret () { w with trace := w.trace ++ [Event.Py_DECREF (.long tp v),
                Event.vhpi_put_value .vhpiDeposit ⟨0, none, .intg v⟩] }) := by
  refine ⟨get_integer_ret a env tp v expr dec_ref_count w hw hlo hhi, ?_, ?_⟩
  · intro param hlen hrun
    have hF := get_integer_ret .fli env tp v (c_str param.data) true w hw hlo hhi
    have hG := get_integer_ret .ghdl env tp v (c_str param.data) true w hw hlo hhi
    have hN := get_integer_ret .nvc env tp v (c_str param.data) true w hw hlo hhi
    simp [FLI.eval_integer, FLI.get_parameter, GHDL.eval_integer, GHDL.get_parameter,
      NVC.eval_integer, NVC.get_parameter, copy_parameter, hlen, eval, hrun, hF, hG, hN]
  · intro cb_p param hh hp hrun hput
    have hV := get_integer_ret .vhpi env tp v param true w hw hlo hhi
    simp [VHPI.eval_integer, VHPI.get_parameter, hh, hp, eval, hrun, hV, vhpi_put_value, hput]

/-- Witness of C1: the value 42 on a session that evaluates to it. -/
theorem get_integer_in_range_witness :
    ready.err = none ∧ -(2 ^ 31) ≤ (42 : Int) ∧ (42 : Int) ≤ 2 ^ 31 - 1
    ∧ get_integer .fli (session (.ok (.long PyLong_Type 42))) (.long PyLong_Type 42) "x" true ready
        = .ret 42 { ready with trace := [Event.Py_DECREF (.long PyLong_Type 42)] } :=
  ⟨rfl, by decide, by decide,
    (get_integer_in_range .fli (session (.ok (.long PyLong_Type 42))) PyLong_Type 42 "x" true
      ready rfl (by decide) (by decide)).1⟩

/-- C2: for every `int` value `v` below `-2^31` or above `2^31 - 1`, whether or not it fits
the C type `long`, `get_integer` ends in the error reporter (`py_error_handler` with the
context "parsing evaluation result of", the expression and the request to clean up), which
halts the run: no value is returned, in particular not `v` wrapped to 32 bits. -/
theorem get_integer_out_of_range (a : Adapter) (env : Env) (tp : PyTypeObject) (v : Int)
    (expr : String) (dec_ref_count : Bool) (w : World)
    (h : v < -(2 ^ 31) ∨ 2 ^ 31 - 1 < v) :
    (∃ reason w0 w1,
        get_integer a env (.long tp v) expr dec_ref_count w
          = py_error_handler a env "parsing evaluation result of" (some expr) reason true w0
        ∧ get_integer a env (.long tp v) expr dec_ref_count w = .halted w1)
    ∧ (∀ r w1, get_integer a env (.long tp v) expr dec_ref_count w ≠ .ret r w1) := by
  have key : ∃ reason w0 w1,
      get_integer a env (.long tp v) expr dec_ref_count w
        = py_error_handler a env "parsing evaluation result of" (some expr) reason true w0
      ∧ get_integer a env (.long tp v) expr dec_ref_count w = .halted w1 := by
    by_cases hfit : LONG_MIN env.data_model ≤ v ∧ v ≤ LONG_MAX env.data_model
    · cases herr : w.err with
      | none =>
        have e := get_integer_range_error a env tp v expr dec_ref_count w herr hfit h
        obtain ⟨w1, hw1⟩ := py_error_handler_halted a env "parsing evaluation result of"
          (some expr) (some "Result out of VHDL integer range.") true
          { w with trace := w.trace ++
            (if dec_ref_count then [Event.Py_DECREF (.long tp v)] else []) }
        exact ⟨_, _, w1, e, e.trans (hw1 Int)⟩
      | some x =>
        have e := get_integer_pending a env tp v expr dec_ref_count w x herr hfit
        obtain ⟨w1, hw1⟩ := py_error_handler_halted a env "parsing evaluation result of"
          (some expr) none true
          { w with trace := w.trace ++
            (if dec_ref_count then [Event.Py_DECREF (.long tp v)] else []) ++
            [Event.Py_DECREF_exc] }
        exact ⟨_, _, w1, e, e.trans (hw1 Int)⟩
    · have e := get_integer_conversion_error a env tp v expr dec_ref_count w hfit
      obtain ⟨w1, hw1⟩ := py_error_handler_halted a env "parsing evaluation result of"
        (some expr) none true
        { w with
          err := some ⟨some (.unicode (some "Python int too large to convert to C long"))⟩
          trace := w.trace ++
            (if dec_ref_count then [Event.Py_DECREF (.long tp v)] else []) ++
            [Event.Py_DECREF_exc] }
      exact ⟨_, _, w1, e, e.trans (hw1 Int)⟩
  refine ⟨key, ?_⟩
  intro r w1 hret
  obtain ⟨_, _, w2, _, hh⟩ := key
  rw [hh] at hret
  cases hret

/-- Witness of C2: the value `2^31`, one above the largest 32-bit integer. -/
theorem get_integer_out_of_range_witness :
    (2 ^ 31 - 1 < (2 ^ 31 : Int))
    ∧ ∃ w1, get_integer .ghdl (session (.ok (.long PyLong_Type (2 ^ 31))))
        (.long PyLong_Type (2 ^ 31)) "2**31" true ready = .halted w1 :=
  ⟨by decide,
    match (get_integer_out_of_range .ghdl (session (.ok (.long PyLong_Type (2 ^ 31))))
      PyLong_Type (2 ^ 31) "2**31" true ready (Or.inr (by decide))).1 with
    | ⟨_, _, w1, _, h⟩ => ⟨w1, h⟩⟩

/-- On an object that is not an `int`, `get_integer` does nothing but call
`handle_type_check_error`. -/
theorem get_integer_type_error (a : Adapter) (env : Env) (pyobj : PyObject) (expr : String)
    (dec_ref_count : Bool) (w : World) (h : PyLong_Check pyobj = false) :
    get_integer a env pyobj expr dec_ref_count w
      = handle_type_check_error a env pyobj "evaluating to integer" expr w := by
  simp [get_integer, h]

/-- On an object that is not a `float`, `get_real` does nothing but call
`handle_type_check_error`. -/
theorem get_real_type_error (a : Adapter) (env : Env) (pyobj : PyObject) (expr : String)
    (dec_ref_count : Bool) (w : World) (h : PyFloat_Check pyobj = false) :
    get_real a env pyobj expr dec_ref_count w
      = handle_type_check_error a env pyobj "evaluating to real" expr w := by
  simp [get_real, h]

/-- C3, counterexample: for an object whose type name has 76 characters, the reason reported
by `get_integer` stops after the first 75 of them, and the complete type name occurs nowhere
in the emitted message. -/
theorem type_name_cut_off :
    get_integer .fli (session (.ok (.other ⟨some (some long_type_name)⟩)))
        (.other ⟨some (some long_type_name)⟩) "x" true ready
      = .halted { err := none, locals_set := true, trace :=
          [Event.Py_DECREF_locals, Event.Py_FinalizeEx,
           Event.printf ("ERROR evaluating to integer:\n\nx\n\nExpression evaluates to "
             ++ String.mk (List.replicate 75 'a') ++ "\n\n"),
           Event.mti_FatalError] }
    ∧ ¬ (long_type_name.data <:+:
          ("ERROR evaluating to integer:\n\nx\n\nExpression evaluates to "
             ++ String.mk (List.replicate 75 'a') ++ "\n\n").data) := by
  refine ⟨rfl, ?_⟩
  intro h
  have hb : 'b' ∈ long_type_name.data := by decide
  have := h.subset hb
  revert this
  decide

/-- C3, as the code has it: for every value that is neither an `int` nor a `float` and whose
type name can be obtained, `get_integer` and `get_real` report a type error, with the context
"evaluating to integer" resp. "evaluating to real", whose reason is "Expression evaluates to "
followed by the first 75 characters of the type name; the run halts, and the reason contains
the complete type name when the name has at most 75 characters. -/
theorem type_error_names_type (a : Adapter) (env : Env) (pyobj : PyObject) (expr name : String)
    (dec_ref_count : Bool) (w : World)
    (hlong : PyLong_Check pyobj = false) (hfloat : PyFloat_Check pyobj = false)
    (hname : (Py_TYPE pyobj).name = some (some name)) :
    get_integer a env pyobj expr dec_ref_count w
        = py_error_handler a env "evaluating to integer" (some expr)
            (some (strncat "Expression evaluates to " name 75)) true w
    ∧ get_real a env pyobj expr dec_ref_count w
        = py_error_handler a env "evaluating to real" (some expr)
            (some (strncat "Expression evaluates to " name 75)) true w
    ∧ (∃ w1 w2, get_integer a env pyobj expr dec_ref_count w = .halted w1
        ∧ get_real a env pyobj expr dec_ref_count w = .halted w2)
    ∧ (strncat "Expression evaluates to " name 75).data
        = "Expression evaluates to ".data ++ name.data.take 75
    ∧ (name.length ≤ 75 → name.data <:+: (strncat "Expression evaluates to " name 75).data) := by
  have hi := (get_integer_type_error a env pyobj expr dec_ref_count w hlong).trans
    (handle_type_check_error_named a env pyobj "evaluating to integer" expr name w hname)
  have hr := (get_real_type_error a env pyobj expr dec_ref_count w hfloat).trans
    (handle_type_check_error_named a env pyobj "evaluating to real" expr name w hname)
  obtain ⟨w1, h1⟩ := py_error_handler_halted a env "evaluating to integer" (some expr)
    (some (strncat "Expression evaluates to " name 75)) true w
  obtain ⟨w2, h2⟩ := py_error_handler_halted a env "evaluating to real" (some expr)
    (some (strncat "Expression evaluates to " name 75)) true w
  refine ⟨hi, hr, ⟨w1, w2, hi.trans (h1 Int), hr.trans (h2 CDouble)⟩, rfl, ?_⟩
  intro hlen
  have htake : name.data.take 75 = name.data := List.take_of_length_le hlen
  show name.data <:+: "Expression evaluates to ".data ++ name.data.take 75
  rw [htake]
  exact (List.suffix_append _ _).isInfix

/-- Witness of C3: a tuple passed to `get_integer` and `get_real`. -/
theorem type_error_names_type_witness :
    PyLong_Check (.other PyTuple_Type) = false ∧ PyFloat_Check (.other PyTuple_Type) = false
    ∧ get_integer .nvc (session (.ok (.other PyTuple_Type))) (.other PyTuple_Type) "(1, 2)" true
        ready
      = py_error_handler .nvc (session (.ok (.other PyTuple_Type))) "evaluating to integer"
          (some "(1, 2)") (some "Expression evaluates to tuple") true ready :=
  ⟨rfl, rfl,
    (type_error_names_type .nvc (session (.ok (.other PyTuple_Type))) (.other PyTuple_Type)
      "(1, 2)" "tuple" true ready rfl rfl rfl).1⟩

/-- C4: `get_real` makes its type check first. On every object that is not a `float`, in
particular on every `int`, it calls the error reporter with the context "evaluating to real"
in the very state it was entered in (nothing is converted or released before) and the run
halts, so no value is returned. In the same way `get_integer` reports a type error with the
context "evaluating to integer" on every `float`, whatever its value. -/
theorem type_check_precedes_conversion (a : Adapter) (env : Env) (expr : String)
    (dec_ref_count : Bool) (w : World) :
    (∀ pyobj, PyFloat_Check pyobj = false →
      ∃ reason w1,
        get_real a env pyobj expr dec_ref_count w
          = py_error_handler a env "evaluating to real" (some expr) (some reason) true w
        ∧ get_real a env pyobj expr dec_ref_count w = .halted w1)
    ∧ (∀ tp v,
      ∃ reason w1,
        get_real a env (.long tp v) expr dec_ref_count w
          = py_error_handler a env "evaluating to real" (some expr) (some reason) true w
        ∧ get_real a env (.long tp v) expr dec_ref_count w = .halted w1)
    ∧ (∀ tp d,
      ∃ reason w1,
        get_integer a env (.float tp d) expr dec_ref_count w
          = py_error_handler a env "evaluating to integer" (some expr) (some reason) true w
        ∧ get_integer a env (.float tp d) expr dec_ref_count w = .halted w1) := by
  have real : ∀ pyobj, PyFloat_Check pyobj = false →
      ∃ reason w1,
        get_real a env pyobj expr dec_ref_count w
          = py_error_handler a env "evaluating to real" (some expr) (some reason) true w
        ∧ get_real a env pyobj expr dec_ref_count w = .halted w1 := by
    intro pyobj h
    obtain ⟨reason, hr⟩ := handle_type_check_error_eq a env pyobj "evaluating to real" expr
    obtain ⟨w1, h1⟩ := py_error_handler_halted a env "evaluating to real" (some expr)
      (some reason) true w
    have e := (get_real_type_error a env pyobj expr dec_ref_count w h).trans (hr CDouble w)
    exact ⟨reason, w1, e, e.trans (h1 CDouble)⟩
  refine ⟨real, fun tp v => real (.long tp v) rfl, ?_⟩
  intro tp d
  obtain ⟨reason, hr⟩ :=
    handle_type_check_error_eq a env (.float tp d) "evaluating to integer" expr
  obtain ⟨w1, h1⟩ := py_error_handler_halted a env "evaluating to integer" (some expr)
    (some reason) true w
  have e := (get_integer_type_error a env (.float tp d) expr dec_ref_count w rfl).trans
    (hr Int w)
  exact ⟨reason, w1, e, e.trans (h1 Int)⟩

/-- Witness of C4: the result of the expression `1` passed to `get_real`. -/
theorem type_check_precedes_conversion_witness :
    ∃ reason w1,
      get_real .vhpi (session (.ok (.long PyLong_Type 1))) (.long PyLong_Type 1) "1" true ready
        = py_error_handler .vhpi (session (.ok (.long PyLong_Type 1))) "evaluating to real"
            (some "1") (some reason) true ready
      ∧ get_real .vhpi (session (.ok (.long PyLong_Type 1))) (.long PyLong_Type 1) "1" true ready
        = .halted w1 :=
  (type_check_precedes_conversion .vhpi (session (.ok (.long PyLong_Type 1))) "1" true
    ready).2.1 PyLong_Type 1

/-- The expression `1` passed to `get_real`: the session is cleaned up, the message names the
type `int`, the simulation is stopped. -/
theorem get_real_of_one :
    get_real .vhpi (session (.ok (.long PyLong_Type 1))) (.long PyLong_Type 1) "1" true ready
      = .halted { err := none, locals_set := true, trace :=
          [Event.Py_DECREF_locals, Event.Py_FinalizeEx,
           Event.vhpi_assert .vhpiError
             "ERROR evaluating to real:\n\n1\n\nExpression evaluates to int\n\n",
           Event.vhpi_control_stop] } := rfl

/-- C5, the failing input: on a `float` that is a NaN, `get_real` reports nothing and returns
the NaN, although a NaN is neither `≤ 3.4028234664e38` nor `≥ -3.4028234664e38`. -/
theorem get_real_returns_nan :
    get_real .ghdl (session (.ok (.float PyFloat_Type .nan))) (.float PyFloat_Type .nan)
        "math.nan" true ready
      = .ret .nan { ready with trace := [Event.Py_DECREF (.float PyFloat_Type .nan)] }
    ∧ CDouble.le .nan REAL_MAX = false ∧ CDouble.le REAL_MAX.neg .nan = false :=
  ⟨rfl, rfl, rfl⟩

/-- For a double that is not a NaN, the test of `get_real` passes exactly when the value lies
between `-3.4028234664e38` and `3.4028234664e38`. -/
theorem real_range_test (d : CDouble) (hd : d ≠ .nan) :
    (CDouble.gt d REAL_MAX || CDouble.lt d REAL_MAX.neg) = false
      ↔ (CDouble.le REAL_MAX.neg d = true ∧ CDouble.le d REAL_MAX = true) := by
  cases d with
  | finite q => simp [CDouble.gt, CDouble.lt, CDouble.le, REAL_MAX, CDouble.neg, and_comm]
  | pos_inf => simp [CDouble.gt, CDouble.lt, CDouble.le, REAL_MAX, CDouble.neg]
  | neg_inf => simp [CDouble.gt, CDouble.lt, CDouble.le, REAL_MAX, CDouble.neg]
  | nan => exact absurd rfl hd

/-- On a `float` that passes the range test, with no exception pending, `get_real` returns the
value; it releases the object when asked to and does nothing else. -/
theorem get_real_ret (a : Adapter) (env : Env) (tp : PyTypeObject) (d : CDouble)
    (expr : String) (dec_ref_count : Bool) (w : World) (hw : w.err = none)
    (h : (CDouble.gt d REAL_MAX || CDouble.lt d REAL_MAX.neg) = false) :
    get_real a env (.float tp d) expr dec_ref_count w
      = .ret d { w with trace := w.trace ++
          (if dec_ref_count then [Event.Py_DECREF (.float tp d)] else []) } := by
  have h1 : ¬ (CDouble.gt d REAL_MAX = true ∨ CDouble.lt d REAL_MAX.neg = true) := by
    simpa using h
  obtain ⟨err, locals_set, trace⟩ := w
  simp only at hw
  subst hw
  cases dec_ref_count <;>
    simp [get_real, PyFloat_Check, PyFloat_AsDouble, check_conversion_error, h1]

/-- On a `float` that fails the range test, with no exception pending, `get_real` reports the
range error. -/
theorem get_real_range_error (a : Adapter) (env : Env) (tp : PyTypeObject) (d : CDouble)
    (expr : String) (dec_ref_count : Bool) (w : World) (hw : w.err = none)
    (h : (CDouble.gt d REAL_MAX || CDouble.lt d REAL_MAX.neg) = true) :
    get_real a env (.float tp d) expr dec_ref_count w
      = py_error_handler a env "parsing evaluation result of" (some expr)
          (some "Result out of VHDL real range.") true
          { w with trace := w.trace ++
            (if dec_ref_count then [Event.Py_DECREF (.float tp d)] else []) } := by
  have h1 : CDouble.gt d REAL_MAX = true ∨ CDouble.lt d REAL_MAX.neg = true := by
    simpa using h
  obtain ⟨err, locals_set, trace⟩ := w
  simp only at hw
  subst hw
  cases dec_ref_count <;>
    simp [get_real, PyFloat_Check, PyFloat_AsDouble, check_conversion_error, h1]

/-- What holds of C5: for every `float` that is not a NaN (no exception pending on entry),
`get_real` returns the value unchanged when it lies between `-3.4028234664e38` and
`3.4028234664e38`, and otherwise reports "Result out of VHDL real range.". -/
theorem get_real_not_nan (a : Adapter) (env : Env) (tp : PyTypeObject) (d : CDouble)
    (expr : String) (dec_ref_count : Bool) (w : World) (hw : w.err = none) (hd : d ≠ .nan) :
    ((CDouble.le REAL_MAX.neg d = true ∧ CDouble.le d REAL_MAX = true) →
      get_real a env (.float tp d) expr dec_ref_count w
        = .ret d { w with trace := w.trace ++
            (if dec_ref_count then [Event.Py_DECREF (.float tp d)] else []) })
    ∧ (¬ (CDouble.le REAL_MAX.neg d = true ∧ CDouble.le d REAL_MAX = true) →
      get_real a env (.float tp d) expr dec_ref_count w
        = py_error_handler a env "parsing evaluation result of" (some expr)
            (some "Result out of VHDL real range.") true
            { w with trace := w.trace ++
              (if dec_ref_count then [Event.Py_DECREF (.float tp d)] else []) }) := by
  constructor
  · intro hin
    exact get_real_ret a env tp d expr dec_ref_count w hw ((real_range_test d hd).mpr hin)
  · intro hout
    apply get_real_range_error a env tp d expr dec_ref_count w hw
    cases hb : (CDouble.gt d REAL_MAX || CDouble.lt d REAL_MAX.neg) with
    | true => rfl
    | false => exact absurd ((real_range_test d hd).mp hb) hout

theorem take_succ_set {γ : Type} (cells : List γ) (idx : Nat) (v : γ) (h : idx < cells.length) :
    (cells.set idx v).take (idx + 1) = cells.take idx ++ [v] := by
  induction cells generalizing idx with
  | nil => simp at h
  | cons c cs ih =>
    cases idx with
    | zero => simp
    | succ i =>
      simp only [List.length_cons, Nat.add_lt_add_iff_right] at h
      simp [ih i h]

theorem drop_succ_set {γ : Type} (cells : List γ) (idx k : Nat) (v : γ) :
    (cells.set idx v).drop (idx + 1 + k) = cells.drop (idx + 1 + k) := by
  rw [List.drop_set]
  simp
  omega

/-- The loop of the vector operations when every item converts: the `count` cells from `idx`
on receive the converted items, one store after the other in increasing index order. -/
theorem fill_loop_ok {γ : Type} (get : PyObject → M γ) (store_event : Nat → γ → Event)
    (tp : PyTypeObject) (items : List PyObject) (val : PyObject → γ)
    (hget : ∀ item ∈ items, ∀ w : World, w.err = none → get item w = .ret (val item) w) :
    ∀ (count idx : Nat) (cells : List γ) (w : World), w.err = none →
      idx + count ≤ items.length → idx + count ≤ cells.length →
      fill_loop get store_event (.list tp items) count idx (some cells) w
        = .ret (some (cells.take idx ++ ((items.drop idx).take count).map val
              ++ cells.drop (idx + count)))
            { w with trace := w.trace ++ (List.zipWith store_event (List.range' idx count)
                (((items.drop idx).take count).map val)) } := by
  intro count
  induction count with
  | zero =>
    intro idx cells w hw _ _
    simp [fill_loop]
  | succ count ih =>
    intro idx cells w hw hi hc
    have hidx : idx < items.length := by omega
    have hcell : idx < cells.length := by omega
    have hmem : items[idx] ∈ items := List.getElem_mem _
    have hg := hget items[idx] hmem w hw
    have hdrop : items.drop idx = items[idx] :: items.drop (idx + 1) :=
      List.drop_eq_getElem_cons hidx
    have step := ih (idx + 1) (cells.set idx (val items[idx]))
      { w with trace := w.trace ++ [store_event idx (val items[idx])] } hw (by omega)
      (by simp; omega)
    simp only [fill_loop, bind_apply, PyList_GetItem, List.get?_eq_getElem?,
      List.getElem?_eq_getElem hidx, pure_apply, hg, store, hcell, if_true, log_apply, step]
    rw [take_succ_set cells idx _ hcell]
    have e1 : idx + 1 + count = idx + (count + 1) := by omega
    rw [show (cells.set idx (val items[idx])).drop (idx + 1 + count) = cells.drop (idx + (count + 1)) by
      rw [drop_succ_set]; rw [e1]]
    have hdrop2 : List.drop idx (List.map val items)
        = val items[idx] :: List.drop (idx + 1) (List.map val items) := by
      rw [← List.map_drop, hdrop, List.map_cons, List.map_drop]
    simp [List.range'_succ, hdrop2]

/-- The loop of the integer vector operations on a list of `int` objects inside the 32-bit
range and an array of as many elements: the array receives the values in list order. -/
theorem fill_loop_integers (a : Adapter) (env : Env) (expr : String) (tp : PyTypeObject)
    (elems : List (PyTypeObject × Int)) (cells : List Int) (w : World) (hw : w.err = none)
    (hrange : ∀ e ∈ elems, -(2 ^ 31) ≤ e.2 ∧ e.2 ≤ 2 ^ 31 - 1)
    (hlen : cells.length = elems.length) :
    fill_loop (fun item => get_integer a env item expr false) Event.store_int
        (.list tp (elems.map fun e => PyObject.long e.1 e.2)) elems.length 0 (some cells) w
      = .ret (some (elems.map Prod.snd))
          { w with trace := w.trace ++
              List.zipWith Event.store_int (List.range' 0 elems.length) (elems.map Prod.snd) } := by
  have hget : ∀ item ∈ elems.map (fun e => PyObject.long e.1 e.2), ∀ w : World, w.err = none →
      get_integer a env item expr false w
        = .ret ((fun o => match o with | PyObject.long _ v => v | _ => 0) item) w := by
    intro item hitem w1 hw1
    obtain ⟨e, he, rfl⟩ := List.mem_map.mp hitem
    have := get_integer_ret a env e.1 e.2 expr false w1 hw1 (hrange e he).1 (hrange e he).2
    simpa using this
  have h := fill_loop_ok (fun item => get_integer a env item expr false) Event.store_int tp
    (elems.map fun e => PyObject.long e.1 e.2)
    (fun o => match o with | PyObject.long _ v => v | _ => 0) hget elems.length 0 cells w hw
    (by simp) (by omega)
  rw [h]
  have hmap : List.map ((fun o => match o with | PyObject.long _ v => v | _ => 0) ∘
      fun (e : PyTypeObject × Int) => PyObject.long e.1 e.2) elems = elems.map Prod.snd := by
    apply List.map_congr_left
    intro e _
    rfl
  have hdrop : List.drop elems.length cells = [] := by
    apply List.drop_eq_nil_of_le
    omega
  have htake : List.take elems.length (List.map Prod.snd elems) = List.map Prod.snd elems :=
    List.take_of_length_le (by simp)
  simp [hmap, hdrop, htake]

/-! ## Sequencing, statement by statement -/

theorem pure_bind_apply {α β : Type} (a : α) (f : α → M β) (w : World) :
    (pure a >>= f) w = f a w := rfl

theorem log_bind_apply {β : Type} (e : Event) (f : Unit → M β) (w : World) :
    (log e >>= f) w = f () { w with trace := w.trace ++ [e] } := rfl

theorem get_world_bind_apply {β : Type} (f : World → M β) (w : World) :
    (get_world >>= f) w = f w w := rfl

theorem set_err_bind_apply {β : Type} (e : Option PyErr) (f : Unit → M β) (w : World) :
    (set_err e >>= f) w = f () { w with err := e } := rfl

theorem if_apply {α : Type} (c : Prop) [Decidable c] (x y : M α) (w : World) :
    (if c then x else y) w = if c then x w else y w := by
  split <;> rfl

/-- When the first statement returns, the run goes on with what follows it. -/
theorem bind_of_ret {α β : Type} {m : M α} {f : α → M β} {w w1 : World} {a : α}
    (h : m w = .ret a w1) : (m >>= f) w = f a w1 := by
  simp [h]

/-- When the first statement halts the run, what follows it is not executed. -/
theorem bind_of_halted {α β : Type} {m : M α} {f : α → M β} {w w1 : World}
    (h : m w = .halted w1) : (m >>= f) w = .halted w1 := by
  simp [h]

theorem py_error_handler_bind_apply {α β : Type} (f : α → M β) (a : Adapter) (env : Env)
    (context : String) (code_or_expr reason : Option String) (cleanup : Bool) (w : World) :
    ((py_error_handler a env context code_or_expr reason cleanup : M α) >>= f) w
      = (py_error_handler a env context code_or_expr reason cleanup : M β) w :=
  py_error_handler_then _ a env context code_or_expr reason cleanup w

theorem handle_type_check_error_bind_apply {α β : Type} (f : α → M β) (a : Adapter)
    (env : Env) (pyobj : PyObject) (context expr : String) (w : World) :
    ((handle_type_check_error a env pyobj context expr : M α) >>= f) w
      = (handle_type_check_error a env pyobj context expr : M β) w :=
  handle_type_check_error_then _ a env pyobj context expr w
/-- When the interpreter evaluates the expression, `eval` returns the value and changes
nothing. -/
theorem eval_ret (a : Adapter) (env : Env) (expr : String) (pyobj : PyObject) (w : World)
    (hrun : env.run_eval_input expr = .ok pyobj) : eval a env expr w = .ret pyobj w := by
  simp only [eval, hrun, pure_apply]

/-- When the interpreter raises an exception, `eval` reports it with the context "evaluating",
the expression and the request to clean up. -/
theorem eval_error (a : Adapter) (env : Env) (expr : String) (e : PyErr) (w : World)
    (hrun : env.run_eval_input expr = .error e) :
    eval a env expr w
      = py_error_handler a env "evaluating" (some expr) none true { w with err := some e } := by
  simp only [eval, hrun, set_err_bind_apply]

/-- When the host hands over the parameter, `get_parameter` of the VHPI adapter returns it
and changes nothing. -/
theorem vhpi_get_parameter_ret (env : Env) (cb_p : vhpiCbDataS) (expr : String) (w : World)
    (hh : cb_p.parameter_handle = true) (hp : cb_p.parameter = some expr) :
    VHPI.get_parameter env cb_p w = .ret expr w := by
  simp only [VHPI.get_parameter, hh, hp, Bool.not_true, Bool.false_eq_true, ↓reduceIte,
    pure_bind_apply, pure_apply]

/-- A block of a non-negative size obtained from `malloc`. -/
theorem malloc_ret {γ : Type} (heap : Nat → γ) (n_bytes : Int) (elem_size : Nat) (w : World)
    (h : 0 ≤ n_bytes) :
    malloc heap n_bytes elem_size w
      = .ret (some ((List.range (n_bytes.toNat / elem_size)).map heap))
          { w with trace := w.trace ++ [Event.malloc n_bytes] } := by
  have h1 : ¬ n_bytes < 0 := by omega
  simp only [malloc, log_bind_apply, if_apply, h1, ↓reduceIte, pure_apply]

theorem vhpi_put_value_apply (cb_p : vhpiCbDataS) (vhdl_result : vhpiValueT)
    (mode : vhpiPutValueModeT) (w : World) :
    vhpi_put_value cb_p vhdl_result mode w
      = .ret (cb_p.put_value_fails mode vhdl_result)
          { w with trace := w.trace ++ [Event.vhpi_put_value mode vhdl_result] } := rfl

/-! ## Vectors -/

/-- The loop of the real vector operations on a list of `float` objects that pass the range
test and an array of as many elements: the array receives the values in list order. -/
theorem fill_loop_reals (a : Adapter) (env : Env) (expr : String) (tp : PyTypeObject)
    (elems : List (PyTypeObject × CDouble)) (cells : List CDouble) (w : World)
    (hw : w.err = none)
    (hrange : ∀ e ∈ elems, (CDouble.gt e.2 REAL_MAX || CDouble.lt e.2 REAL_MAX.neg) = false)
    (hlen : cells.length = elems.length) :
    fill_loop (fun item => get_real a env item expr false) Event.store_real
        (.list tp (elems.map fun e => PyObject.float e.1 e.2)) elems.length 0 (some cells) w
      = .ret (some (elems.map Prod.snd))
          { w with trace := w.trace ++
              List.zipWith Event.store_real (List.range' 0 elems.length) (elems.map Prod.snd) } := by
  have hget : ∀ item ∈ elems.map (fun e => PyObject.float e.1 e.2), ∀ w : World, w.err = none →
      get_real a env item expr false w
        = .ret ((fun o => match o with | PyObject.float _ d => d | _ => .nan) item) w := by
    intro item hitem w1 hw1
    obtain ⟨e, he, rfl⟩ := List.mem_map.mp hitem
    have := get_real_ret a env e.1 e.2 expr false w1 hw1 (hrange e he)
    simpa using this
  have h := fill_loop_ok (fun item => get_real a env item expr false) Event.store_real tp
    (elems.map fun e => PyObject.float e.1 e.2)
    (fun o => match o with | PyObject.float _ d => d | _ => .nan) hget elems.length 0 cells w hw
    (by simp) (by omega)
  rw [h]
  have hmap : List.map ((fun o => match o with | PyObject.float _ d => d | _ => .nan) ∘
      fun (e : PyTypeObject × CDouble) => PyObject.float e.1 e.2) elems
        = elems.map Prod.snd := by
    apply List.map_congr_left
    intro e _
    rfl
  have hdrop : List.drop elems.length cells = [] := by
    apply List.drop_eq_nil_of_le
    omega
  have htake : List.take elems.length (List.map Prod.snd elems) = List.map Prod.snd elems :=
    List.take_of_length_le (by simp)
  simp [hmap, hdrop, htake]

/-- The run of `eval_integer_vector` of the VHPI adapter on a list of `n` `int` objects inside
the 32-bit range, when `n * sizeof(int)` fits the C type `int`: the block is allocated, the
`n` values are stored, the list is released, and the two puts follow, each ending the run
through the reporter when the host refuses it. -/
theorem vhpi_eval_integer_vector_run (env : Env) (tp : PyTypeObject) (cb_p : vhpiCbDataS)
    (expr : String) (w : World) (elems : List (PyTypeObject × Int)) (hw : w.err = none)
    (hh : cb_p.parameter_handle = true) (hp : cb_p.parameter = some expr)
    (hrange : ∀ e ∈ elems, -(2 ^ 31) ≤ e.2 ∧ e.2 ≤ 2 ^ 31 - 1)
    (hfit : (elems.length : Int) * 4 < 2 ^ 31)
    (hrun : env.run_eval_input expr
      = .ok (.list tp (elems.map fun e => PyObject.long e.1 e.2))) :
    VHPI.eval_integer_vector env cb_p w
      = (if cb_p.put_value_fails .vhpiSizeConstraint
            ⟨elems.length * 4, some elems.length, .intgs (some (elems.map Prod.snd))⟩ then
          py_error_handler .vhpi env
            "setting size constraints when returning result for evaluation of" (some expr)
            none true
            { w with trace := w.trace ++ ([Event.malloc (elems.length * 4)] ++
              (List.zipWith Event.store_int (List.range' 0 elems.length) (elems.map Prod.snd) ++
              [Event.Py_DECREF (.list tp (elems.map fun e => PyObject.long e.1 e.2)),
               Event.vhpi_put_value .vhpiSizeConstraint
                 ⟨elems.length * 4, some elems.length, .intgs (some (elems.map Prod.snd))⟩,
               Event.free])) }
        else if cb_p.put_value_fails .vhpiDeposit
            ⟨elems.length * 4, some elems.length, .intgs (some (elems.map Prod.snd))⟩ then
          py_error_handler .vhpi env "returning result for evaluation of" (some expr)
            none true
            { w with trace := w.trace ++ ([Event.malloc (elems.length * 4)] ++
              (List.zipWith Event.store_int (List.range' 0 elems.length) (elems.map Prod.snd) ++
              [Event.Py_DECREF (.list tp (elems.map fun e => PyObject.long e.1 e.2)),
               Event.vhpi_put_value .vhpiSizeConstraint
                 ⟨elems.length * 4, some elems.length, .intgs (some (elems.map Prod.snd))⟩,
               Event.vhpi_put_value .vhpiDeposit
                 ⟨elems.length * 4, some elems.length, .intgs (some (elems.map Prod.snd))⟩,
               Event.free])) }
        else
          .ret ()
            { w with trace := w.trace ++ ([Event.malloc (elems.length * 4)] ++
              (List.zipWith Event.store_int (List.range' 0 elems.length) (elems.map Prod.snd) ++
              [Event.Py_DECREF (.list tp (elems.map fun e => PyObject.long e.1 e.2)),
               Event.vhpi_put_value .vhpiSizeConstraint
                 ⟨elems.length * 4, some elems.length, .intgs (some (elems.map Prod.snd))⟩,
               Event.vhpi_put_value .vhpiDeposit
                 ⟨elems.length * 4, some elems.length, .intgs (some (elems.map Prod.snd))⟩,
               Event.free])) }) := by
  have hsize : to_int (elems.length : Int) = elems.length := by
    unfold to_int
    omega
  have hbytes : to_int ((elems.length : Int) * 4) = elems.length * 4 := by
    unfold to_int
    omega
  have hcap : ((elems.length : Int) * 4).toNat / 4 = elems.length := by omega
  have hm := malloc_ret env.heap_int ((elems.length : Int) * 4) 4 w (by omega)
  rw [hcap] at hm
  have hV := fill_loop_integers .vhpi env expr tp elems
    ((List.range elems.length).map env.heap_int)
    { w with trace := w.trace ++ [Event.malloc (elems.length * 4)] } hw hrange (by simp)
  have hlist : PyList_Check (.list tp (elems.map fun e => PyObject.long e.1 e.2)) = true := rfl
  have hlsize : PyList_GET_SIZE (.list tp (elems.map fun e => PyObject.long e.1 e.2))
      = elems.length := List.length_map _ _
  simp only [VHPI.eval_integer_vector,
    bind_of_ret (vhpi_get_parameter_ret env cb_p expr w hh hp),
    bind_of_ret (eval_ret .vhpi env expr _ w hrun),
    pure_bind_apply, log_bind_apply, if_apply, Bool.not_true, Bool.false_eq_true, ↓reduceIte,
    pure_apply, hlist, hlsize, hsize, hbytes, Int.toNat_ofNat, bind_of_ret hm, bind_of_ret hV,
    bind_of_ret (vhpi_put_value_apply _ _ _ _), log_apply, py_error_handler_bind_apply,
    List.append_assoc, List.cons_append, List.nil_append]

/-- The run of `eval_real_vector` of the VHPI adapter on a list of `n` `float` objects that pass
the range test, when `n * sizeof(double)` fits the C type `int`: the block is allocated, the
`n` values are stored, the list is released, and the two puts follow, each ending the run
through the reporter when the host refuses it. -/
theorem vhpi_eval_real_vector_run (env : Env) (tp : PyTypeObject) (cb_p : vhpiCbDataS)
    (expr : String) (w : World) (elems : List (PyTypeObject × CDouble)) (hw : w.err = none)
    (hh : cb_p.parameter_handle = true) (hp : cb_p.parameter = some expr)
    (hrange : ∀ e ∈ elems, (CDouble.gt e.2 REAL_MAX || CDouble.lt e.2 REAL_MAX.neg) = false)
    (hfit : (elems.length : Int) * 8 < 2 ^ 31)
    (hrun : env.run_eval_input expr
      = .ok (.list tp (elems.map fun e => PyObject.float e.1 e.2))) :
    VHPI.eval_real_vector env cb_p w
      = (if cb_p.put_value_fails .vhpiSizeConstraint
            ⟨elems.length * 8, some elems.length, .reals (some (elems.map Prod.snd))⟩ then
          py_error_handler .vhpi env
            "setting size constraints when returning result for evaluation of" (some expr)
            none true
            { w with trace := w.trace ++ ([Event.malloc (elems.length * 8)] ++
              (List.zipWith Event.store_real (List.range' 0 elems.length) (elems.map Prod.snd) ++
              [Event.Py_DECREF (.list tp (elems.map fun e => PyObject.float e.1 e.2)),
               Event.vhpi_put_value .vhpiSizeConstraint
                 ⟨elems.length * 8, some elems.length, .reals (some (elems.map Prod.snd))⟩,
               Event.free])) }
        else if cb_p.put_value_fails .vhpiDeposit
            ⟨elems.length * 8, some elems.length, .reals (some (elems.map Prod.snd))⟩ then
          py_error_handler .vhpi env "returning result for evaluation of" (some expr)
            none true
            { w with trace := w.trace ++ ([Event.malloc (elems.length * 8)] ++
              (List.zipWith Event.store_real (List.range' 0 elems.length) (elems.map Prod.snd) ++
              [Event.Py_DECREF (.list tp (elems.map fun e => PyObject.float e.1 e.2)),
               Event.vhpi_put_value .vhpiSizeConstraint
                 ⟨elems.length * 8, some elems.length, .reals (some (elems.map Prod.snd))⟩,
               Event.vhpi_put_value .vhpiDeposit
                 ⟨elems.length * 8, some elems.length, .reals (some (elems.map Prod.snd))⟩,
               Event.free])) }
        else
          .ret ()
            { w with trace := w.trace ++ ([Event.malloc (elems.length * 8)] ++
              (List.zipWith Event.store_real (List.range' 0 elems.length) (elems.map Prod.snd) ++
              [Event.Py_DECREF (.list tp (elems.map fun e => PyObject.float e.1 e.2)),
               Event.vhpi_put_value .vhpiSizeConstraint
                 ⟨elems.length * 8, some elems.length, .reals (some (elems.map Prod.snd))⟩,
               Event.vhpi_put_value .vhpiDeposit
                 ⟨elems.length * 8, some elems.length, .reals (some (elems.map Prod.snd))⟩,
               Event.free])) }) := by
  have hsize : to_int (elems.length : Int) = elems.length := by
    unfold to_int
    omega
  have hbytes : to_int ((elems.length : Int) * 8) = elems.length * 8 := by
    unfold to_int
    omega
  have hcap : ((elems.length : Int) * 8).toNat / 8 = elems.length := by omega
  have hm := malloc_ret env.heap_real ((elems.length : Int) * 8) 8 w (by omega)
  rw [hcap] at hm
  have hV := fill_loop_reals .vhpi env expr tp elems
    ((List.range elems.length).map env.heap_real)
    { w with trace := w.trace ++ [Event.malloc (elems.length * 8)] } hw hrange (by simp)
  have hlist : PyList_Check (.list tp (elems.map fun e => PyObject.float e.1 e.2)) = true := rfl
  have hlsize : PyList_GET_SIZE (.list tp (elems.map fun e => PyObject.float e.1 e.2))
      = elems.length := List.length_map _ _
  simp only [VHPI.eval_real_vector,
    bind_of_ret (vhpi_get_parameter_ret env cb_p expr w hh hp),
    bind_of_ret (eval_ret .vhpi env expr _ w hrun),
    pure_bind_apply, log_bind_apply, if_apply, Bool.not_true, Bool.false_eq_true, ↓reduceIte,
    pure_apply, hlist, hlsize, hsize, hbytes, Int.toNat_ofNat, bind_of_ret hm, bind_of_ret hV,
    bind_of_ret (vhpi_put_value_apply _ _ _ _), log_apply, py_error_handler_bind_apply,
    List.append_assoc, List.cons_append, List.nil_append]

/-- C6: let the stored result be a list of `n` `int` objects inside the 32-bit range and the
destination an array of exactly `n` elements (no exception pending on entry). Then
`p_get_integer_vector` (FLI) and `get_integer_vector` (GHDL, NVC) return with the destination
holding the values of the list in list order, written by `n` stores at the indices
`0, ..., n-1`; and `eval_integer_vector` (VHPI), when the block it obtains from `malloc` holds
exactly `n` elements and the host accepts both puts, hands the host those same values with
the element count `n`. -/
theorem integer_vector_round_trip (env : Env) (tp : PyTypeObject)
    (elems : List (PyTypeObject × Int)) (w : World) (hw : w.err = none)
    (hrange : ∀ e ∈ elems, -(2 ^ 31) ≤ e.2 ∧ e.2 ≤ 2 ^ 31 - 1) :
    (∀ vec : List Int, vec.length = elems.length →
      env.run_eval_input "__eval_result__.get()"
        = .ok (.list tp (elems.map fun e => PyObject.long e.1 e.2)) →
      FLI.p_get_integer_vector env vec w
        = .ret (some (elems.map Prod.snd))
            { w with trace := w.trace ++
                (List.zipWith Event.store_int (List.range' 0 elems.length) (elems.map Prod.snd) ++
                [Event.Py_DECREF (.list tp (elems.map fun e => PyObject.long e.1 e.2))]) }
      ∧ GHDL.get_integer_vector env vec w
        = .ret (some (elems.map Prod.snd))
            { w with trace := w.trace ++
                (List.zipWith Event.store_int (List.range' 0 elems.length) (elems.map Prod.snd) ++
                [Event.Py_DECREF (.list tp (elems.map fun e => PyObject.long e.1 e.2))]) }
      ∧ NVC.get_integer_vector env vec w
        = .ret (some (elems.map Prod.snd))
            { w with trace := w.trace ++
                (List.zipWith Event.store_int (List.range' 0 elems.length) (elems.map Prod.snd) ++
                [Event.Py_DECREF (.list tp (elems.map fun e => PyObject.long e.1 e.2))]) })
    ∧ (∀ (cb_p : vhpiCbDataS) (expr : String), cb_p.parameter_handle = true →
      cb_p.parameter = some expr →
      env.run_eval_input expr = .ok (.list tp (elems.map fun e => PyObject.long e.1 e.2)) →
      (∃ int_array w1, malloc env.heap_int (to_int (to_int elems.length * 4)) 4 w
          = .ret (some int_array) w1 ∧ int_array.length = elems.length) →
      (∀ mode, cb_p.put_value_fails mode
        ⟨elems.length * 4, some elems.length, .intgs (some (elems.map Prod.snd))⟩ = false) →
      VHPI.eval_integer_vector env cb_p w
        = .ret ()
            { w with trace := w.trace ++ ([Event.malloc (elems.length * 4)] ++
                (List.zipWith Event.store_int (List.range' 0 elems.length) (elems.map Prod.snd) ++
                [Event.Py_DECREF (.list tp (elems.map fun e => PyObject.long e.1 e.2)),
                 Event.vhpi_put_value .vhpiSizeConstraint
                   ⟨elems.length * 4, some elems.length, .intgs (some (elems.map Prod.snd))⟩,
                 Event.vhpi_put_value .vhpiDeposit
                   ⟨elems.length * 4, some elems.length, .intgs (some (elems.map Prod.snd))⟩,
                 Event.free])) }) := by
  have hlist : PyList_Check (.list tp (elems.map fun e => PyObject.long e.1 e.2)) = true := rfl
  have hlsize : PyList_GET_SIZE (.list tp (elems.map fun e => PyObject.long e.1 e.2))
      = elems.length := List.length_map _ _
  constructor
  · intro vec hlen hrun
    have hF := fill_loop_integers .fli env "__eval_result__.get()" tp elems vec w hw hrange hlen
    have hG := fill_loop_integers .ghdl env "__eval_result__.get()" tp elems vec w hw hrange hlen
    have hN := fill_loop_integers .nvc env "__eval_result__.get()" tp elems vec w hw hrange hlen
    refine ⟨?_, ?_, ?_⟩
    · simp only [FLI.p_get_integer_vector,
        bind_of_ret (eval_ret .fli env "__eval_result__.get()" _ w hrun), hlist, hlen,
        Bool.not_true, Bool.false_eq_true, ↓reduceIte, pure_bind_apply, bind_of_ret hF,
        log_bind_apply, pure_apply, List.append_assoc]
    · simp only [GHDL.get_integer_vector,
        bind_of_ret (eval_ret .ghdl env "__eval_result__.get()" _ w hrun), hlist, hlsize,
        Bool.not_true, Bool.false_eq_true, ↓reduceIte, pure_bind_apply, bind_of_ret hG,
        log_bind_apply, pure_apply, List.append_assoc]
    · simp only [NVC.get_integer_vector,
        bind_of_ret (eval_ret .nvc env "__eval_result__.get()" _ w hrun), hlist, hlen,
        Bool.not_true, Bool.false_eq_true, ↓reduceIte, pure_bind_apply, bind_of_ret hN,
        log_bind_apply, pure_apply, List.append_assoc]
  · intro cb_p expr hh hp hrun hdest hput
    have hfit : 0 ≤ to_int (to_int elems.length * 4)
        ∧ (to_int (to_int elems.length * 4)).toNat / 4 = elems.length := by
      obtain ⟨int_array, w1, hm, hl⟩ := hdest
      by_cases hneg : to_int (to_int elems.length * 4) < 0
      · simp only [malloc, log_bind_apply, if_apply, hneg, ↓reduceIte, pure_apply,
          Outcome.ret.injEq, Option.some.injEq, false_and, reduceCtorEq] at hm
      · simp only [malloc, log_bind_apply, if_apply, hneg, ↓reduceIte, pure_apply,
          Outcome.ret.injEq, Option.some.injEq] at hm
        have hcells := congrArg List.length hm.1
        simp only [List.length_map, List.length_range] at hcells
        exact ⟨by omega, by omega⟩
    have hn : (elems.length : Int) * 4 < 2 ^ 31 := by
      unfold to_int at hfit
      omega
    rw [vhpi_eval_integer_vector_run env tp cb_p expr w elems hw hh hp hrange hn hrun]
    simp only [hput, Bool.false_eq_true, ↓reduceIte]

/-- Witness of C6: the list `[1, 2, 3]` with a destination of three elements in the FLI
adapter, and with the host accepting the puts in the VHPI adapter: the destination holds
`[1, 2, 3]` and the declared element count is 3. -/
theorem integer_vector_round_trip_witness :
    FLI.p_get_integer_vector
        (session (.ok (.list PyList_Type
          [.long PyLong_Type 1, .long PyLong_Type 2, .long PyLong_Type 3])))
        [0, 0, 0] ready
      = .ret (some [1, 2, 3])
          { ready with trace :=
              [Event.store_int 0 1, Event.store_int 1 2, Event.store_int 2 3,
               Event.Py_DECREF (.list PyList_Type
                 [.long PyLong_Type 1, .long PyLong_Type 2, .long PyLong_Type 3])] }
    ∧ VHPI.eval_integer_vector
        (session (.ok (.list PyList_Type
          [.long PyLong_Type 1, .long PyLong_Type 2, .long PyLong_Type 3])))
        (accepting_call "[1,2,3]") ready
      = .ret ()
          { ready with trace :=
              [Event.malloc 12,
               Event.store_int 0 1, Event.store_int 1 2, Event.store_int 2 3,
               Event.Py_DECREF (.list PyList_Type
                 [.long PyLong_Type 1, .long PyLong_Type 2, .long PyLong_Type 3]),
               Event.vhpi_put_value .vhpiSizeConstraint ⟨12, some 3, .intgs (some [1, 2, 3])⟩,
               Event.vhpi_put_value .vhpiDeposit ⟨12, some 3, .intgs (some [1, 2, 3])⟩,
               Event.free] } :=
  ⟨((integer_vector_round_trip
      (session (.ok (.list PyList_Type
        [.long PyLong_Type 1, .long PyLong_Type 2, .long PyLong_Type 3])))
      PyList_Type [(PyLong_Type, 1), (PyLong_Type, 2), (PyLong_Type, 3)] ready rfl
      (by decide)).1 [0, 0, 0] rfl rfl).1,
   (integer_vector_round_trip
      (session (.ok (.list PyList_Type
        [.long PyLong_Type 1, .long PyLong_Type 2, .long PyLong_Type 3])))
      PyList_Type [(PyLong_Type, 1), (PyLong_Type, 2), (PyLong_Type, 3)] ready rfl
      (by decide)).2 (accepting_call "[1,2,3]") "[1,2,3]" rfl rfl rfl ⟨_, _, rfl, rfl⟩
      (fun _ => rfl)⟩

/-- The run of `eval_integer_vector` of the VHPI adapter on a list of `2^31` items, whatever
they are, when the host accepts the puts: `list_size` is `-2^31` and `n_bytes` is 0, the loop
is not entered, and the element count declared to the host is `-2^31`. -/
theorem vhpi_eval_integer_vector_wraps (env : Env) (tp : PyTypeObject) (items : List PyObject)
    (cb_p : vhpiCbDataS) (expr : String) (w : World) (hh : cb_p.parameter_handle = true)
    (hp : cb_p.parameter = some expr) (hrun : env.run_eval_input expr = .ok (.list tp items))
    (hlen : items.length = 2 ^ 31) (hput : ∀ mode r, cb_p.put_value_fails mode r = false) :
    VHPI.eval_integer_vector env cb_p w
      = .ret ()
          { w with trace := w.trace ++
              [Event.malloc 0, Event.Py_DECREF (.list tp items),
               Event.vhpi_put_value .vhpiSizeConstraint ⟨0, some (-(2 ^ 31)), .intgs (some [])⟩,
               Event.vhpi_put_value .vhpiDeposit ⟨0, some (-(2 ^ 31)), .intgs (some [])⟩,
               Event.free] } := by
  have hlist : PyList_Check (.list tp items) = true := rfl
  have hlsize : to_int ((PyList_GET_SIZE (.list tp items) : Nat) : Int) = -2147483648 := by
    show to_int ((items.length : Nat) : Int) = -2147483648
    rw [hlen]
    decide
  have h2 : to_int (-2147483648 * 4) = 0 := by decide
  have h3 : (-2147483648 : Int).toNat = 0 := by decide
  have hm := malloc_ret env.heap_int 0 4 w (le_refl _)
  have hloop : fill_loop (fun item => get_integer .vhpi env item expr false) Event.store_int
      (.list tp items) 0 0 (some ((List.range ((0 : Int).toNat / 4)).map env.heap_int))
      { w with trace := w.trace ++ [Event.malloc 0] }
      = .ret (some []) { w with trace := w.trace ++ [Event.malloc 0] } := rfl
  simp only [VHPI.eval_integer_vector,
    bind_of_ret (vhpi_get_parameter_ret env cb_p expr w hh hp),
    bind_of_ret (eval_ret .vhpi env expr _ w hrun),
    hlist, hlsize, h2, h3, Bool.not_true, Bool.false_eq_true, ↓reduceIte, pure_bind_apply,
    bind_of_ret hm, bind_of_ret hloop, log_bind_apply,
    bind_of_ret (vhpi_put_value_apply _ _ _ _),
    hput, log_apply, pure_apply, if_apply, List.nil_append, List.append_assoc,
    List.cons_append]
  norm_num

/-- C7, counterexample: for a list of `2^31` zeros, `eval_integer_vector` stores no element and
declares `numElems = -2^31` to the host, in the size constraint and in the deposit. -/
theorem count_wraps_to_negative :
    VHPI.eval_integer_vector
        (session (.ok (.list PyList_Type (List.replicate (2 ^ 31) (.long PyLong_Type 0)))))
        (accepting_call "[0] * 2**31") ready
      = .ret ()
          { ready with trace :=
              [Event.malloc 0,
               Event.Py_DECREF (.list PyList_Type (List.replicate (2 ^ 31) (.long PyLong_Type 0))),
               Event.vhpi_put_value .vhpiSizeConstraint ⟨0, some (-(2 ^ 31)), .intgs (some [])⟩,
               Event.vhpi_put_value .vhpiDeposit ⟨0, some (-(2 ^ 31)), .intgs (some [])⟩,
               Event.free] }
    ∧ (List.replicate (2 ^ 31) (PyObject.long PyLong_Type 0)).length = 2 ^ 31 :=
  ⟨vhpi_eval_integer_vector_wraps _ PyList_Type _ (accepting_call "[0] * 2**31") "[0] * 2**31"
      ready rfl rfl rfl (List.length_replicate _ _) (fun _ _ => rfl),
    List.length_replicate _ _⟩

/-- C7, as the code has it: in `eval_integer_vector` and `eval_real_vector` of the VHPI adapter,
for every list result of `n` elements that all convert and whose byte size `n * sizeof(int)`
resp. `n * sizeof(double)` fits the C type `int`, exactly `n` elements are stored into the
result buffer (at the indices `0, ..., n-1`) and the value handed to `vhpi_put_value`, for the
size constraint and for the deposit, declares `numElems = n`. -/
theorem vector_count_declared (env : Env) (tp : PyTypeObject) (cb_p : vhpiCbDataS)
    (expr : String) (w : World) (hw : w.err = none) (hh : cb_p.parameter_handle = true)
    (hp : cb_p.parameter = some expr) :
    (∀ elems : List (PyTypeObject × Int),
      (∀ e ∈ elems, -(2 ^ 31) ≤ e.2 ∧ e.2 ≤ 2 ^ 31 - 1) →
      (elems.length : Int) * 4 < 2 ^ 31 →
      env.run_eval_input expr = .ok (.list tp (elems.map fun e => PyObject.long e.1 e.2)) →
      (List.zipWith Event.store_int (List.range' 0 elems.length) (elems.map Prod.snd)).length
        = elems.length
      ∧
      VHPI.eval_integer_vector env cb_p w
        = (if cb_p.put_value_fails .vhpiSizeConstraint
              ⟨elems.length * 4, some elems.length, .intgs (some (elems.map Prod.snd))⟩ then
            py_error_handler .vhpi env
              "setting size constraints when returning result for evaluation of" (some expr)
              none true
              { w with trace := w.trace ++ ([Event.malloc (elems.length * 4)] ++
                (List.zipWith Event.store_int (List.range' 0 elems.length) (elems.map Prod.snd) ++
                [Event.Py_DECREF (.list tp (elems.map fun e => PyObject.long e.1 e.2)),
                 Event.vhpi_put_value .vhpiSizeConstraint
                   ⟨elems.length * 4, some elems.length, .intgs (some (elems.map Prod.snd))⟩,
                 Event.free])) }
          else if cb_p.put_value_fails .vhpiDeposit
              ⟨elems.length * 4, some elems.length, .intgs (some (elems.map Prod.snd))⟩ then
            py_error_handler .vhpi env "returning result for evaluation of" (some expr)
              none true
              { w with trace := w.trace ++ ([Event.malloc (elems.length * 4)] ++
                (List.zipWith Event.store_int (List.range' 0 elems.length) (elems.map Prod.snd) ++
                [Event.Py_DECREF (.list tp (elems.map fun e => PyObject.long e.1 e.2)),
                 Event.vhpi_put_value .vhpiSizeConstraint
                   ⟨elems.length * 4, some elems.length, .intgs (some (elems.map Prod.snd))⟩,
                 Event.vhpi_put_value .vhpiDeposit
                   ⟨elems.length * 4, some elems.length, .intgs (some (elems.map Prod.snd))⟩,
                 Event.free])) }
          else
            .ret ()
              { w with trace := w.trace ++ ([Event.malloc (elems.length * 4)] ++
                (List.zipWith Event.store_int (List.range' 0 elems.length) (elems.map Prod.snd) ++
                [Event.Py_DECREF (.list tp (elems.map fun e => PyObject.long e.1 e.2)),
                 Event.vhpi_put_value .vhpiSizeConstraint
                   ⟨elems.length * 4, some elems.length, .intgs (some (elems.map Prod.snd))⟩,
                 Event.vhpi_put_value .vhpiDeposit
                   ⟨elems.length * 4, some elems.length, .intgs (some (elems.map Prod.snd))⟩,
                 Event.free])) }))
    ∧ (∀ elems : List (PyTypeObject × CDouble),
      (∀ e ∈ elems, (CDouble.gt e.2 REAL_MAX || CDouble.lt e.2 REAL_MAX.neg) = false) →
      (elems.length : Int) * 8 < 2 ^ 31 →
      env.run_eval_input expr = .ok (.list tp (elems.map fun e => PyObject.float e.1 e.2)) →
      (List.zipWith Event.store_real (List.range' 0 elems.length) (elems.map Prod.snd)).length
        = elems.length
      ∧
      VHPI.eval_real_vector env cb_p w
        = (if cb_p.put_value_fails .vhpiSizeConstraint
              ⟨elems.length * 8, some elems.length, .reals (some (elems.map Prod.snd))⟩ then
            py_error_handler .vhpi env
              "setting size constraints when returning result for evaluation of" (some expr)
              none true
              { w with trace := w.trace ++ ([Event.malloc (elems.length * 8)] ++
                (List.zipWith Event.store_real (List.range' 0 elems.length) (elems.map Prod.snd) ++
                [Event.Py_DECREF (.list tp (elems.map fun e => PyObject.float e.1 e.2)),
                 Event.vhpi_put_value .vhpiSizeConstraint
                   ⟨elems.length * 8, some elems.length, .reals (some (elems.map Prod.snd))⟩,
                 Event.free])) }
          else if cb_p.put_value_fails .vhpiDeposit
              ⟨elems.length * 8, some elems.length, .reals (some (elems.map Prod.snd))⟩ then
            py_error_handler .vhpi env "returning result for evaluation of" (some expr)
              none true
              { w with trace := w.trace ++ ([Event.malloc (elems.length * 8)] ++
                (List.zipWith Event.store_real (List.range' 0 elems.length) (elems.map Prod.snd) ++
                [Event.Py_DECREF (.list tp (elems.map fun e => PyObject.float e.1 e.2)),
                 Event.vhpi_put_value .vhpiSizeConstraint
                   ⟨elems.length * 8, some elems.length, .reals (some (elems.map Prod.snd))⟩,
                 Event.vhpi_put_value .vhpiDeposit
                   ⟨elems.length * 8, some elems.length, .reals (some (elems.map Prod.snd))⟩,
                 Event.free])) }
          else
            .ret ()
              { w with trace := w.trace ++ ([Event.malloc (elems.length * 8)] ++
                (List.zipWith Event.store_real (List.range' 0 elems.length) (elems.map Prod.snd) ++
                [Event.Py_DECREF (.list tp (elems.map fun e => PyObject.float e.1 e.2)),
                 Event.vhpi_put_value .vhpiSizeConstraint
                   ⟨elems.length * 8, some elems.length, .reals (some (elems.map Prod.snd))⟩,
                 Event.vhpi_put_value .vhpiDeposit
                   ⟨elems.length * 8, some elems.length, .reals (some (elems.map Prod.snd))⟩,
                 Event.free])) })) := by
  constructor
  · intro elems hrange hfit hrun
    exact ⟨by simp,
      vhpi_eval_integer_vector_run env tp cb_p expr w elems hw hh hp hrange hfit hrun⟩
  · intro elems hrange hfit hrun
    exact ⟨by simp,
      vhpi_eval_real_vector_run env tp cb_p expr w elems hw hh hp hrange hfit hrun⟩

/-- Witness of C7: the list `[1, 2, 3]`, with a host that accepts the puts. -/
theorem vector_count_declared_witness :
    ready.err = none
    ∧ VHPI.eval_integer_vector
        (session (.ok (.list PyList_Type
          [.long PyLong_Type 1, .long PyLong_Type 2, .long PyLong_Type 3])))
        (accepting_call "[1,2,3]") ready
      = .ret ()
          { ready with trace :=
              [Event.malloc 12,
               Event.store_int 0 1, Event.store_int 1 2, Event.store_int 2 3,
               Event.Py_DECREF (.list PyList_Type
                 [.long PyLong_Type 1, .long PyLong_Type 2, .long PyLong_Type 3]),
               Event.vhpi_put_value .vhpiSizeConstraint ⟨12, some 3, .intgs (some [1, 2, 3])⟩,
               Event.vhpi_put_value .vhpiDeposit ⟨12, some 3, .intgs (some [1, 2, 3])⟩,
               Event.free] } :=
  ⟨rfl,
    ((vector_count_declared
      (session (.ok (.list PyList_Type
        [.long PyLong_Type 1, .long PyLong_Type 2, .long PyLong_Type 3])))
      PyList_Type (accepting_call "[1,2,3]") "[1,2,3]" ready rfl rfl rfl).1
      [(PyLong_Type, 1), (PyLong_Type, 2), (PyLong_Type, 3)] (by decide) (by decide) rfl).2⟩

/-! ## The error reporters, action by action -/

/-- The function `python_cleanup` returns after releasing `locals` (when set), finalizing the
interpreter, and printing a warning when finalization fails. -/
theorem python_cleanup_eq (a : Adapter) (env : Env) (w : World) :
    python_cleanup a env w
      = .ret ()
          { w with trace := w.trace ++
              ((if w.locals_set then [Event.Py_DECREF_locals] else []) ++
                (Event.Py_FinalizeEx ::
                  (if env.finalize_fails then
                    [match a with
                      | .vhpi => Event.vhpi_assert .vhpiWarning "WARNING: Failed to finalize Python"
                      | _ => Event.printf "WARNING: Failed to finalize Python\n"]
                  else []))) } := by
  unfold python_cleanup
  cases hl : w.locals_set <;> cases hf : env.finalize_fails <;> cases a <;>
    simp [hl, hf]

/-- The function `py_error_handler`, action by action: the reason is chosen, the session is
cleaned up when asked, the message is reported, and the halting primitive ends the run. -/
theorem py_error_handler_eq {α : Type} (a : Adapter) (env : Env) (context : String)
    (code_or_expr reason : Option String) (cleanup : Bool) (w : World) :
    (py_error_handler a env context code_or_expr reason cleanup : M α) w
      = .halted
          { w with trace := w.trace ++
              ((if cleanup then
                  (if w.locals_set then [Event.Py_DECREF_locals] else []) ++
                    (Event.Py_FinalizeEx ::
                      (if env.finalize_fails then
                        [match a with
                          | .vhpi =>
                            Event.vhpi_assert .vhpiWarning "WARNING: Failed to finalize Python"
                          | _ => Event.printf "WARNING: Failed to finalize Python\n"]
                      else []))
                else []) ++
                [report_event a .vhpiError
                  (match code_or_expr with
                    | none =>
                      "ERROR " ++ context ++ ":\n\n"
                        ++ (match reason with
                            | some r => r
                            | none =>
                              match w.err with
                              | some e =>
                                match get_string env e.pvalue with
                                | some t => if cleanup then env.after_finalize t else t
                                | none => "Unknown error"
                              | none => "Unknown error")
                        ++ "\n\n"
                    | some code =>
                      "ERROR " ++ context ++ ":\n\n" ++ code ++ "\n\n"
                        ++ (match reason with
                            | some r => r
                            | none =>
                              match w.err with
                              | some e =>
                                match get_string env e.pvalue with
                                | some t => if cleanup then env.after_finalize t else t
                                | none => "Unknown error"
                              | none => "Unknown error")
                        ++ "\n\n"),
                 halting_event a]) } := by
  have hc := python_cleanup_eq a env w
  unfold py_error_handler halting_primitive
  rcases herr : w.err with _ | e
  · cases cleanup <;> cases code_or_expr <;> cases reason <;>
      simp [hc, herr, bind_of_ret hc, -bind_apply, get_world_bind_apply, pure_bind_apply,
        log_bind_apply]
  · cases hg : get_string env e.pvalue <;>
      cases cleanup <;> cases code_or_expr <;> cases reason <;>
      simp [hc, herr, hg, bind_of_ret hc, -bind_apply, get_world_bind_apply, pure_bind_apply,
        log_bind_apply]

/-- The function `ffi_error_handler`, action by action. -/
theorem ffi_error_handler_eq {α : Type} (a : Adapter) (env : Env) (context : String)
    (cleanup : Bool) (w : World) :
    (ffi_error_handler a env context cleanup : M α) w
      = .halted
          { w with trace := w.trace ++
              ((if cleanup then
                  (if w.locals_set then [Event.Py_DECREF_locals] else []) ++
                    (Event.Py_FinalizeEx ::
                      (if env.finalize_fails then
                        [match a with
                          | .vhpi =>
                            Event.vhpi_assert .vhpiWarning "WARNING: Failed to finalize Python"
                          | _ => Event.printf "WARNING: Failed to finalize Python\n"]
                      else []))
                else []) ++
                [(match a, env.vhpi_error with
                  | .vhpi, some err =>
                    Event.vhpi_assert err.severity
                      ("ERROR " ++ context ++ ": \n\n" ++ err.file ++ " (" ++ toString err.line
                        ++ "): " ++ err.message ++ "\n\n")
                  | _, _ => report_event a .vhpiError ("ERROR " ++ context ++ "\n\n")),
                 halting_event a]) } := by
  have hc := python_cleanup_eq a env w
  unfold ffi_error_handler halting_primitive
  cases cleanup <;> cases a <;> cases herr : env.vhpi_error <;>
    simp [hc, herr, bind_of_ret hc, -bind_apply, pure_bind_apply, log_bind_apply]

/-- What follows a call of `ffi_error_handler` is not executed. -/
theorem ffi_error_handler_bind_apply {α β : Type} (f : α → M β) (a : Adapter) (env : Env)
    (context : String) (cleanup : Bool) (w : World) :
    ((ffi_error_handler a env context cleanup : M α) >>= f) w
      = (ffi_error_handler a env context cleanup : M β) w := by
  rw [bind_of_halted (ffi_error_handler_eq a env context cleanup w), ffi_error_handler_eq]

/-- What `py_error_handler` reports, for every input: the supplied reason when there is one;
otherwise, when an exception is pending, what the output primitive finds at the address
`get_string` has returned for it, which is the text of the exception when `cleanup` is not
set and what the finalized interpreter has left there when it is set ("Unknown error" when
`get_string` returns `NULL`); otherwise "Unknown error". The message is
"ERROR <context>:\n\n<reason>\n\n" when no source text is given and
"ERROR <context>:\n\n<source>\n\n<reason>\n\n" otherwise; it is the last action before the
halting primitive. -/
theorem py_error_handler_message (a : Adapter) (env : Env) (context : String)
    (code_or_expr reason : Option String) (cleanup : Bool) (w : World) :
    ∃ (r : String) (events : List Event),
      (∀ x, reason = some x → r = x)
      ∧ (reason = none → ∀ e t, w.err = some e → get_string env e.pvalue = some t →
          r = if cleanup then env.after_finalize t else t)
      ∧ (reason = none → ∀ e, w.err = some e → get_string env e.pvalue = none →
          r = "Unknown error")
      ∧ (reason = none → w.err = none → r = "Unknown error")
      ∧ (code_or_expr = none →
          (py_error_handler a env context code_or_expr reason cleanup : M Unit) w
            = .halted { w with trace := w.trace ++ (events ++
                [report_event a .vhpiError ("ERROR " ++ context ++ ":\n\n" ++ r ++ "\n\n"),
                 halting_event a]) })
      ∧ (∀ source, code_or_expr = some source →
          (py_error_handler a env context code_or_expr reason cleanup : M Unit) w
            = .halted { w with trace := w.trace ++ (events ++
                [report_event a .vhpiError
                  ("ERROR " ++ context ++ ":\n\n" ++ source ++ "\n\n" ++ r ++ "\n\n"),
                 halting_event a]) }) := by
  refine ⟨match reason with
      | some r => r
      | none =>
        match w.err with
        | some e =>
          match get_string env e.pvalue with
          | some t => if cleanup then env.after_finalize t else t
          | none => "Unknown error"
        | none => "Unknown error",
    if cleanup then
      (if w.locals_set then [Event.Py_DECREF_locals] else []) ++
        (Event.Py_FinalizeEx ::
          (if env.finalize_fails then
            [match a with
              | .vhpi => Event.vhpi_assert .vhpiWarning "WARNING: Failed to finalize Python"
              | _ => Event.printf "WARNING: Failed to finalize Python\n"]
          else []))
    else [], ?_, ?_, ?_, ?_, ?_, ?_⟩
  · rintro x rfl
    rfl
  · rintro rfl e t he ht
    simp only [he, ht]
  · rintro rfl e he ht
    simp only [he, ht]
  · rintro rfl he
    simp only [he]
  · rintro rfl
    exact py_error_handler_eq a env context none reason cleanup w
  · rintro source rfl
    exact py_error_handler_eq a env context (some source) reason cleanup w

/-- C10, the failing input: no reason supplied, a `ZeroDivisionError` pending whose text is
"division by zero", and `cleanup` set, as every caller of `py_error_handler` sets it. The
reporter takes the address of the text from `get_string`, which has released the bytes that
hold it, finalizes the interpreter, and only then has the output primitive read the
address: the reason in the message is what the finalized interpreter has left there, not the
text of the exception. Without `cleanup` the same call reports "division by zero". -/
theorem exception_text_read_after_cleanup :
    (py_error_handler .fli (session (.ok (.long PyLong_Type 0))) "evaluating" (some "1/0") none
        true : M Unit)
      { err := some ⟨some (.unicode (some "division by zero"))⟩, locals_set := true, trace := [] }
    = .halted
        { err := some ⟨some (.unicode (some "division by zero"))⟩, locals_set := true,
          trace := [Event.Py_DECREF_locals, Event.Py_FinalizeEx,
                    Event.printf ("ERROR evaluating:\n\n1/0\n\n" ++ stale_bytes ++ "\n\n"),
                    Event.mti_FatalError] }
    ∧ stale_bytes ≠ "division by zero"
    ∧ (py_error_handler .fli (session (.ok (.long PyLong_Type 0))) "evaluating" (some "1/0") none
        false : M Unit)
      { err := some ⟨some (.unicode (some "division by zero"))⟩, locals_set := true, trace := [] }
    = .halted
        { err := some ⟨some (.unicode (some "division by zero"))⟩, locals_set := true,
          trace := [Event.printf "ERROR evaluating:\n\n1/0\n\ndivision by zero\n\n",
                    Event.mti_FatalError] } :=
  ⟨rfl, by decide, rfl⟩

/-- The reason a reporter prints after `python_cleanup()` for a pending exception is what the
finalized interpreter has left at the address, in every session and every adapter. -/
theorem exception_text_after_cleanup (a : Adapter) (env : Env) (context source t : String)
    (e : PyErr) (w : World) (he : w.err = some e) (ht : get_string env e.pvalue = some t) :
    ∃ events, (py_error_handler a env context (some source) none true : M Unit) w
      = .halted { w with trace := w.trace ++ (events ++
          [report_event a .vhpiError
            ("ERROR " ++ context ++ ":\n\n" ++ source ++ "\n\n" ++ env.after_finalize t
              ++ "\n\n"),
           halting_event a]) } := by
  obtain ⟨r, events, -, h2, -, -, -, h6⟩ :=
    py_error_handler_message a env context (some source) none true w
  have hr : r = env.after_finalize t := by
    rw [h2 rfl e t he ht]
    rfl
  subst hr
  exact ⟨events, h6 source rfl⟩

/-- An instance without `cleanup`: no reason supplied, `ZeroDivisionError` pending, source
text given. -/
theorem py_error_handler_zero_division :
    (py_error_handler .nvc (session (.ok (.long PyLong_Type 0))) "evaluating" (some "1/0") none
        false : M Unit)
      { err := some ⟨some (.unicode (some "division by zero"))⟩, locals_set := true, trace := [] }
    = .halted
        { err := some ⟨some (.unicode (some "division by zero"))⟩, locals_set := true,
          trace := [Event.printf "ERROR evaluating:\n\n1/0\n\ndivision by zero\n\n",
                    Event.assert_0] } := rfl

/-- C8, the failing input: with the stored list `[1, 2]` and a destination of one element,
`get_integer_vector` of the GHDL adapter, whose loop runs up to the size of the list, stores
the first value and then stores at index 1 of an array of 1 element. -/
theorem ghdl_store_past_destination :
    GHDL.get_integer_vector
        (session (.ok (.list PyList_Type [.long PyLong_Type 1, .long PyLong_Type 2]))) [0] ready
      = .undefined (.store_out_of_bounds 1 1)
          { ready with trace := [Event.store_int 0 1] } := rfl

/-- The same stored list and destination in the FLI and NVC adapters, whose loops run up to the
length of the destination: one store, inside the destination. -/
theorem fli_nvc_store_inside_destination :
    FLI.p_get_integer_vector
        (session (.ok (.list PyList_Type [.long PyLong_Type 1, .long PyLong_Type 2]))) [0] ready
      = .ret (some [1])
          { ready with trace :=
              [Event.store_int 0 1,
               Event.Py_DECREF (.list PyList_Type [.long PyLong_Type 1, .long PyLong_Type 2])] }
    ∧ NVC.get_integer_vector
        (session (.ok (.list PyList_Type [.long PyLong_Type 1, .long PyLong_Type 2]))) [0] ready
      = .ret (some [1])
          { ready with trace :=
              [Event.store_int 0 1,
               Event.Py_DECREF (.list PyList_Type [.long PyLong_Type 1, .long PyLong_Type 2])] } :=
  ⟨rfl, rfl⟩

/-- The function `PyList_GetItem` returns: an item, or `NULL`. -/
theorem PyList_GetItem_ret (list : PyObject) (idx : Nat) (w : World) :
    ∃ item w1, PyList_GetItem list idx w = .ret item w1 := by
  unfold PyList_GetItem
  cases list with
  | list tp items =>
    cases h : items.get? idx with
    | none =>
      refine ⟨none, { w with err := some ⟨some (.unicode (some "list index out of range"))⟩ }, ?_⟩
      simp only [h, set_err_bind_apply, pure_apply]
    | some item =>
      refine ⟨some item, w, ?_⟩
      simp only [h, pure_apply]
  | long tp v => exact ⟨_, _, rfl⟩
  | float tp d => exact ⟨_, _, rfl⟩
  | unicode u => exact ⟨_, _, rfl⟩
  | other tp => exact ⟨_, _, rfl⟩

/-- A loop of the vector operations that runs `count` times from `idx` on an array of at least
`idx + count` elements makes no store outside the array, provided the conversion makes
none. -/
theorem fill_loop_in_bounds {γ : Type} (get : PyObject → M γ) (store_event : Nat → γ → Event)
    (list : PyObject)
    (hget : ∀ item w i c w1, get item w ≠ .undefined (.store_out_of_bounds i c) w1) :
    ∀ (count idx : Nat) (cells : List γ) (w : World), idx + count ≤ cells.length →
      ∀ i c w1, fill_loop get store_event list count idx (some cells) w
        ≠ .undefined (.store_out_of_bounds i c) w1 := by
  intro count
  induction count with
  | zero =>
    intro idx cells w _ i c w1 h
    simp [fill_loop] at h
  | succ count ih =>
    intro idx cells w hc i c w1 h
    have hcell : idx < cells.length := by omega
    obtain ⟨item, w2, hitem⟩ := PyList_GetItem_ret list idx w
    simp only [fill_loop] at h
    rw [bind_of_ret hitem] at h
    cases item with
    | none => simp at h
    | some pyobj =>
      simp only at h
      cases hg : get pyobj w2 with
      | ret value w3 =>
        rw [bind_of_ret hg] at h
        simp only [store, hcell, ↓reduceIte, log_bind_apply, pure_apply, bind_apply] at h
        exact ih (idx + 1) (cells.set idx value) _ (by simp; omega) i c w1 h
      | halted w3 =>
        rw [bind_of_halted hg] at h
        cases h
      | undefined u w3 =>
        have hu : (get pyobj >>= fun value => do
            let arr ← store store_event (some cells) idx value
            fill_loop get store_event list count (idx + 1) arr) w2 = .undefined u w3 := by
          simp [hg]
        rw [hu] at h
        cases h
        exact hget pyobj w2 i c w1 hg
/-- On a `float` that converts, entered with an exception pending, `get_real` reports that
exception. -/
theorem get_real_pending (a : Adapter) (env : Env) (tp : PyTypeObject) (d : CDouble)
    (expr : String) (dec_ref_count : Bool) (w : World) (e : PyErr) (hw : w.err = some e) :
    get_real a env (.float tp d) expr dec_ref_count w
      = py_error_handler a env "parsing evaluation result of" (some expr) none true
          { w with trace := w.trace ++
              (if dec_ref_count then [Event.Py_DECREF (.float tp d)] else []) ++
              [Event.Py_DECREF_exc] } := by
  cases dec_ref_count <;>
    simp [get_real, PyFloat_Check, PyFloat_AsDouble, check_conversion_error, hw]

/-- The function `get_integer` returns or ends in the reporter. -/
theorem get_integer_defined (a : Adapter) (env : Env) (pyobj : PyObject) (expr : String)
    (dec_ref_count : Bool) (w : World) :
    (∃ v w1, get_integer a env pyobj expr dec_ref_count w = .ret v w1)
    ∨ (∃ w1, get_integer a env pyobj expr dec_ref_count w = .halted w1) := by
  cases hcheck : PyLong_Check pyobj with
  | false =>
    obtain ⟨w1, h1⟩ :=
      handle_type_check_error_halted a env pyobj "evaluating to integer" expr w
    exact Or.inr ⟨w1, (get_integer_type_error a env pyobj expr dec_ref_count w hcheck).trans
      (h1 Int)⟩
  | true =>
    cases pyobj with
    | long tp v =>
      by_cases hfit : LONG_MIN env.data_model ≤ v ∧ v ≤ LONG_MAX env.data_model
      · cases herr : w.err with
        | none =>
          by_cases hin : -(2 ^ 31) ≤ v ∧ v ≤ 2 ^ 31 - 1
          · exact Or.inl ⟨_, _, get_integer_ret a env tp v expr dec_ref_count w herr hin.1 hin.2⟩
          · obtain ⟨w1, h1⟩ := py_error_handler_halted a env "parsing evaluation result of"
              (some expr) (some "Result out of VHDL integer range.") true
              { w with trace := w.trace ++
                (if dec_ref_count then [Event.Py_DECREF (.long tp v)] else []) }
            exact Or.inr ⟨w1, (get_integer_range_error a env tp v expr dec_ref_count w herr hfit
              (by omega)).trans (h1 Int)⟩
        | some e =>
          obtain ⟨w1, h1⟩ := py_error_handler_halted a env "parsing evaluation result of"
            (some expr) none true
            { w with trace := w.trace ++
              (if dec_ref_count then [Event.Py_DECREF (.long tp v)] else []) ++
              [Event.Py_DECREF_exc] }
          exact Or.inr ⟨w1, (get_integer_pending a env tp v expr dec_ref_count w e herr
            hfit).trans (h1 Int)⟩
      · obtain ⟨w1, h1⟩ := py_error_handler_halted a env "parsing evaluation result of"
          (some expr) none true
          { w with
            err := some ⟨some (.unicode (some "Python int too large to convert to C long"))⟩
            trace := w.trace ++
              (if dec_ref_count then [Event.Py_DECREF (.long tp v)] else []) ++
              [Event.Py_DECREF_exc] }
        exact Or.inr ⟨w1, (get_integer_conversion_error a env tp v expr dec_ref_count w
          hfit).trans (h1 Int)⟩
    | float tp d => cases hcheck
    | list tp items => cases hcheck
    | unicode u => cases hcheck
    | other tp => cases hcheck

/-- The function `get_real` returns or ends in the reporter. -/
theorem get_real_defined (a : Adapter) (env : Env) (pyobj : PyObject) (expr : String)
    (dec_ref_count : Bool) (w : World) :
    (∃ v w1, get_real a env pyobj expr dec_ref_count w = .ret v w1)
    ∨ (∃ w1, get_real a env pyobj expr dec_ref_count w = .halted w1) := by
  cases hcheck : PyFloat_Check pyobj with
  | false =>
    obtain ⟨w1, h1⟩ :=
      handle_type_check_error_halted a env pyobj "evaluating to real" expr w
    exact Or.inr ⟨w1, (get_real_type_error a env pyobj expr dec_ref_count w hcheck).trans
      (h1 CDouble)⟩
  | true =>
    cases pyobj with
    | float tp d =>
      cases herr : w.err with
      | none =>
        cases htest : (CDouble.gt d REAL_MAX || CDouble.lt d REAL_MAX.neg) with
        | false => exact Or.inl ⟨_, _, get_real_ret a env tp d expr dec_ref_count w herr htest⟩
        | true =>
          obtain ⟨w1, h1⟩ := py_error_handler_halted a env "parsing evaluation result of"
            (some expr) (some "Result out of VHDL real range.") true
            { w with trace := w.trace ++
              (if dec_ref_count then [Event.Py_DECREF (.float tp d)] else []) }
          exact Or.inr ⟨w1, (get_real_range_error a env tp d expr dec_ref_count w herr
            htest).trans (h1 CDouble)⟩
      | some e =>
        obtain ⟨w1, h1⟩ := py_error_handler_halted a env "parsing evaluation result of"
          (some expr) none true
          { w with trace := w.trace ++
            (if dec_ref_count then [Event.Py_DECREF (.float tp d)] else []) ++
            [Event.Py_DECREF_exc] }
        exact Or.inr ⟨w1, (get_real_pending a env tp d expr dec_ref_count w e herr).trans
          (h1 CDouble)⟩
    | long tp v => cases hcheck
    | list tp items => cases hcheck
    | unicode u => cases hcheck
    | other tp => cases hcheck

/-- The function `eval` returns the value or ends in the reporter. -/
theorem eval_defined (a : Adapter) (env : Env) (expr : String) (w : World) :
    (∃ pyobj, env.run_eval_input expr = .ok pyobj ∧ eval a env expr w = .ret pyobj w)
    ∨ (∃ w1, eval a env expr w = .halted w1) := by
  cases hrun : env.run_eval_input expr with
  | ok pyobj => exact Or.inl ⟨pyobj, rfl, eval_ret a env expr pyobj w hrun⟩
  | error e =>
    obtain ⟨w1, h1⟩ := py_error_handler_halted a env "evaluating" (some expr) none true
      { w with err := some e }
    exact Or.inr ⟨w1, (eval_error a env expr e w hrun).trans (h1 PyObject)⟩

/-- The shape shared by the vector operations of the FLI, GHDL and NVC adapters: `eval`, the
check for a list, the loop, the release of the list. When the loop runs at most as many times
as the destination has elements, no store falls outside the destination. -/
theorem vector_operation_in_bounds {γ : Type} (a : Adapter) (env : Env) (context : String)
    (get : PyObject → M γ) (store_event : Nat → γ → Event) (vec : List γ) (count : Nat)
    (hcount : count ≤ vec.length)
    (hget : ∀ item w, (∃ v w1, get item w = .ret v w1) ∨ (∃ w1, get item w = .halted w1))
    (w : World) (i c : Nat) (w1 : World) :
    (do
      let eval_result ← eval a env "__eval_result__.get()"
      if !PyList_Check eval_result then
        handle_type_check_error a env eval_result context "__eval_result__.get()"
      let arr ← fill_loop get store_event eval_result count 0 (some vec)
      log (.Py_DECREF eval_result)
      return arr : M (Option (List γ))) w
      ≠ .undefined (.store_out_of_bounds i c) w1 := by
  intro h
  rcases eval_defined a env "__eval_result__.get()" w with ⟨pyobj, _, he⟩ | ⟨w2, he⟩
  · rw [bind_of_ret he] at h
    cases hcheck : PyList_Check pyobj with
    | false =>
      obtain ⟨w3, h3⟩ := handle_type_check_error_halted a env pyobj context
        "__eval_result__.get()" w
      simp only [hcheck, Bool.not_false, ↓reduceIte, handle_type_check_error_bind_apply,
        h3] at h
      cases h
    | true =>
      simp only [hcheck, Bool.not_true, Bool.false_eq_true, ↓reduceIte, pure_bind_apply] at h
      have hb := fill_loop_in_bounds get store_event pyobj
        (fun item w i c w1 hu => by
          rcases hget item w with ⟨v, w2, hr⟩ | ⟨w2, hr⟩ <;> rw [hr] at hu <;> cases hu)
        count 0 vec w (by omega)
      cases hl : fill_loop get store_event pyobj count 0 (some vec) w with
      | ret arr w3 =>
        rw [bind_of_ret hl] at h
        simp only [log_bind_apply, pure_apply] at h
        cases h
      | halted w3 =>
        rw [bind_of_halted hl] at h
        cases h
      | undefined u w3 =>
        have hu : (fill_loop get store_event pyobj count 0 (some vec) >>= fun arr => do
            log (.Py_DECREF pyobj)
            pure arr) w = .undefined u w3 := by
          simp [hl]
        rw [hu] at h
        cases h
        exact hb i c w1 hl
  · rw [bind_of_halted he] at h
    cases h

/-- What holds of C8: for every stored result and every destination, `p_get_integer_vector`
and `p_get_real_vector` (FLI) and `get_integer_vector` and `get_real_vector` (NVC) make no
store at an index outside the destination. -/
theorem fli_nvc_stores_in_bounds (env : Env) (w w1 : World) (i c : Nat) :
    (∀ vec, FLI.p_get_integer_vector env vec w ≠ .undefined (.store_out_of_bounds i c) w1)
    ∧ (∀ vec, FLI.p_get_real_vector env vec w ≠ .undefined (.store_out_of_bounds i c) w1)
    ∧ (∀ vec, NVC.get_integer_vector env vec w ≠ .undefined (.store_out_of_bounds i c) w1)
    ∧ (∀ vec, NVC.get_real_vector env vec w ≠ .undefined (.store_out_of_bounds i c) w1) :=
  ⟨fun vec => vector_operation_in_bounds .fli env "evaluating to integer_vector"
      (fun item => get_integer .fli env item "__eval_result__.get()" false) Event.store_int vec
      vec.length (le_refl _) (fun item w => get_integer_defined .fli env item _ false w) w i c w1,
   fun vec => vector_operation_in_bounds .fli env "evaluating to real_vector"
      (fun item => get_real .fli env item "__eval_result__.get()" false) Event.store_real vec
      vec.length (le_refl _) (fun item w => get_real_defined .fli env item _ false w) w i c w1,
   fun vec => vector_operation_in_bounds .nvc env "evaluating to integer_vector"
      (fun item => get_integer .nvc env item "__eval_result__.get()" false) Event.store_int vec
      vec.length (le_refl _) (fun item w => get_integer_defined .nvc env item _ false w) w i c w1,
   fun vec => vector_operation_in_bounds .nvc env "evaluating to real_vector"
      (fun item => get_real .nvc env item "__eval_result__.get()" false) Event.store_real vec
      vec.length (le_refl _) (fun item w => get_real_defined .nvc env item _ false w) w i c w1⟩

/-- C9: when the result is not a list (a tuple for instance), every vector operation of every
adapter does nothing between `eval` and the call of `handle_type_check_error` with the
context "evaluating to integer_vector" resp. "evaluating to real_vector": the reporter is
entered in the state `eval` returned in, before any item is converted and before any store
into the destination; it reports a type error (`py_error_handler` with that context, the
expression, a reason, and the request to clean up) and the run halts. -/
theorem vector_type_check_first (env : Env) (pyobj : PyObject) (w : World)
    (hlist : PyList_Check pyobj = false) :
    (env.run_eval_input "__eval_result__.get()" = .ok pyobj →
      (∀ vec, FLI.p_get_integer_vector env vec w
        = handle_type_check_error .fli env pyobj "evaluating to integer_vector"
            "__eval_result__.get()" w)
      ∧ (∀ vec, FLI.p_get_real_vector env vec w
        = handle_type_check_error .fli env pyobj "evaluating to real_vector"
            "__eval_result__.get()" w)
      ∧ (∀ vec, GHDL.get_integer_vector env vec w
        = handle_type_check_error .ghdl env pyobj "evaluating to integer_vector"
            "__eval_result__.get()" w)
      ∧ (∀ vec, GHDL.get_real_vector env vec w
        = handle_type_check_error .ghdl env pyobj "evaluating to real_vector"
            "__eval_result__.get()" w)
      ∧ (∀ vec, NVC.get_integer_vector env vec w
        = handle_type_check_error .nvc env pyobj "evaluating to integer_vector"
            "__eval_result__.get()" w)
      ∧ (∀ vec, NVC.get_real_vector env vec w
        = handle_type_check_error .nvc env pyobj "evaluating to real_vector"
            "__eval_result__.get()" w))
    ∧ (∀ (cb_p : vhpiCbDataS) (expr : String), cb_p.parameter_handle = true →
      cb_p.parameter = some expr → env.run_eval_input expr = .ok pyobj →
      VHPI.eval_integer_vector env cb_p w
        = handle_type_check_error .vhpi env pyobj "evaluating to integer_vector" expr w
      ∧ VHPI.eval_real_vector env cb_p w
        = handle_type_check_error .vhpi env pyobj "evaluating to real_vector" expr w)
    ∧ (∀ (a : Adapter) (context expr : String), ∃ reason w1, ∀ α : Type,
      (handle_type_check_error a env pyobj context expr : M α) w
        = py_error_handler a env context (some expr) (some reason) true w
      ∧ (handle_type_check_error a env pyobj context expr : M α) w = .halted w1) := by
  refine ⟨?_, ?_, ?_⟩
  · intro hrun
    refine ⟨?_, ?_, ?_, ?_, ?_, ?_⟩ <;> intro vec
    · simp only [FLI.p_get_integer_vector,
        bind_of_ret (eval_ret .fli env "__eval_result__.get()" _ w hrun), hlist,
        Bool.not_false, ↓reduceIte, handle_type_check_error_bind_apply]
    · simp only [FLI.p_get_real_vector,
        bind_of_ret (eval_ret .fli env "__eval_result__.get()" _ w hrun), hlist,
        Bool.not_false, ↓reduceIte, handle_type_check_error_bind_apply]
    · simp only [GHDL.get_integer_vector,
        bind_of_ret (eval_ret .ghdl env "__eval_result__.get()" _ w hrun), hlist,
        Bool.not_false, ↓reduceIte, handle_type_check_error_bind_apply]
    · simp only [GHDL.get_real_vector,
        bind_of_ret (eval_ret .ghdl env "__eval_result__.get()" _ w hrun), hlist,
        Bool.not_false, ↓reduceIte, handle_type_check_error_bind_apply]
    · simp only [NVC.get_integer_vector,
        bind_of_ret (eval_ret .nvc env "__eval_result__.get()" _ w hrun), hlist,
        Bool.not_false, ↓reduceIte, handle_type_check_error_bind_apply]
    · simp only [NVC.get_real_vector,
        bind_of_ret (eval_ret .nvc env "__eval_result__.get()" _ w hrun), hlist,
        Bool.not_false, ↓reduceIte, handle_type_check_error_bind_apply]
  · intro cb_p expr hh hp hrun
    constructor
    · simp only [VHPI.eval_integer_vector,
        bind_of_ret (vhpi_get_parameter_ret env cb_p expr w hh hp),
        bind_of_ret (eval_ret .vhpi env expr _ w hrun), hlist,
        Bool.not_false, ↓reduceIte, handle_type_check_error_bind_apply]
    · simp only [VHPI.eval_real_vector,
        bind_of_ret (vhpi_get_parameter_ret env cb_p expr w hh hp),
        bind_of_ret (eval_ret .vhpi env expr _ w hrun), hlist,
        Bool.not_false, ↓reduceIte, handle_type_check_error_bind_apply]
  · intro a context expr
    obtain ⟨reason, hr⟩ := handle_type_check_error_eq a env pyobj context expr
    obtain ⟨w1, h1⟩ := py_error_handler_halted a env context (some expr) (some reason) true w
    exact ⟨reason, w1, fun α => ⟨hr α w, (hr α w).trans (h1 α)⟩⟩

/-- Witness of C9: the tuple `(1, 2)` as stored result, in the GHDL adapter: nothing is stored;
the session is cleaned up, the type `tuple` is reported, the run is aborted. -/
theorem vector_type_check_first_witness :
    PyList_Check (.other PyTuple_Type) = false
    ∧ GHDL.get_integer_vector (session (.ok (.other PyTuple_Type))) [0, 0] ready
      = handle_type_check_error .ghdl (session (.ok (.other PyTuple_Type)))
          (.other PyTuple_Type) "evaluating to integer_vector" "__eval_result__.get()" ready
    ∧ GHDL.get_integer_vector (session (.ok (.other PyTuple_Type))) [0, 0] ready
      = .halted
          { ready with trace :=
              [Event.Py_DECREF_locals, Event.Py_FinalizeEx,
               Event.printf ("ERROR evaluating to integer_vector:\n\n__eval_result__.get()\n\n"
                 ++ "Expression evaluates to tuple\n\n"),
               Event.assert_0] } :=
  ⟨rfl,
    ((vector_type_check_first (session (.ok (.other PyTuple_Type))) (.other PyTuple_Type) ready
      rfl).1 rfl).2.2.1 [0, 0],
    rfl⟩

/-! ## Order of the actions of the reporters -/

/-- C11: in every adapter, `py_error_handler` and `ffi_error_handler` called with
`cleanup = true` tear the session down first (`locals` is released when set, the interpreter
is finalized, with a warning when that fails), then emit the message, then call the halting
primitive; called with `cleanup = false` they only emit the message and call the halting
primitive. -/
theorem cleanup_precedes_report (a : Adapter) (env : Env) (context : String)
    (code_or_expr reason : Option String) (w : World) :
    (∃ text,
      (py_error_handler a env context code_or_expr reason true : M Unit) w
        = .halted { w with trace := w.trace ++
            ((if w.locals_set then [Event.Py_DECREF_locals] else []) ++
              (Event.Py_FinalizeEx ::
                (if env.finalize_fails then
                  [match a with
                    | .vhpi => Event.vhpi_assert .vhpiWarning "WARNING: Failed to finalize Python"
                    | _ => Event.printf "WARNING: Failed to finalize Python\n"]
                else [])) ++
              [report_event a .vhpiError text, halting_event a]) })
    ∧ (∃ text,
      (py_error_handler a env context code_or_expr reason false : M Unit) w
        = .halted { w with trace := w.trace ++
            [report_event a .vhpiError text, halting_event a] })
    ∧ (ffi_error_handler a env context true : M Unit) w
        = .halted { w with trace := w.trace ++
            ((if w.locals_set then [Event.Py_DECREF_locals] else []) ++
              (Event.Py_FinalizeEx ::
                (if env.finalize_fails then
                  [match a with
                    | .vhpi => Event.vhpi_assert .vhpiWarning "WARNING: Failed to finalize Python"
                    | _ => Event.printf "WARNING: Failed to finalize Python\n"]
                else [])) ++
              [(match a, env.vhpi_error with
                | .vhpi, some err =>
                  Event.vhpi_assert err.severity
                    ("ERROR " ++ context ++ ": \n\n" ++ err.file ++ " (" ++ toString err.line
                      ++ "): " ++ err.message ++ "\n\n")
                | _, _ => report_event a .vhpiError ("ERROR " ++ context ++ "\n\n")),
               halting_event a]) }
    ∧ (ffi_error_handler a env context false : M Unit) w
        = .halted { w with trace := w.trace ++
            [(match a, env.vhpi_error with
              | .vhpi, some err =>
                Event.vhpi_assert err.severity
                  ("ERROR " ++ context ++ ": \n\n" ++ err.file ++ " (" ++ toString err.line
                    ++ "): " ++ err.message ++ "\n\n")
              | _, _ => report_event a .vhpiError ("ERROR " ++ context ++ "\n\n")),
             halting_event a] } :=
  ⟨⟨_, py_error_handler_eq a env context code_or_expr reason true w⟩,
    ⟨_, py_error_handler_eq a env context code_or_expr reason false w⟩,
    ffi_error_handler_eq a env context true w,
    ffi_error_handler_eq a env context false w⟩

/-- The GHDL adapter, with `cleanup = true` and with `cleanup = false`: teardown, message and
halting primitive in that order, and no teardown in the second call. -/
theorem cleanup_precedes_report_ghdl :
    (py_error_handler .ghdl (session (.ok (.long PyLong_Type 0))) "executing" (some "x = ")
        (some "invalid syntax") true : M Unit) ready
      = .halted { ready with trace :=
          [Event.Py_DECREF_locals, Event.Py_FinalizeEx,
           Event.printf "ERROR executing:\n\nx = \n\ninvalid syntax\n\n", Event.assert_0] }
    ∧ (ffi_error_handler .ghdl (session (.ok (.long PyLong_Type 0)))
        "Failed to initialize Python" false : M Unit) not_set_up
      = .halted { not_set_up with trace :=
          [Event.printf "ERROR Failed to initialize Python\n\n", Event.assert_0] } :=
  ⟨rfl, rfl⟩

/-- C15: in every adapter `python_cleanup` returns to its caller whether or not the
finalization succeeds: it releases `locals` when set, calls `Py_FinalizeEx()`, emits
"WARNING: Failed to finalize Python" exactly when that call reports a failure, and does
nothing else; no error reporter and no halting primitive is called. -/
theorem python_cleanup_returns (a : Adapter) (env : Env) (w : World) :
    python_cleanup a env w
        = .ret ()
            { w with trace := w.trace ++
                ((if w.locals_set then [Event.Py_DECREF_locals] else []) ++
                  (Event.Py_FinalizeEx ::
                    (if env.finalize_fails then
                      [match a with
                        | .vhpi =>
                          Event.vhpi_assert .vhpiWarning "WARNING: Failed to finalize Python"
                        | _ => Event.printf "WARNING: Failed to finalize Python\n"]
                    else []))) }
    ∧ FLI.python_cleanup env w = python_cleanup .fli env w
    ∧ GHDL.python_cleanup env w = python_cleanup .ghdl env w
    ∧ NVC.python_cleanup env w = python_cleanup .nvc env w
    ∧ VHPI.python_cleanup env w = python_cleanup .vhpi env w :=
  ⟨python_cleanup_eq a env w, rfl, rfl, rfl, rfl⟩

/-- A finalization that fails, in the FLI adapter: the warning is emitted and the function
returns. -/
theorem python_cleanup_finalize_fails :
    FLI.python_cleanup { session (.ok (.long PyLong_Type 0)) with finalize_fails := true } ready
      = .ret () { ready with trace :=
          [Event.Py_DECREF_locals, Event.Py_FinalizeEx,
           Event.printf "WARNING: Failed to finalize Python\n"] } := rfl

/-! ## Initialization -/

/-- The function `python_setup` of the FLI, GHDL and NVC adapters from `Py_Initialize()` on,
case by case. -/
theorem python_setup_common_eq (a : Adapter) (env : Env) (w : World) :
    python_setup_common a env w
      = (if env.is_initialized = false then
          ffi_error_handler a env "Failed to initialize Python" false
            { w with trace := w.trace ++ [Event.Py_Initialize] }
        else if env.main_module = false then
          ffi_error_handler a env "Failed to get the main module" true
            { w with trace := w.trace ++ [Event.Py_Initialize] }
        else if env.module_dict = false then
          ffi_error_handler a env "Failed to get the global dictionary" true
            { w with trace := w.trace ++ [Event.Py_Initialize] }
        else
          match env.run_file_input eval_result_code with
          | none => .ret () { w with locals_set := true, trace := w.trace ++ [Event.Py_Initialize] }
          | some e =>
            ffi_error_handler a env "Failed to initialize predefined Python objects" true
              { err := some e, locals_set := true, trace := w.trace ++ [Event.Py_Initialize] }) := by
  unfold python_setup_common
  cases hi : env.is_initialized <;> cases hm : env.main_module <;> cases hd : env.module_dict <;>
    cases hr : env.run_file_input eval_result_code <;>
    simp only [log_bind_apply, if_apply, Bool.not_true, Bool.not_false, Bool.false_eq_true,
      ↓reduceIte, ffi_error_handler_bind_apply, pure_bind_apply, reduceCtorEq] <;>
    rfl

/-- The function `python_setup` of the VHPI adapter, case by case. -/
theorem vhpi_python_setup_eq (env : Env) (w : World) :
    VHPI.python_setup env w
      = (if env.is_initialized = false then
          ffi_error_handler .vhpi env "Failed to initialize Python" false
            { w with trace := w.trace ++ [Event.Py_Initialize] }
        else if env.main_module = false then
          ffi_error_handler .vhpi env "Failed to get the main module" true
            { w with trace := w.trace ++ [Event.Py_Initialize] }
        else if env.module_dict = false then
          ffi_error_handler .vhpi env "Failed to get the global dictionary" true
            { w with trace := w.trace ++ [Event.Py_Initialize] }
        else
          .ret () { w with locals_set := true, trace := w.trace ++ [Event.Py_Initialize] }) := by
  unfold VHPI.python_setup
  cases hi : env.is_initialized <;> cases hm : env.main_module <;> cases hd : env.module_dict <;>
    (simp only [log_bind_apply, if_apply, Bool.not_true, Bool.not_false, Bool.false_eq_true,
      ↓reduceIte, ffi_error_handler_bind_apply, pure_bind_apply, reduceCtorEq]
     try rfl)

/-- The function `python_setup` of the GHDL adapter: two calls, then the shared part. -/
theorem ghdl_python_setup_eq (env : Env) (w : World) :
    GHDL.python_setup env w
      = python_setup_common .ghdl env
          { w with trace := w.trace ++
            [Event.putenv "PYTHONLEGACYWINDOWSDLLLOADING=1",
             Event.Py_SetPythonHome "c:\\msys64\\mingw64"] } := by
  unfold GHDL.python_setup
  simp only [log_bind_apply, List.append_assoc, List.cons_append, List.nil_append]

/-- C14, as amended: in every adapter `python_setup` reports the interpreter failing to
initialize through `ffi_error_handler` with `cleanup = false`; the main module or the global
dictionary not being obtainable (and, in the FLI, GHDL and NVC adapters, the predefined
Python objects failing to initialize) is reported with `cleanup = true`, the interpreter
being initialized by then; otherwise `python_setup` returns with `locals` set. -/
theorem python_setup_failures (env : Env) (w : World) :
    FLI.python_setup env w = python_setup_common .fli env w
    ∧ NVC.python_setup env w = python_setup_common .nvc env w
    ∧ GHDL.python_setup env w
        = python_setup_common .ghdl env
            { w with trace := w.trace ++
              [Event.putenv "PYTHONLEGACYWINDOWSDLLLOADING=1",
               Event.Py_SetPythonHome "c:\\msys64\\mingw64"] }
    ∧ (∀ a : Adapter,
        python_setup_common a env w
          = (if env.is_initialized = false then
              ffi_error_handler a env "Failed to initialize Python" false
                { w with trace := w.trace ++ [Event.Py_Initialize] }
            else if env.main_module = false then
              ffi_error_handler a env "Failed to get the main module" true
                { w with trace := w.trace ++ [Event.Py_Initialize] }
            else if env.module_dict = false then
              ffi_error_handler a env "Failed to get the global dictionary" true
                { w with trace := w.trace ++ [Event.Py_Initialize] }
            else
              match env.run_file_input eval_result_code with
              | none =>
                .ret () { w with locals_set := true, trace := w.trace ++ [Event.Py_Initialize] }
              | some e =>
                ffi_error_handler a env "Failed to initialize predefined Python objects" true
                  { err := some e, locals_set := true,
                    trace := w.trace ++ [Event.Py_Initialize] }))
    ∧ VHPI.python_setup env w
        = (if env.is_initialized = false then
            ffi_error_handler .vhpi env "Failed to initialize Python" false
              { w with trace := w.trace ++ [Event.Py_Initialize] }
          else if env.main_module = false then
            ffi_error_handler .vhpi env "Failed to get the main module" true
              { w with trace := w.trace ++ [Event.Py_Initialize] }
          else if env.module_dict = false then
            ffi_error_handler .vhpi env "Failed to get the global dictionary" true
              { w with trace := w.trace ++ [Event.Py_Initialize] }
          else
            .ret () { w with locals_set := true, trace := w.trace ++ [Event.Py_Initialize] }) :=
  ⟨rfl, rfl, ghdl_python_setup_eq env w, fun a => python_setup_common_eq a env w,
    vhpi_python_setup_eq env w⟩

/-- C14, the counterexample: when the main module (NVC adapter) or the global dictionary (VHPI
adapter) cannot be obtained, `python_setup` calls `ffi_error_handler` with `cleanup = true`,
and the interpreter is finalized before the message is emitted. -/
theorem setup_failure_with_cleanup :
    NVC.python_setup { session (.ok (.long PyLong_Type 0)) with main_module := false } not_set_up
      = ffi_error_handler .nvc { session (.ok (.long PyLong_Type 0)) with main_module := false }
          "Failed to get the main module" true
          { not_set_up with trace := [Event.Py_Initialize] }
    ∧ NVC.python_setup { session (.ok (.long PyLong_Type 0)) with main_module := false }
        not_set_up
      = .halted { not_set_up with trace :=
          [Event.Py_Initialize, Event.Py_FinalizeEx,
           Event.printf "ERROR Failed to get the main module\n\n", Event.assert_0] }
    ∧ VHPI.python_setup { session (.ok (.long PyLong_Type 0)) with module_dict := false }
        not_set_up
      = ffi_error_handler .vhpi { session (.ok (.long PyLong_Type 0)) with module_dict := false }
          "Failed to get the global dictionary" true
          { not_set_up with trace := [Event.Py_Initialize] }
    ∧ VHPI.python_setup { session (.ok (.long PyLong_Type 0)) with module_dict := false }
        not_set_up
      = .halted { not_set_up with trace :=
          [Event.Py_Initialize, Event.Py_FinalizeEx,
           Event.vhpi_assert .vhpiError "ERROR Failed to get the global dictionary\n\n",
           Event.vhpi_control_stop] } :=
  ⟨rfl, rfl, rfl, rfl⟩

/-- The interpreter failing to initialize, in the GHDL adapter: the one initialization
failure reported without cleanup. -/
theorem setup_failure_without_cleanup :
    GHDL.python_setup { session (.ok (.long PyLong_Type 0)) with is_initialized := false }
        not_set_up
      = .halted { not_set_up with trace :=
          [Event.putenv "PYTHONLEGACYWINDOWSDLLLOADING=1",
           Event.Py_SetPythonHome "c:\\msys64\\mingw64", Event.Py_Initialize,
           Event.printf "ERROR Failed to initialize Python\n\n", Event.assert_0] } := rfl

/-- A successful `python_setup` of the FLI adapter. -/
theorem setup_succeeds :
    FLI.python_setup (session (.ok (.long PyLong_Type 0))) not_set_up
      = .ret () { ready with trace := [Event.Py_Initialize] } := rfl

/-! ## The two message shapes -/

theorem nothing_after_halt_pure {α : Type} (x : α) : nothing_after_halt (pure x : M α) :=
  fun _ hw => hw

theorem nothing_after_halt_bind {α β : Type} {m : M α} {f : α → M β}
    (hm : nothing_after_halt m) (hf : ∀ x, nothing_after_halt (f x)) :
    nothing_after_halt (m >>= f) := by
  intro w hw
  have h := hm w hw
  rw [bind_apply]
  cases hmw : m w with
  | ret x w1 =>
    rw [hmw] at h
    exact hf x w1 h
  | halted w1 =>
    rw [hmw] at h
    exact h
  | undefined u w1 =>
    rw [hmw] at h
    exact h

theorem nothing_after_halt_log (e : Event) (he : e.is_halting = false) :
    nothing_after_halt (log e) := by
  intro w hw
  show ((w.trace ++ [e]).all fun e => !e.is_halting) = true
  rw [List.all_append, List.all_cons, List.all_nil, he]
  simpa [World.running] using hw

theorem nothing_after_halt_ite {α : Type} {c : Prop} [Decidable c] {x y : M α}
    (hx : nothing_after_halt x) (hy : nothing_after_halt y) :
    nothing_after_halt (if c then x else y) := by
  split
  · exact hx
  · exact hy

/-- A statement `if (c) x;` followed by the statements `k`. -/
theorem nothing_after_halt_when {β : Type} {c : Prop} [Decidable c] {x : M PUnit}
    {k : PUnit → M β} (hx : nothing_after_halt x) (hk : ∀ y, nothing_after_halt (k y)) :
    nothing_after_halt (if c then x >>= k else pure PUnit.unit >>= k) :=
  nothing_after_halt_ite (nothing_after_halt_bind hx hk)
    (nothing_after_halt_bind (nothing_after_halt_pure _) hk)

theorem nothing_after_halt_undefined {α : Type} (why : Undefined) :
    nothing_after_halt (undefined_behaviour why : M α) :=
  fun _ hw => hw

theorem nothing_after_halt_get_world : nothing_after_halt get_world :=
  fun _ hw => hw

theorem nothing_after_halt_set_err (e : Option PyErr) : nothing_after_halt (set_err e) :=
  fun _ hw => hw

theorem nothing_after_halt_set_locals : nothing_after_halt set_locals :=
  fun _ hw => hw

/-- The halting primitive is the last action of the run. -/
theorem nothing_after_halt_halting_primitive {α : Type} (a : Adapter) :
    nothing_after_halt (halting_primitive a : M α) := by
  intro w hw
  refine ⟨w.trace, halting_event a, rfl, ?_, hw⟩
  cases a <;> rfl

theorem nothing_after_halt_python_cleanup (a : Adapter) (env : Env) :
    nothing_after_halt (python_cleanup a env) := by
  unfold python_cleanup
  refine nothing_after_halt_bind nothing_after_halt_get_world fun w => ?_
  dsimp only
  refine nothing_after_halt_when (nothing_after_halt_log .Py_DECREF_locals rfl) fun _ => ?_
  refine nothing_after_halt_bind (nothing_after_halt_log .Py_FinalizeEx rfl) fun _ => ?_
  refine nothing_after_halt_ite ?_ (nothing_after_halt_pure _)
  cases a <;>
    first
    | exact nothing_after_halt_log (.printf _) rfl
    | exact nothing_after_halt_log (.vhpi_assert _ _) rfl

theorem nothing_after_halt_py_error_handler {α : Type} (a : Adapter) (env : Env)
    (context : String) (code_or_expr reason : Option String) (cleanup : Bool) :
    nothing_after_halt (py_error_handler a env context code_or_expr reason cleanup : M α) := by
  unfold py_error_handler
  refine nothing_after_halt_bind nothing_after_halt_get_world fun w => ?_
  dsimp only
  refine nothing_after_halt_when (nothing_after_halt_python_cleanup a env) fun _ => ?_
  cases code_or_expr <;> cases a <;>
    first
    | exact nothing_after_halt_bind (nothing_after_halt_log (.printf _) rfl)
        fun _ => nothing_after_halt_halting_primitive _
    | exact nothing_after_halt_bind (nothing_after_halt_log (.vhpi_assert _ _) rfl)
        fun _ => nothing_after_halt_halting_primitive _

theorem nothing_after_halt_ffi_error_handler {α : Type} (a : Adapter) (env : Env)
    (context : String) (cleanup : Bool) :
    nothing_after_halt (ffi_error_handler a env context cleanup : M α) := by
  unfold ffi_error_handler
  dsimp only
  refine nothing_after_halt_when (nothing_after_halt_python_cleanup a env) fun _ => ?_
  cases a <;> cases env.vhpi_error <;>
    first
    | exact nothing_after_halt_bind (nothing_after_halt_log (.printf _) rfl)
        fun _ => nothing_after_halt_halting_primitive _
    | exact nothing_after_halt_bind (nothing_after_halt_log (.vhpi_assert _ _) rfl)
        fun _ => nothing_after_halt_halting_primitive _

theorem nothing_after_halt_handle_type_check_error {α : Type} (a : Adapter) (env : Env)
    (pyobj : PyObject) (context expr : String) :
    nothing_after_halt (handle_type_check_error a env pyobj context expr : M α) := by
  unfold handle_type_check_error
  split
  · exact nothing_after_halt_py_error_handler a env _ _ _ _
  · split <;> exact nothing_after_halt_py_error_handler a env _ _ _ _

theorem nothing_after_halt_check_conversion_error (a : Adapter) (env : Env) (expr : String) :
    nothing_after_halt (check_conversion_error a env expr) := by
  unfold check_conversion_error
  refine nothing_after_halt_bind nothing_after_halt_get_world fun w => ?_
  refine nothing_after_halt_ite ?_ (nothing_after_halt_pure _)
  exact nothing_after_halt_bind (nothing_after_halt_log .Py_DECREF_exc rfl)
    fun _ => nothing_after_halt_py_error_handler a env _ _ _ _

theorem nothing_after_halt_eval (a : Adapter) (env : Env) (expr : String) :
    nothing_after_halt (eval a env expr) := by
  unfold eval
  split
  · exact nothing_after_halt_pure _
  · exact nothing_after_halt_bind (nothing_after_halt_set_err _)
      fun _ => nothing_after_halt_py_error_handler a env _ _ _ _

theorem nothing_after_halt_PyLong_AsLong (env : Env) (pyobj : PyObject) :
    nothing_after_halt (PyLong_AsLong env pyobj) := by
  unfold PyLong_AsLong
  split
  · exact nothing_after_halt_ite (nothing_after_halt_pure _)
      (nothing_after_halt_bind (nothing_after_halt_set_err _) fun _ => nothing_after_halt_pure _)
  · exact nothing_after_halt_bind (nothing_after_halt_set_err _)
      fun _ => nothing_after_halt_pure _

theorem nothing_after_halt_PyFloat_AsDouble (pyobj : PyObject) :
    nothing_after_halt (PyFloat_AsDouble pyobj) := by
  unfold PyFloat_AsDouble
  split
  · exact nothing_after_halt_pure _
  · exact nothing_after_halt_bind (nothing_after_halt_set_err _)
      fun _ => nothing_after_halt_pure _

theorem nothing_after_halt_get_integer (a : Adapter) (env : Env) (pyobj : PyObject)
    (expr : String) (dec_ref_count : Bool) :
    nothing_after_halt (get_integer a env pyobj expr dec_ref_count) := by
  unfold get_integer
  dsimp only
  refine nothing_after_halt_when (nothing_after_halt_handle_type_check_error a env _ _ _)
    fun _ => ?_
  refine nothing_after_halt_bind (nothing_after_halt_PyLong_AsLong env pyobj) fun value => ?_
  refine nothing_after_halt_when (nothing_after_halt_log (.Py_DECREF pyobj) rfl) fun _ => ?_
  refine nothing_after_halt_bind (nothing_after_halt_check_conversion_error a env expr)
    fun _ => ?_
  exact nothing_after_halt_when (nothing_after_halt_py_error_handler a env _ _ _ _)
    fun _ => nothing_after_halt_pure _

theorem nothing_after_halt_get_real (a : Adapter) (env : Env) (pyobj : PyObject)
    (expr : String) (dec_ref_count : Bool) :
    nothing_after_halt (get_real a env pyobj expr dec_ref_count) := by
  unfold get_real
  dsimp only
  refine nothing_after_halt_when (nothing_after_halt_handle_type_check_error a env _ _ _)
    fun _ => ?_
  refine nothing_after_halt_bind (nothing_after_halt_PyFloat_AsDouble pyobj) fun value => ?_
  refine nothing_after_halt_when (nothing_after_halt_log (.Py_DECREF pyobj) rfl) fun _ => ?_
  refine nothing_after_halt_bind (nothing_after_halt_check_conversion_error a env expr)
    fun _ => ?_
  exact nothing_after_halt_when (nothing_after_halt_py_error_handler a env _ _ _ _)
    fun _ => nothing_after_halt_pure _

theorem nothing_after_halt_PyList_GetItem (list : PyObject) (idx : Nat) :
    nothing_after_halt (PyList_GetItem list idx) := by
  unfold PyList_GetItem
  split
  · split
    · exact nothing_after_halt_pure _
    · exact nothing_after_halt_bind (nothing_after_halt_set_err _)
        fun _ => nothing_after_halt_pure _
  · exact nothing_after_halt_bind (nothing_after_halt_set_err _)
      fun _ => nothing_after_halt_pure _

theorem nothing_after_halt_store {γ : Type} (store_event : Nat → γ → Event)
    (hstore : ∀ idx value, (store_event idx value).is_halting = false)
    (arr : Option (List γ)) (idx : Nat) (value : γ) :
    nothing_after_halt (store store_event arr idx value) := by
  unfold store
  split
  · exact nothing_after_halt_undefined _
  · exact nothing_after_halt_ite
      (nothing_after_halt_bind (nothing_after_halt_log _ (hstore idx value))
        fun _ => nothing_after_halt_pure _)
      (nothing_after_halt_undefined _)

theorem nothing_after_halt_fill_loop {γ : Type} (get : PyObject → M γ)
    (store_event : Nat → γ → Event) (list : PyObject)
    (hget : ∀ item, nothing_after_halt (get item))
    (hstore : ∀ idx value, (store_event idx value).is_halting = false) :
    ∀ (count idx : Nat) (arr : Option (List γ)),
      nothing_after_halt (fill_loop get store_event list count idx arr) := by
  intro count
  induction count with
  | zero =>
    intro idx arr
    exact nothing_after_halt_pure _
  | succ count ih =>
    intro idx arr
    unfold fill_loop
    refine nothing_after_halt_bind (nothing_after_halt_PyList_GetItem list idx) fun item => ?_
    cases item with
    | none => exact nothing_after_halt_undefined _
    | some pyobj =>
      exact nothing_after_halt_bind (hget pyobj) fun value =>
        nothing_after_halt_bind (nothing_after_halt_store store_event hstore arr idx value)
          fun arr1 => ih (idx + 1) arr1

theorem nothing_after_halt_malloc {γ : Type} (heap : Nat → γ) (n_bytes : Int)
    (elem_size : Nat) : nothing_after_halt (malloc heap n_bytes elem_size) := by
  unfold malloc
  exact nothing_after_halt_bind (nothing_after_halt_log _ rfl) fun _ =>
    nothing_after_halt_ite (nothing_after_halt_pure _) (nothing_after_halt_pure _)

theorem nothing_after_halt_copy_parameter (param : String) :
    nothing_after_halt (copy_parameter param) := by
  unfold copy_parameter
  exact nothing_after_halt_ite (nothing_after_halt_pure _) (nothing_after_halt_undefined _)

theorem nothing_after_halt_vhpi_put_value (cb_p : vhpiCbDataS) (vhdl_result : vhpiValueT)
    (mode : vhpiPutValueModeT) : nothing_after_halt (vhpi_put_value cb_p vhdl_result mode) := by
  unfold vhpi_put_value
  exact nothing_after_halt_bind (nothing_after_halt_log _ rfl) fun _ => nothing_after_halt_pure _

theorem nothing_after_halt_python_setup_common (a : Adapter) (env : Env) :
    nothing_after_halt (python_setup_common a env) := by
  unfold python_setup_common
  dsimp only
  refine nothing_after_halt_bind (nothing_after_halt_log _ rfl) fun _ => ?_
  refine nothing_after_halt_when (nothing_after_halt_ffi_error_handler a env _ _) fun _ => ?_
  refine nothing_after_halt_when (nothing_after_halt_ffi_error_handler a env _ _) fun _ => ?_
  refine nothing_after_halt_when (nothing_after_halt_ffi_error_handler a env _ _) fun _ => ?_
  refine nothing_after_halt_bind nothing_after_halt_set_locals fun _ => ?_
  split
  · exact nothing_after_halt_pure _
  · exact nothing_after_halt_bind (nothing_after_halt_set_err _)
      fun _ => nothing_after_halt_ffi_error_handler a env _ _

theorem nothing_after_halt_exec_code (a : Adapter) (env : Env) (code : String) :
    nothing_after_halt (exec_code a env code) := by
  unfold exec_code
  split
  · exact nothing_after_halt_pure _
  · exact nothing_after_halt_bind (nothing_after_halt_set_err _)
      fun _ => nothing_after_halt_py_error_handler a env _ _ _ _

theorem nothing_after_halt_vhpi_get_parameter (env : Env) (cb_p : vhpiCbDataS) :
    nothing_after_halt (VHPI.get_parameter env cb_p) := by
  unfold VHPI.get_parameter
  dsimp only
  refine nothing_after_halt_when (nothing_after_halt_ffi_error_handler .vhpi env _ _)
    fun _ => ?_
  split
  · exact nothing_after_halt_ffi_error_handler .vhpi env _ _
  · exact nothing_after_halt_pure _

/-- The shape shared by the vector operations of the FLI, GHDL and NVC adapters. -/
theorem nothing_after_halt_vector_operation {γ : Type} (a : Adapter) (env : Env)
    (context : String) (get : PyObject → M γ) (store_event : Nat → γ → Event)
    (hget : ∀ item, nothing_after_halt (get item))
    (hstore : ∀ idx value, (store_event idx value).is_halting = false)
    (count : PyObject → Nat) (vec : List γ) :
    nothing_after_halt (do
      let eval_result ← eval a env "__eval_result__.get()"
      if !PyList_Check eval_result then
        handle_type_check_error a env eval_result context "__eval_result__.get()"
      let arr ← fill_loop get store_event eval_result (count eval_result) 0 (some vec)
      log (.Py_DECREF eval_result)
      return arr : M (Option (List γ))) := by
  dsimp only
  refine nothing_after_halt_bind (nothing_after_halt_eval a env _) fun eval_result => ?_
  refine nothing_after_halt_when (nothing_after_halt_handle_type_check_error a env _ _ _)
    fun _ => ?_
  refine nothing_after_halt_bind
    (nothing_after_halt_fill_loop get store_event eval_result hget hstore _ _ _) fun arr => ?_
  exact nothing_after_halt_bind (nothing_after_halt_log _ rfl) fun _ => nothing_after_halt_pure _

/-- The scalar operations of the FLI, GHDL and NVC adapters: `get_parameter`, `eval`, then
the conversion. -/
theorem nothing_after_halt_scalar_operation {γ : Type} (a : Adapter) (env : Env)
    (param : String) (get : PyObject → String → M γ)
    (hget : ∀ item expr, nothing_after_halt (get item expr)) :
    nothing_after_halt (do
      let expr ← copy_parameter param
      let eval_result ← eval a env expr
      get eval_result expr : M γ) :=
  nothing_after_halt_bind (nothing_after_halt_copy_parameter param) fun expr =>
    nothing_after_halt_bind (nothing_after_halt_eval a env expr) fun eval_result =>
      hget eval_result expr

/-- The function `exec` of the FLI, GHDL and NVC adapters. -/
theorem nothing_after_halt_exec (a : Adapter) (env : Env) (param : String) :
    nothing_after_halt (do
      let code ← copy_parameter param
      exec_code a env code : M Unit) :=
  nothing_after_halt_bind (nothing_after_halt_copy_parameter param) fun code =>
    nothing_after_halt_exec_code a env code

theorem nothing_after_halt_vhpi_python_setup (env : Env) :
    nothing_after_halt (VHPI.python_setup env) := by
  unfold VHPI.python_setup
  dsimp only
  refine nothing_after_halt_bind (nothing_after_halt_log _ rfl) fun _ => ?_
  refine nothing_after_halt_when (nothing_after_halt_ffi_error_handler .vhpi env _ _)
    fun _ => ?_
  refine nothing_after_halt_when (nothing_after_halt_ffi_error_handler .vhpi env _ _)
    fun _ => ?_
  refine nothing_after_halt_when (nothing_after_halt_ffi_error_handler .vhpi env _ _)
    fun _ => ?_
  exact nothing_after_halt_set_locals

theorem nothing_after_halt_ghdl_python_setup (env : Env) :
    nothing_after_halt (GHDL.python_setup env) :=
  nothing_after_halt_bind (nothing_after_halt_log _ rfl) fun _ =>
    nothing_after_halt_bind (nothing_after_halt_log _ rfl) fun _ =>
      nothing_after_halt_python_setup_common .ghdl env

theorem nothing_after_halt_vhpi_eval_integer (env : Env) (cb_p : vhpiCbDataS) :
    nothing_after_halt (VHPI.eval_integer env cb_p) := by
  unfold VHPI.eval_integer
  dsimp only
  refine nothing_after_halt_bind (nothing_after_halt_vhpi_get_parameter env cb_p) fun expr => ?_
  refine nothing_after_halt_bind (nothing_after_halt_eval .vhpi env expr) fun eval_result => ?_
  refine nothing_after_halt_bind (nothing_after_halt_get_integer .vhpi env _ _ _) fun intg => ?_
  refine nothing_after_halt_bind (nothing_after_halt_vhpi_put_value cb_p _ _) fun failed => ?_
  exact nothing_after_halt_ite (nothing_after_halt_py_error_handler .vhpi env _ _ _ _)
    (nothing_after_halt_pure _)

theorem nothing_after_halt_vhpi_eval_real (env : Env) (cb_p : vhpiCbDataS) :
    nothing_after_halt (VHPI.eval_real env cb_p) := by
  unfold VHPI.eval_real
  dsimp only
  refine nothing_after_halt_bind (nothing_after_halt_vhpi_get_parameter env cb_p) fun expr => ?_
  refine nothing_after_halt_bind (nothing_after_halt_eval .vhpi env expr) fun eval_result => ?_
  refine nothing_after_halt_bind (nothing_after_halt_get_real .vhpi env _ _ _) fun real => ?_
  refine nothing_after_halt_bind (nothing_after_halt_vhpi_put_value cb_p _ _) fun failed => ?_
  exact nothing_after_halt_ite (nothing_after_halt_py_error_handler .vhpi env _ _ _ _)
    (nothing_after_halt_pure _)

/-- A statement `if (c)` whose block is `x1; x2;`, followed by the statements `k`. -/
theorem nothing_after_halt_when_seq {β : Type} {c : Prop} [Decidable c] {x1 x2 : M PUnit}
    {k : PUnit → M β} (h1 : nothing_after_halt x1) (h2 : nothing_after_halt x2)
    (hk : ∀ y, nothing_after_halt (k y)) :
    nothing_after_halt (if c then x1 >>= fun _ => x2 >>= k else pure PUnit.unit >>= k) :=
  nothing_after_halt_ite (nothing_after_halt_bind h1 fun _ => nothing_after_halt_bind h2 hk)
    (nothing_after_halt_bind (nothing_after_halt_pure _) hk)

theorem nothing_after_halt_vhpi_eval_integer_vector (env : Env) (cb_p : vhpiCbDataS) :
    nothing_after_halt (VHPI.eval_integer_vector env cb_p) := by
  unfold VHPI.eval_integer_vector
  refine nothing_after_halt_bind (nothing_after_halt_vhpi_get_parameter env cb_p) fun expr => ?_
  refine nothing_after_halt_bind (nothing_after_halt_eval .vhpi env expr) fun pyobj => ?_
  generalize to_int (PyList_GET_SIZE pyobj : Int) = list_size
  refine nothing_after_halt_when (nothing_after_halt_handle_type_check_error .vhpi env _ _ _)
    fun _ => ?_
  refine nothing_after_halt_bind (nothing_after_halt_malloc _ _ _) fun int_array => ?_
  refine nothing_after_halt_bind
    (nothing_after_halt_fill_loop _ Event.store_int _
      (fun item => nothing_after_halt_get_integer .vhpi env item expr false)
      (fun _ _ => rfl) _ _ _) fun int_array => ?_
  refine nothing_after_halt_bind (nothing_after_halt_log _ rfl) fun _ => ?_
  refine nothing_after_halt_bind (nothing_after_halt_vhpi_put_value cb_p _ _) fun failed => ?_
  refine nothing_after_halt_when_seq (nothing_after_halt_log .free rfl)
    (nothing_after_halt_py_error_handler .vhpi env _ _ _ _) fun _ => ?_
  refine nothing_after_halt_bind (nothing_after_halt_vhpi_put_value cb_p _ _) fun failed => ?_
  refine nothing_after_halt_when_seq (nothing_after_halt_log .free rfl)
    (nothing_after_halt_py_error_handler .vhpi env _ _ _ _) fun _ => ?_
  exact nothing_after_halt_log _ rfl

theorem nothing_after_halt_vhpi_eval_real_vector (env : Env) (cb_p : vhpiCbDataS) :
    nothing_after_halt (VHPI.eval_real_vector env cb_p) := by
  unfold VHPI.eval_real_vector
  refine nothing_after_halt_bind (nothing_after_halt_vhpi_get_parameter env cb_p) fun expr => ?_
  refine nothing_after_halt_bind (nothing_after_halt_eval .vhpi env expr) fun pyobj => ?_
  generalize to_int (PyList_GET_SIZE pyobj : Int) = list_size
  refine nothing_after_halt_when (nothing_after_halt_handle_type_check_error .vhpi env _ _ _)
    fun _ => ?_
  refine nothing_after_halt_bind (nothing_after_halt_malloc _ _ _) fun double_array => ?_
  refine nothing_after_halt_bind
    (nothing_after_halt_fill_loop _ Event.store_real _
      (fun item => nothing_after_halt_get_real .vhpi env item expr false)
      (fun _ _ => rfl) _ _ _) fun double_array => ?_
  refine nothing_after_halt_bind (nothing_after_halt_log _ rfl) fun _ => ?_
  refine nothing_after_halt_bind (nothing_after_halt_vhpi_put_value cb_p _ _) fun failed => ?_
  refine nothing_after_halt_when_seq (nothing_after_halt_log .free rfl)
    (nothing_after_halt_py_error_handler .vhpi env _ _ _ _) fun _ => ?_
  refine nothing_after_halt_bind (nothing_after_halt_vhpi_put_value cb_p _ _) fun failed => ?_
  refine nothing_after_halt_when_seq (nothing_after_halt_log .free rfl)
    (nothing_after_halt_py_error_handler .vhpi env _ _ _ _) fun _ => ?_
  exact nothing_after_halt_log _ rfl

theorem nothing_after_halt_vhpi_eval_string (env : Env) (cb_p : vhpiCbDataS) :
    nothing_after_halt (VHPI.eval_string env cb_p) := by
  unfold VHPI.eval_string
  dsimp only
  refine nothing_after_halt_bind (nothing_after_halt_vhpi_get_parameter env cb_p) fun expr => ?_
  refine nothing_after_halt_bind (nothing_after_halt_eval .vhpi env expr) fun pyobj => ?_
  refine nothing_after_halt_bind (nothing_after_halt_log _ rfl) fun _ => ?_
  split
  · exact nothing_after_halt_undefined _
  · split
    · exact nothing_after_halt_undefined _
    · refine nothing_after_halt_bind (nothing_after_halt_vhpi_put_value cb_p _ _)
        fun failed => ?_
      refine nothing_after_halt_when (nothing_after_halt_py_error_handler .vhpi env _ _ _ _)
        fun _ => ?_
      refine nothing_after_halt_bind (nothing_after_halt_vhpi_put_value cb_p _ _)
        fun failed => ?_
      exact nothing_after_halt_ite (nothing_after_halt_py_error_handler .vhpi env _ _ _ _)
        (nothing_after_halt_pure _)

theorem nothing_after_halt_vhpi_exec (env : Env) (cb_p : vhpiCbDataS) :
    nothing_after_halt (VHPI.exec env cb_p) :=
  nothing_after_halt_bind (nothing_after_halt_vhpi_get_parameter env cb_p) fun code =>
    nothing_after_halt_exec_code .vhpi env code

theorem nothing_after_halt_strcpy (dst : List Char) (src : Option String) :
    nothing_after_halt (strcpy dst src) := by
  unfold strcpy
  split
  · exact nothing_after_halt_undefined _
  · exact nothing_after_halt_ite (nothing_after_halt_pure _) (nothing_after_halt_undefined _)

/-- The string operations of the FLI, GHDL and NVC adapters: `eval`, `get_string`, `strcpy`
and the release of the result. -/
theorem nothing_after_halt_string_operation (a : Adapter) (env : Env) (vec : List Char) :
    nothing_after_halt (do
      let eval_result ← eval a env "__eval_result__.get()"
      let py_str := get_string env (some eval_result)
      let vhdl_str ← strcpy vec py_str
      log (.Py_DECREF eval_result)
      return vhdl_str : M (List Char)) :=
  nothing_after_halt_bind (nothing_after_halt_eval a env _) fun eval_result =>
    nothing_after_halt_bind (nothing_after_halt_strcpy vec _) fun _ =>
      nothing_after_halt_bind (nothing_after_halt_log (.Py_DECREF eval_result) rfl) fun _ =>
        nothing_after_halt_pure _

/-- C12: in every adapter the error reporter does not return to its caller. A call of
`py_error_handler` or of `ffi_error_handler` ends the run, whatever statements `f` follow the
call site: they are not executed. When the evaluation raises an exception, `eval` hands
nothing to the conversion `g` that follows it. Every entry point of every adapter, called
while the run is going on, ends with nothing done after a halting primitive: if it returns,
no reporter was entered, and if a reporter was entered, the call of the halting primitive is
the last action, so nothing is returned, stored or deposited after it. -/
theorem reporter_never_returns (a : Adapter) (env : Env) :
    (∀ (α β : Type) (f : α → M β) (context : String) (code_or_expr reason : Option String)
        (cleanup : Bool) (w : World),
      ∃ w1, ((py_error_handler a env context code_or_expr reason cleanup : M α) >>= f) w
          = .halted w1
        ∧ (py_error_handler a env context code_or_expr reason cleanup : M α) w = .halted w1)
    ∧ (∀ (α β : Type) (f : α → M β) (context : String) (cleanup : Bool) (w : World),
      ∃ w1, ((ffi_error_handler a env context cleanup : M α) >>= f) w = .halted w1
        ∧ (ffi_error_handler a env context cleanup : M α) w = .halted w1)
    ∧ (∀ (β : Type) (g : PyObject → M β) (expr : String) (e : PyErr) (w : World),
        env.run_eval_input expr = .error e →
        ∃ w1, (eval a env expr >>= g) w = .halted w1)
    ∧ (∀ param, nothing_after_halt (FLI.eval_integer env param))
    ∧ (∀ param, nothing_after_halt (FLI.eval_real env param))
    ∧ (∀ vec, nothing_after_halt (FLI.p_get_integer_vector env vec))
    ∧ (∀ vec, nothing_after_halt (FLI.p_get_real_vector env vec))
    ∧ (∀ param, nothing_after_halt (FLI.exec env param))
    ∧ nothing_after_halt (FLI.python_setup env)
    ∧ (∀ param, nothing_after_halt (GHDL.eval_integer env param))
    ∧ (∀ param, nothing_after_halt (GHDL.eval_real env param))
    ∧ (∀ vec, nothing_after_halt (GHDL.get_integer_vector env vec))
    ∧ (∀ vec, nothing_after_halt (GHDL.get_real_vector env vec))
    ∧ (∀ param, nothing_after_halt (GHDL.exec env param))
    ∧ nothing_after_halt (GHDL.python_setup env)
    ∧ (∀ param, nothing_after_halt (NVC.eval_integer env param))
    ∧ (∀ param, nothing_after_halt (NVC.eval_real env param))
    ∧ (∀ vec, nothing_after_halt (NVC.get_integer_vector env vec))
    ∧ (∀ vec, nothing_after_halt (NVC.get_real_vector env vec))
    ∧ (∀ param, nothing_after_halt (NVC.exec env param))
    ∧ nothing_after_halt (NVC.python_setup env)
    ∧ (∀ cb_p, nothing_after_halt (VHPI.eval_integer env cb_p))
    ∧ (∀ cb_p, nothing_after_halt (VHPI.eval_real env cb_p))
    ∧ (∀ cb_p, nothing_after_halt (VHPI.eval_integer_vector env cb_p))
    ∧ (∀ cb_p, nothing_after_halt (VHPI.eval_real_vector env cb_p))
    ∧ (∀ cb_p, nothing_after_halt (VHPI.eval_string env cb_p))
    ∧ (∀ cb_p, nothing_after_halt (VHPI.exec env cb_p))
    ∧ nothing_after_halt (VHPI.python_setup env)
    ∧ (∀ vec, nothing_after_halt (FLI.p_get_string env vec))
    ∧ (∀ vec, nothing_after_halt (GHDL.get_py_string env vec))
    ∧ (∀ vec, nothing_after_halt (NVC.get_py_string env vec)) := by
  refine ⟨?_, ?_, ?_,
    fun param => nothing_after_halt_scalar_operation .fli env param _
      fun item expr => nothing_after_halt_get_integer .fli env item expr true,
    fun param => nothing_after_halt_scalar_operation .fli env param _
      fun item expr => nothing_after_halt_get_real .fli env item expr true,
    fun vec => nothing_after_halt_vector_operation .fli env _ _ Event.store_int
      (fun item => nothing_after_halt_get_integer .fli env item _ false) (fun _ _ => rfl)
      (fun _ => vec.length) vec,
    fun vec => nothing_after_halt_vector_operation .fli env _ _ Event.store_real
      (fun item => nothing_after_halt_get_real .fli env item _ false) (fun _ _ => rfl)
      (fun _ => vec.length) vec,
    fun param => nothing_after_halt_exec .fli env param,
    nothing_after_halt_python_setup_common .fli env,
    fun param => nothing_after_halt_scalar_operation .ghdl env param _
      fun item expr => nothing_after_halt_get_integer .ghdl env item expr true,
    fun param => nothing_after_halt_scalar_operation .ghdl env param _
      fun item expr => nothing_after_halt_get_real .ghdl env item expr true,
    fun vec => nothing_after_halt_vector_operation .ghdl env _ _ Event.store_int
      (fun item => nothing_after_halt_get_integer .ghdl env item _ false) (fun _ _ => rfl)
      PyList_GET_SIZE vec,
    fun vec => nothing_after_halt_vector_operation .ghdl env _ _ Event.store_real
      (fun item => nothing_after_halt_get_real .ghdl env item _ false) (fun _ _ => rfl)
      PyList_GET_SIZE vec,
    fun param => nothing_after_halt_exec .ghdl env param,
    nothing_after_halt_ghdl_python_setup env,
    fun param => nothing_after_halt_scalar_operation .nvc env param _
      fun item expr => nothing_after_halt_get_integer .nvc env item expr true,
    fun param => nothing_after_halt_scalar_operation .nvc env param _
      fun item expr => nothing_after_halt_get_real .nvc env item expr true,
    fun vec => nothing_after_halt_vector_operation .nvc env _ _ Event.store_int
      (fun item => nothing_after_halt_get_integer .nvc env item _ false) (fun _ _ => rfl)
      (fun _ => vec.length) vec,
    fun vec => nothing_after_halt_vector_operation .nvc env _ _ Event.store_real
      (fun item => nothing_after_halt_get_real .nvc env item _ false) (fun _ _ => rfl)
      (fun _ => vec.length) vec,
    fun param => nothing_after_halt_exec .nvc env param,
    nothing_after_halt_python_setup_common .nvc env,
    nothing_after_halt_vhpi_eval_integer env,
    nothing_after_halt_vhpi_eval_real env,
    nothing_after_halt_vhpi_eval_integer_vector env,
    nothing_after_halt_vhpi_eval_real_vector env,
    nothing_after_halt_vhpi_eval_string env,
    nothing_after_halt_vhpi_exec env,
    nothing_after_halt_vhpi_python_setup env,
    nothing_after_halt_string_operation .fli env,
    nothing_after_halt_string_operation .ghdl env,
    nothing_after_halt_string_operation .nvc env⟩
  · intro α β f context code_or_expr reason cleanup w
    obtain ⟨w1, h1⟩ := py_error_handler_halted a env context code_or_expr reason cleanup w
    exact ⟨w1, (py_error_handler_bind_apply f a env context code_or_expr reason cleanup w).trans
      (h1 β), h1 α⟩
  · intro α β f context cleanup w
    exact ⟨_, (ffi_error_handler_bind_apply f a env context cleanup w).trans
      (ffi_error_handler_eq a env context cleanup w), ffi_error_handler_eq a env context cleanup w⟩
  · intro β g expr e w hrun
    obtain ⟨w1, h1⟩ := py_error_handler_halted a env "evaluating" (some expr) none true
      { w with err := some e }
    exact ⟨w1, bind_of_halted ((eval_error a env expr e w hrun).trans (h1 PyObject))⟩

/-- The function `eval_integer` of the VHPI adapter on an expression that raises.
The reporter is entered in `eval`; the conversion and the deposit that follow `eval` in the
source are not executed, and the call of `vhpi_control` is the last action. -/
theorem vhpi_eval_integer_raises :
    VHPI.eval_integer (session (.error ⟨some (.unicode (some "division by zero"))⟩))
        (accepting_call "1/0") ready
      = .halted
          { err := some ⟨some (.unicode (some "division by zero"))⟩, locals_set := true,
            trace :=
              [Event.Py_DECREF_locals, Event.Py_FinalizeEx,
               Event.vhpi_assert .vhpiError
                 ("ERROR evaluating:\n\n1/0\n\n" ++ stale_bytes ++ "\n\n"),
               Event.vhpi_control_stop] } := rfl

/-! ## An expression that raises -/

/-- The function `get_parameter` of the FLI, GHDL and NVC adapters on a string shorter than
the array: the characters in front of the first NUL are returned. -/
theorem copy_parameter_ret (param : String) (w : World)
    (hlen : param.length < MAX_VHDL_PARAMETER_STRING_LENGTH) :
    copy_parameter param w = .ret (c_str param.data) w := by
  unfold copy_parameter
  rw [if_pos hlen]
  rfl

/-- When the evaluation of the expression raises an exception, `eval_real` and
`eval_integer` of every adapter end in `py_error_handler` with the context "evaluating" and
the expression as source text, and halt; `python_cleanup` is executed once during the call:
one call of `Py_FinalizeEx` is added to the trace, in front of the message. The reason in
the message is read after that call: it is what the finalized interpreter has left at the
address `get_string` has returned ("Unknown error" when `get_string` returns `NULL`). -/
theorem raising_expression_reported (a : Adapter) (env : Env) (expr : String) (e : PyErr)
    (w : World) (hrun : env.run_eval_input expr = .error e) :
    ∃ w1 : World,
      w1 = { err := some e, locals_set := w.locals_set,
             trace := w.trace ++
               ((if w.locals_set then [Event.Py_DECREF_locals] else []) ++
                 (Event.Py_FinalizeEx ::
                   (if env.finalize_fails then
                     [match a with
                       | .vhpi =>
                         Event.vhpi_assert .vhpiWarning "WARNING: Failed to finalize Python"
                       | _ => Event.printf "WARNING: Failed to finalize Python\n"]
                   else [])) ++
                 [report_event a .vhpiError
                    ("ERROR evaluating:\n\n" ++ expr ++ "\n\n"
                      ++ (match get_string env e.pvalue with
                          | some t => env.after_finalize t
                          | none => "Unknown error") ++ "\n\n"),
                  halting_event a]) }
      ∧ List.countP Event.is_finalize w1.trace = List.countP Event.is_finalize w.trace + 1
      ∧ eval a env expr w = .halted w1
      ∧ (∀ param : String, param.length < MAX_VHDL_PARAMETER_STRING_LENGTH →
          c_str param.data = expr →
          (a = .fli → FLI.eval_real env param w = .halted w1
            ∧ FLI.eval_integer env param w = .halted w1)
          ∧ (a = .ghdl → GHDL.eval_real env param w = .halted w1
            ∧ GHDL.eval_integer env param w = .halted w1)
          ∧ (a = .nvc → NVC.eval_real env param w = .halted w1
            ∧ NVC.eval_integer env param w = .halted w1))
      ∧ (∀ cb_p : vhpiCbDataS, cb_p.parameter_handle = true → cb_p.parameter = some expr →
          a = .vhpi → VHPI.eval_real env cb_p w = .halted w1
            ∧ VHPI.eval_integer env cb_p w = .halted w1) := by
  have heval := (eval_error a env expr e w hrun).trans
    (py_error_handler_eq a env "evaluating" (some expr) none true { w with err := some e })
  simp only [↓reduceIte] at heval
  refine ⟨_, rfl, ?_, heval, ?_, ?_⟩
  · cases w.locals_set <;> cases env.finalize_fails <;> cases a <;>
      simp [List.countP_append, List.countP_cons, Event.is_finalize, report_event,
        halting_event]
  · intro param hlen hparam
    have hp := copy_parameter_ret param w hlen
    rw [hparam] at hp
    refine ⟨?_, ?_, ?_⟩ <;> rintro rfl <;> constructor <;>
      exact (bind_of_ret hp).trans (bind_of_halted heval)
  · rintro cb_p hh hp rfl
    have hg := vhpi_get_parameter_ret env cb_p expr w hh hp
    constructor <;> exact (bind_of_ret hg).trans (bind_of_halted heval)

/-- C16, the failing input: the expression `1/0` passed to `eval_real` of the FLI adapter.
The failure is reported with the context "evaluating" and the expression as source text,
and `python_cleanup` runs once; but the reason is read through the address `get_string` has
returned, whose bytes it has released, after the interpreter is finalized: the message
carries what is left there, not "division by zero". -/
theorem raising_expression_reason_lost :
    (session (.error ⟨some (.unicode (some "division by zero"))⟩)).run_eval_input "1/0"
      = .error ⟨some (.unicode (some "division by zero"))⟩
    ∧ FLI.eval_real (session (.error ⟨some (.unicode (some "division by zero"))⟩)) "1/0" ready
      = .halted
          { err := some ⟨some (.unicode (some "division by zero"))⟩, locals_set := true,
            trace :=
              [Event.Py_DECREF_locals, Event.Py_FinalizeEx,
               Event.printf ("ERROR evaluating:\n\n1/0\n\n" ++ stale_bytes ++ "\n\n"),
               Event.mti_FatalError] }
    ∧ stale_bytes ≠ "division by zero"
    ∧ List.countP Event.is_finalize
        [Event.Py_DECREF_locals, Event.Py_FinalizeEx,
         Event.printf ("ERROR evaluating:\n\n1/0\n\n" ++ stale_bytes ++ "\n\n"),
         Event.mti_FatalError] = 1 :=
  ⟨rfl, rfl, by decide, rfl⟩

/-! ## Releases of the evaluation result -/

/-- The reporter releases no evaluation result. -/
theorem py_error_handler_releases {α : Type} (a : Adapter) (env : Env) (context : String)
    (code_or_expr reason : Option String) (cleanup : Bool) (w : World) :
    List.countP Event.is_release
        ((py_error_handler a env context code_or_expr reason cleanup : M α) w).world.trace
      = List.countP Event.is_release w.trace := by
  rw [py_error_handler_eq]
  cases cleanup <;> cases w.locals_set <;> cases env.finalize_fails <;> cases a <;>
    simp [Outcome.world, List.countP_append, List.countP_cons, Event.is_release, report_event,
      halting_event]

/-- On an `int` object, `get_integer` called with `dec_ref_count = true` releases the object
once, whether it returns the value or ends in a conversion error or a range error. -/
theorem get_integer_releases_once (a : Adapter) (env : Env) (tp : PyTypeObject) (v : Int)
    (expr : String) (w : World) :
    List.countP Event.is_release (get_integer a env (.long tp v) expr true w).world.trace
      = List.countP Event.is_release w.trace + 1 := by
  by_cases hfit : LONG_MIN env.data_model ≤ v ∧ v ≤ LONG_MAX env.data_model
  · cases herr : w.err with
    | none =>
      by_cases hin : -(2 ^ 31) ≤ v ∧ v ≤ 2 ^ 31 - 1
      · rw [get_integer_ret a env tp v expr true w herr hin.1 hin.2]
        simp [Outcome.world, List.countP_append, List.countP_cons, Event.is_release]
      · rw [get_integer_range_error a env tp v expr true w herr hfit (by omega),
          py_error_handler_releases]
        simp [List.countP_append, List.countP_cons, Event.is_release]
    | some e =>
      rw [get_integer_pending a env tp v expr true w e herr hfit, py_error_handler_releases]
      simp [List.countP_append, List.countP_cons, Event.is_release]
  · rw [get_integer_conversion_error a env tp v expr true w hfit, py_error_handler_releases]
    simp [List.countP_append, List.countP_cons, Event.is_release]

/-- On a `float` object, `get_real` called with `dec_ref_count = true` releases the object
once, whether it returns the value or ends in a conversion error or a range error. -/
theorem get_real_releases_once (a : Adapter) (env : Env) (tp : PyTypeObject) (d : CDouble)
    (expr : String) (w : World) :
    List.countP Event.is_release (get_real a env (.float tp d) expr true w).world.trace
      = List.countP Event.is_release w.trace + 1 := by
  cases herr : w.err with
  | none =>
    cases htest : (CDouble.gt d REAL_MAX || CDouble.lt d REAL_MAX.neg) with
    | false =>
      rw [get_real_ret a env tp d expr true w herr htest]
      simp [Outcome.world, List.countP_append, List.countP_cons, Event.is_release]
    | true =>
      rw [get_real_range_error a env tp d expr true w herr htest, py_error_handler_releases]
      simp [List.countP_append, List.countP_cons, Event.is_release]
  | some e =>
    rw [get_real_pending a env tp d expr true w e herr, py_error_handler_releases]
    simp [List.countP_append, List.countP_cons, Event.is_release]

/-- On an object of another type, `get_integer` and `get_real` end in the type-check error
without releasing the object, also when called with `dec_ref_count = true`. -/
theorem type_error_releases_nothing (a : Adapter) (env : Env) (pyobj : PyObject)
    (expr : String) (dec_ref_count : Bool) (w : World) :
    (PyLong_Check pyobj = false →
      List.countP Event.is_release (get_integer a env pyobj expr dec_ref_count w).world.trace
        = List.countP Event.is_release w.trace)
    ∧ (PyFloat_Check pyobj = false →
      List.countP Event.is_release (get_real a env pyobj expr dec_ref_count w).world.trace
        = List.countP Event.is_release w.trace) := by
  constructor
  · intro h
    obtain ⟨reason, hr⟩ := handle_type_check_error_eq a env pyobj "evaluating to integer" expr
    rw [get_integer_type_error a env pyobj expr dec_ref_count w h, hr Int w,
      py_error_handler_releases]
  · intro h
    obtain ⟨reason, hr⟩ := handle_type_check_error_eq a env pyobj "evaluating to real" expr
    rw [get_real_type_error a env pyobj expr dec_ref_count w h, hr CDouble w,
      py_error_handler_releases]

/-- C17, the failing input: the expression `str(1)` passed to `eval_integer` of the FLI
adapter evaluates to a `str`. `get_integer`, called with `dec_ref_count = true`, leaves
through the type-check error in front of its `Py_DECREF`: the evaluation result is not
released. On `2**31` the same call releases the result once and then reports the range
error. The vector operation of the NVC adapter on a stored tuple leaves through its own type
check without releasing the result either. -/
theorem type_error_leaks_result :
    FLI.eval_integer (session (.ok (.unicode (some "1")))) "str(1)" ready
      = .halted { ready with trace :=
          [Event.Py_DECREF_locals, Event.Py_FinalizeEx,
           Event.printf
             "ERROR evaluating to integer:\n\nstr(1)\n\nExpression evaluates to str\n\n",
           Event.mti_FatalError] }
    ∧ List.countP Event.is_release
        (FLI.eval_integer (session (.ok (.unicode (some "1")))) "str(1)" ready).world.trace
        = 0
    ∧ FLI.eval_integer (session (.ok (.long PyLong_Type 2147483648))) "2**31" ready
      = .halted { ready with trace :=
          [Event.Py_DECREF (.long PyLong_Type 2147483648), Event.Py_DECREF_locals,
           Event.Py_FinalizeEx,
           Event.printf
             ("ERROR parsing evaluation result of:\n\n2**31\n\n"
               ++ "Result out of VHDL integer range.\n\n"),
           Event.mti_FatalError] }
    ∧ NVC.get_integer_vector (session (.ok (.other PyTuple_Type))) [0, 0] ready
      = .halted { ready with trace :=
          [Event.Py_DECREF_locals, Event.Py_FinalizeEx,
           Event.printf
             ("ERROR evaluating to integer_vector:\n\n__eval_result__.get()\n\n"
               ++ "Expression evaluates to tuple\n\n"),
           Event.assert_0] } :=
  ⟨rfl, rfl, rfl, rfl⟩

/-! ## The buffer of the VHPI vector operations -/

/-- C18, the failing input: the expression `[1, str(2)]` passed to `eval_integer_vector` of
the VHPI adapter. The buffer is allocated, the first element is stored, and the type check of
the second element ends the run through the reporter: `free` is not called (nor is the list
released). When the host refuses the size constraint for `[1, 2]`, the same function calls
`free` in front of the reporter. In `eval_real_vector` the range error of an element
likewise ends the run with the buffer not freed. -/
theorem element_error_leaks_buffer :
    VHPI.eval_integer_vector
        (session (.ok (.list PyList_Type [.long PyLong_Type 1, .unicode (some "2")])))
        (accepting_call "[1, str(2)]") ready
      = .halted { ready with trace :=
          [Event.malloc 8, Event.store_int 0 1, Event.Py_DECREF_locals, Event.Py_FinalizeEx,
           Event.vhpi_assert .vhpiError
             "ERROR evaluating to integer:\n\n[1, str(2)]\n\nExpression evaluates to str\n\n",
           Event.vhpi_control_stop] }
    ∧ List.countP Event.is_malloc
        (VHPI.eval_integer_vector
          (session (.ok (.list PyList_Type [.long PyLong_Type 1, .unicode (some "2")])))
          (accepting_call "[1, str(2)]") ready).world.trace = 1
    ∧ List.countP Event.is_free
        (VHPI.eval_integer_vector
          (session (.ok (.list PyList_Type [.long PyLong_Type 1, .unicode (some "2")])))
          (accepting_call "[1, str(2)]") ready).world.trace = 0
    ∧ VHPI.eval_integer_vector
        (session (.ok (.list PyList_Type [.long PyLong_Type 1, .long PyLong_Type 2])))
        { accepting_call "[1, 2]" with put_value_fails := fun _ _ => true } ready
      = .halted { ready with trace :=
          [Event.malloc 8, Event.store_int 0 1, Event.store_int 1 2,
           Event.Py_DECREF (.list PyList_Type [.long PyLong_Type 1, .long PyLong_Type 2]),
           Event.vhpi_put_value .vhpiSizeConstraint ⟨8, some 2, .intgs (some [1, 2])⟩,
           Event.free, Event.Py_DECREF_locals, Event.Py_FinalizeEx,
           Event.vhpi_assert .vhpiError
             ("ERROR setting size constraints when returning result for evaluation of:\n\n"
               ++ "[1, 2]\n\nUnknown error\n\n"),
           Event.vhpi_control_stop] }
    ∧ VHPI.eval_real_vector
        (session (.ok (.list PyList_Type [.float PyFloat_Type (.finite 1),
          .float PyFloat_Type .pos_inf])))
        (accepting_call "[1.0, math.inf]") ready
      = .halted { ready with trace :=
          [Event.malloc 16, Event.store_real 0 (.finite 1), Event.Py_DECREF_locals,
           Event.Py_FinalizeEx,
           Event.vhpi_assert .vhpiError
             ("ERROR parsing evaluation result of:\n\n[1.0, math.inf]\n\n"
               ++ "Result out of VHDL real range.\n\n"),
           Event.vhpi_control_stop] } :=
  ⟨rfl, rfl, rfl, rfl, rfl⟩

/-! ## The two puts of the VHPI adapter -/

/-- The reporter makes no deposit. -/
theorem py_error_handler_deposits {α : Type} (a : Adapter) (env : Env) (context : String)
    (code_or_expr reason : Option String) (cleanup : Bool) (w : World) :
    List.countP Event.is_deposit
        ((py_error_handler a env context code_or_expr reason cleanup : M α) w).world.trace
      = List.countP Event.is_deposit w.trace := by
  rw [py_error_handler_eq]
  cases cleanup <;> cases w.locals_set <;> cases env.finalize_fails <;> cases a <;>
    simp [Outcome.world, List.countP_append, List.countP_cons, Event.is_deposit, report_event,
      halting_event]

/-- The stores of a vector loop are counted by no predicate that is false on every store. -/
theorem countP_stores {γ : Type} (p : Event → Bool) (store_event : Nat → γ → Event)
    (hp : ∀ idx value, p (store_event idx value) = false) :
    ∀ (idxs : List Nat) (values : List γ),
      List.countP p (List.zipWith store_event idxs values) = 0 := by
  intro idxs
  induction idxs with
  | nil => intro values; rfl
  | cons i idxs ih =>
    intro values
    cases values with
    | nil => rfl
    | cons v values =>
      rw [List.zipWith_cons_cons, List.countP_cons, ih values, hp i v]
      rfl

/-- The run of `eval_string` of the VHPI adapter on an expression for whose value
`get_string` returns the address of the text `released`, where `strlen` then finds the text
`s`: the object is released, and the two puts follow, each ending the run through the
reporter when the host refuses it. -/
theorem vhpi_eval_string_run (env : Env) (cb_p : vhpiCbDataS) (expr : String)
    (pyobj : PyObject) (released s : String) (w : World)
    (hh : cb_p.parameter_handle = true) (hp : cb_p.parameter = some expr)
    (hrun : env.run_eval_input expr = .ok pyobj)
    (hs : get_string env (some pyobj) = some released)
    (hread : env.after_release released = some s) :
    VHPI.eval_string env cb_p w
      = (if cb_p.put_value_fails .vhpiSizeConstraint
            ⟨strlen s + 1, some (to_int (strlen s)), .str (c_str s.data)⟩ then
          py_error_handler .vhpi env
            "setting size constraints when returning result for evaluation of" (some expr)
            none true
            { w with trace := w.trace ++
              [Event.Py_DECREF pyobj,
               Event.vhpi_put_value .vhpiSizeConstraint
                 ⟨strlen s + 1, some (to_int (strlen s)), .str (c_str s.data)⟩] }
        else if cb_p.put_value_fails .vhpiDeposit
            ⟨strlen s + 1, some (to_int (strlen s)), .str (c_str s.data)⟩ then
          py_error_handler .vhpi env "returning result for evaluation of" (some expr)
            none true
            { w with trace := w.trace ++
              [Event.Py_DECREF pyobj,
               Event.vhpi_put_value .vhpiSizeConstraint
                 ⟨strlen s + 1, some (to_int (strlen s)), .str (c_str s.data)⟩,
               Event.vhpi_put_value .vhpiDeposit
                 ⟨strlen s + 1, some (to_int (strlen s)), .str (c_str s.data)⟩] }
        else
          .ret ()
            { w with trace := w.trace ++
              [Event.Py_DECREF pyobj,
               Event.vhpi_put_value .vhpiSizeConstraint
                 ⟨strlen s + 1, some (to_int (strlen s)), .str (c_str s.data)⟩,
               Event.vhpi_put_value .vhpiDeposit
                 ⟨strlen s + 1, some (to_int (strlen s)), .str (c_str s.data)⟩] }) := by
  generalize hls : to_int (strlen s : Int) = ls
  simp only [VHPI.eval_string,
    bind_of_ret (vhpi_get_parameter_ret env cb_p expr w hh hp),
    bind_of_ret (eval_ret .vhpi env expr _ w hrun), hs, hread, hls,
    pure_bind_apply, log_bind_apply, if_apply, Bool.not_true, Bool.false_eq_true, ↓reduceIte,
    pure_apply, bind_of_ret (vhpi_put_value_apply _ _ _ _), log_apply,
    py_error_handler_bind_apply, List.append_assoc, List.cons_append, List.nil_append]

/-- C19: the vector and string operations of the VHPI adapter put the result in two steps,
the size constraint first and the deposit second. When the host refuses the size constraint,
the run ends in `py_error_handler` with the context "setting size constraints when returning
result for evaluation of" and no deposit has been attempted; when it accepts the size
constraint and refuses the deposit, the run ends in `py_error_handler` with the context
"returning result for evaluation of". Both calls pass the expression as source text, no
reason, and `cleanup = true`. -/
theorem two_step_put (env : Env) (cb_p : vhpiCbDataS) (expr : String) (w : World)
    (hw : w.err = none) (hh : cb_p.parameter_handle = true)
    (hp : cb_p.parameter = some expr) :
    (∀ (tp : PyTypeObject) (elems : List (PyTypeObject × Int)),
      (∀ e ∈ elems, -(2 ^ 31) ≤ e.2 ∧ e.2 ≤ 2 ^ 31 - 1) →
      (elems.length : Int) * 4 < 2 ^ 31 →
      env.run_eval_input expr = .ok (.list tp (elems.map fun e => PyObject.long e.1 e.2)) →
      (cb_p.put_value_fails .vhpiSizeConstraint
          ⟨elems.length * 4, some elems.length, .intgs (some (elems.map Prod.snd))⟩ = true →
        (∃ w1, VHPI.eval_integer_vector env cb_p w
          = py_error_handler .vhpi env
              "setting size constraints when returning result for evaluation of" (some expr)
              none true w1)
        ∧ List.countP Event.is_deposit (VHPI.eval_integer_vector env cb_p w).world.trace
            = List.countP Event.is_deposit w.trace)
      ∧ (cb_p.put_value_fails .vhpiSizeConstraint
          ⟨elems.length * 4, some elems.length, .intgs (some (elems.map Prod.snd))⟩ = false →
        cb_p.put_value_fails .vhpiDeposit
          ⟨elems.length * 4, some elems.length, .intgs (some (elems.map Prod.snd))⟩ = true →
        (∃ w1, VHPI.eval_integer_vector env cb_p w
          = py_error_handler .vhpi env "returning result for evaluation of" (some expr)
              none true w1)
        ∧ List.countP Event.is_deposit (VHPI.eval_integer_vector env cb_p w).world.trace
            = List.countP Event.is_deposit w.trace + 1))
    ∧ (∀ (tp : PyTypeObject) (elems : List (PyTypeObject × CDouble)),
      (∀ e ∈ elems, (CDouble.gt e.2 REAL_MAX || CDouble.lt e.2 REAL_MAX.neg) = false) →
      (elems.length : Int) * 8 < 2 ^ 31 →
      env.run_eval_input expr = .ok (.list tp (elems.map fun e => PyObject.float e.1 e.2)) →
      (cb_p.put_value_fails .vhpiSizeConstraint
          ⟨elems.length * 8, some elems.length, .reals (some (elems.map Prod.snd))⟩ = true →
        (∃ w1, VHPI.eval_real_vector env cb_p w
          = py_error_handler .vhpi env
              "setting size constraints when returning result for evaluation of" (some expr)
              none true w1)
        ∧ List.countP Event.is_deposit (VHPI.eval_real_vector env cb_p w).world.trace
            = List.countP Event.is_deposit w.trace)
      ∧ (cb_p.put_value_fails .vhpiSizeConstraint
          ⟨elems.length * 8, some elems.length, .reals (some (elems.map Prod.snd))⟩ = false →
        cb_p.put_value_fails .vhpiDeposit
          ⟨elems.length * 8, some elems.length, .reals (some (elems.map Prod.snd))⟩ = true →
        (∃ w1, VHPI.eval_real_vector env cb_p w
          = py_error_handler .vhpi env "returning result for evaluation of" (some expr)
              none true w1)
        ∧ List.countP Event.is_deposit (VHPI.eval_real_vector env cb_p w).world.trace
            = List.countP Event.is_deposit w.trace + 1))
    ∧ (∀ (pyobj : PyObject) (released s : String),
      env.run_eval_input expr = .ok pyobj → get_string env (some pyobj) = some released →
      env.after_release released = some s →
      (cb_p.put_value_fails .vhpiSizeConstraint
          ⟨strlen s + 1, some (to_int (strlen s)), .str (c_str s.data)⟩ = true →
        (∃ w1, VHPI.eval_string env cb_p w
          = py_error_handler .vhpi env
              "setting size constraints when returning result for evaluation of" (some expr)
              none true w1)
        ∧ List.countP Event.is_deposit (VHPI.eval_string env cb_p w).world.trace
            = List.countP Event.is_deposit w.trace)
      ∧ (cb_p.put_value_fails .vhpiSizeConstraint
          ⟨strlen s + 1, some (to_int (strlen s)), .str (c_str s.data)⟩ = false →
        cb_p.put_value_fails .vhpiDeposit
          ⟨strlen s + 1, some (to_int (strlen s)), .str (c_str s.data)⟩ = true →
        (∃ w1, VHPI.eval_string env cb_p w
          = py_error_handler .vhpi env "returning result for evaluation of" (some expr)
              none true w1)
        ∧ List.countP Event.is_deposit (VHPI.eval_string env cb_p w).world.trace
            = List.countP Event.is_deposit w.trace + 1)) := by
  refine ⟨?_, ?_, ?_⟩
  · intro tp elems hrange hfit hrun
    have hr := vhpi_eval_integer_vector_run env tp cb_p expr w elems hw hh hp hrange hfit hrun
    constructor
    · intro hsize
      rw [if_pos hsize] at hr
      refine ⟨⟨_, hr⟩, ?_⟩
      rw [hr, py_error_handler_deposits]
      simp [List.countP_append, List.countP_cons, Event.is_deposit,
        countP_stores Event.is_deposit Event.store_int (fun _ _ => rfl)]
    · intro hsize hdep
      rw [if_neg (by simp [hsize]), if_pos hdep] at hr
      refine ⟨⟨_, hr⟩, ?_⟩
      rw [hr, py_error_handler_deposits]
      simp [List.countP_append, List.countP_cons, Event.is_deposit,
        countP_stores Event.is_deposit Event.store_int (fun _ _ => rfl)]
  · intro tp elems hrange hfit hrun
    have hr := vhpi_eval_real_vector_run env tp cb_p expr w elems hw hh hp hrange hfit hrun
    constructor
    · intro hsize
      rw [if_pos hsize] at hr
      refine ⟨⟨_, hr⟩, ?_⟩
      rw [hr, py_error_handler_deposits]
      simp [List.countP_append, List.countP_cons, Event.is_deposit,
        countP_stores Event.is_deposit Event.store_real (fun _ _ => rfl)]
    · intro hsize hdep
      rw [if_neg (by simp [hsize]), if_pos hdep] at hr
      refine ⟨⟨_, hr⟩, ?_⟩
      rw [hr, py_error_handler_deposits]
      simp [List.countP_append, List.countP_cons, Event.is_deposit,
        countP_stores Event.is_deposit Event.store_real (fun _ _ => rfl)]
  · intro pyobj released s hrun hs hread
    have hr := vhpi_eval_string_run env cb_p expr pyobj released s w hh hp hrun hs hread
    constructor
    · intro hsize
      rw [if_pos hsize] at hr
      refine ⟨⟨_, hr⟩, ?_⟩
      rw [hr, py_error_handler_deposits]
      simp [List.countP_append, List.countP_cons, Event.is_deposit]
    · intro hsize hdep
      rw [if_neg (by simp [hsize]), if_pos hdep] at hr
      refine ⟨⟨_, hr⟩, ?_⟩
      rw [hr, py_error_handler_deposits]
      simp [List.countP_append, List.countP_cons, Event.is_deposit]

/-- Witness of C19: the host refuses the deposit of the integer vector `[1, 2]`, and the
host refuses the size constraint of the string `abc`. -/
theorem two_step_put_witness :
    ready.err = none
    ∧ (refusing_call "[1, 2]" .vhpiDeposit).parameter_handle = true
    ∧ (refusing_call "[1, 2]" .vhpiDeposit).parameter = some "[1, 2]"
    ∧ ((∃ w1, VHPI.eval_integer_vector
          (session (.ok (.list PyList_Type [.long PyLong_Type 1, .long PyLong_Type 2])))
          (refusing_call "[1, 2]" .vhpiDeposit) ready
        = py_error_handler .vhpi
            (session (.ok (.list PyList_Type [.long PyLong_Type 1, .long PyLong_Type 2])))
            "returning result for evaluation of" (some "[1, 2]") none true w1)
      ∧ List.countP Event.is_deposit
          (VHPI.eval_integer_vector
            (session (.ok (.list PyList_Type [.long PyLong_Type 1, .long PyLong_Type 2])))
            (refusing_call "[1, 2]" .vhpiDeposit) ready).world.trace
        = List.countP Event.is_deposit ready.trace + 1)
    ∧ ((∃ w1, VHPI.eval_string (session (.ok (.unicode (some "abc"))))
          (refusing_call "str(abc)" .vhpiSizeConstraint) ready
        = py_error_handler .vhpi (session (.ok (.unicode (some "abc"))))
            "setting size constraints when returning result for evaluation of"
            (some "str(abc)") none true w1)
      ∧ List.countP Event.is_deposit
          (VHPI.eval_string (session (.ok (.unicode (some "abc"))))
            (refusing_call "str(abc)" .vhpiSizeConstraint) ready).world.trace
        = List.countP Event.is_deposit ready.trace) :=
  ⟨rfl, rfl, rfl,
    ((two_step_put
        (session (.ok (.list PyList_Type [.long PyLong_Type 1, .long PyLong_Type 2])))
        (refusing_call "[1, 2]" .vhpiDeposit) "[1, 2]" ready rfl rfl rfl).1
      PyList_Type [(PyLong_Type, 1), (PyLong_Type, 2)] (by decide) (by decide) rfl).2 rfl rfl,
    ((two_step_put (session (.ok (.unicode (some "abc"))))
        (refusing_call "str(abc)" .vhpiSizeConstraint) "str(abc)" ready rfl rfl rfl).2.2
      (.unicode (some "abc")) "abc" "abc" rfl rfl rfl).1 rfl⟩

/-- The two runs in full: the refused deposit follows the accepted size constraint
and `free` precedes the report; after the refused size constraint no deposit is made. -/
theorem two_step_put_runs :
    VHPI.eval_integer_vector
        (session (.ok (.list PyList_Type [.long PyLong_Type 1, .long PyLong_Type 2])))
        (refusing_call "[1, 2]" .vhpiDeposit) ready
      = .halted { ready with trace :=
          [Event.malloc 8, Event.store_int 0 1, Event.store_int 1 2,
           Event.Py_DECREF (.list PyList_Type [.long PyLong_Type 1, .long PyLong_Type 2]),
           Event.vhpi_put_value .vhpiSizeConstraint ⟨8, some 2, .intgs (some [1, 2])⟩,
           Event.vhpi_put_value .vhpiDeposit ⟨8, some 2, .intgs (some [1, 2])⟩,
           Event.free, Event.Py_DECREF_locals, Event.Py_FinalizeEx,
           Event.vhpi_assert .vhpiError
             "ERROR returning result for evaluation of:\n\n[1, 2]\n\nUnknown error\n\n",
           Event.vhpi_control_stop] }
    ∧ VHPI.eval_string (session (.ok (.unicode (some "abc"))))
        (refusing_call "str(abc)" .vhpiSizeConstraint) ready
      = .halted { ready with trace :=
          [Event.Py_DECREF (.unicode (some "abc")),
           Event.vhpi_put_value .vhpiSizeConstraint ⟨4, some 3, .str "abc"⟩,
           Event.Py_DECREF_locals, Event.Py_FinalizeEx,
           Event.vhpi_assert .vhpiError
             ("ERROR setting size constraints when returning result for evaluation of:\n\n"
               ++ "str(abc)\n\nUnknown error\n\n"),
           Event.vhpi_control_stop] } :=
  ⟨rfl, rfl⟩

/-! ## The parameter buffer -/

/-- A string of fewer than 100,000 characters with no NUL among them is returned by
`get_parameter` of the FLI, GHDL and NVC adapters as it is: the terminator is stored at the
index `length`, inside the array. -/
theorem copy_parameter_below_limit (param : String) (w : World)
    (hlen : param.length < MAX_VHDL_PARAMETER_STRING_LENGTH)
    (hnul : ∀ c ∈ param.data, c ≠ Char.ofNat 0) :
    copy_parameter param w = .ret param w
    ∧ FLI.get_parameter param w = .ret param w
    ∧ GHDL.get_parameter param w = .ret param w
    ∧ NVC.get_parameter param w = .ret param w := by
  have hc : c_str param.data = param := by
    unfold c_str
    have : param.data.takeWhile (fun c => decide (c ≠ Char.ofNat 0)) = param.data := by
      rw [List.takeWhile_eq_self_iff]
      intro c hc
      exact decide_eq_true (hnul c hc)
    rw [this]
  have h := copy_parameter_ret param w hlen
  rw [hc] at h
  exact ⟨h, h, h, h⟩

/-- A string of exactly 100,000 characters fills the array: the terminator is stored at the
index 100,000 of an array of 100,000 elements. -/
theorem copy_parameter_at_limit (param : String) (w : World)
    (hlen : param.length = MAX_VHDL_PARAMETER_STRING_LENGTH) :
    copy_parameter param w = .undefined (.store_out_of_bounds 100000 100000) w := by
  unfold copy_parameter
  rw [if_neg (by omega), hlen]
  rfl

/-- C20, the failing input: a parameter string of exactly 100,000 characters `a`. In the FLI,
GHDL and NVC adapters `get_parameter` copies it into the array of 100,000 elements and then
stores the terminator at the index 100,000, outside the array. -/
theorem parameter_fills_buffer :
    (String.mk (List.replicate 100000 'a')).length = 100000
    ∧ FLI.get_parameter (String.mk (List.replicate 100000 'a')) ready
      = .undefined (.store_out_of_bounds 100000 100000) ready
    ∧ GHDL.get_parameter (String.mk (List.replicate 100000 'a')) ready
      = .undefined (.store_out_of_bounds 100000 100000) ready
    ∧ NVC.get_parameter (String.mk (List.replicate 100000 'a')) ready
      = .undefined (.store_out_of_bounds 100000 100000) ready :=
  have hlen : (String.mk (List.replicate 100000 'a')).length = 100000 :=
    List.length_replicate _ _
  ⟨hlen, copy_parameter_at_limit _ ready hlen, copy_parameter_at_limit _ ready hlen,
    copy_parameter_at_limit _ ready hlen⟩

/-- One character less: the string of 99,999 characters `a` is returned. -/
theorem parameter_below_limit :
    FLI.get_parameter (String.mk (List.replicate 99999 'a')) ready
      = .ret (String.mk (List.replicate 99999 'a')) ready :=
  (copy_parameter_below_limit (String.mk (List.replicate 99999 'a')) ready
    (by
      show (List.replicate 99999 'a').length < 100000
      rw [List.length_replicate]
      decide)
    (by
      intro c hc
      rw [List.eq_of_mem_replicate hc]
      decide)).2.1

/-! ## The message buffer of `handle_type_check_error` -/

/-- C29: `handle_type_check_error` stays inside its array `char error_message[100]`. For
every type name, `strncat(error_message, type_name_str, 75)` appends the first
`min(75, length)` bytes of the name to the 24 bytes of "Expression evaluates to " and stores
the terminator behind them, at an index of at most 99; the reason reported is that prefix
followed by those bytes. -/
theorem error_message_fits_buffer (name : String) :
    "Expression evaluates to ".length = 24
    ∧ (strncat "Expression evaluates to " name 75).length = 24 + min 75 name.length
    ∧ (strncat "Expression evaluates to " name 75).length + 1 ≤ 100
    ∧ (strncat "Expression evaluates to " name 75).data
        = "Expression evaluates to ".data ++ name.data.take (min 75 name.length)
    ∧ (∀ (α : Type) (a : Adapter) (env : Env) (pyobj : PyObject) (context expr : String)
        (w : World), (Py_TYPE pyobj).name = some (some name) →
        (handle_type_check_error a env pyobj context expr : M α) w
          = py_error_handler a env context (some expr)
              (some (strncat "Expression evaluates to " name 75)) true w) := by
  have hlen : (strncat "Expression evaluates to " name 75).length
      = 24 + min 75 name.length := by
    show ("Expression evaluates to ".data ++ name.data.take 75).length = _
    rw [List.length_append, List.length_take]
    rfl
  refine ⟨rfl, hlen, ?_, ?_, ?_⟩
  · rw [hlen]
    omega
  · show "Expression evaluates to ".data ++ name.data.take 75 = _
    congr 1
    show List.take 75 name.data = List.take (min 75 name.data.length) name.data
    rw [List.take_eq_take]
    omega
  · intro α a env pyobj context expr w hname
    exact handle_type_check_error_named a env pyobj context expr name w hname

/-- A type name of 76 bytes: the reason has 99 bytes and its terminator is the last element
of the array. -/
theorem error_message_fills_buffer :
    long_type_name.length = 76
    ∧ (strncat "Expression evaluates to " long_type_name 75).length + 1 = 100 := by
  decide

/-! ## The loop, element by element -/

theorem bind_assoc_apply {α β γ : Type} (m : M α) (f : α → M β) (g : β → M γ) (w : World) :
    ((m >>= f) >>= g) w = (m >>= fun x => f x >>= g) w := by
  rw [bind_apply, bind_apply, bind_apply]
  cases m w <;> rfl

theorem bind_congr_apply {α β : Type} (m : M α) {f g : α → M β} (w : World)
    (h : ∀ x w1, f x w1 = g x w1) : (m >>= f) w = (m >>= g) w := by
  rw [bind_apply, bind_apply]
  cases m w with
  | ret x w1 => exact h x w1
  | halted w1 => rfl
  | undefined u w1 => rfl

/-- A loop of `k + m` iterations is a loop of `k` iterations followed by a loop of `m`
iterations from the index reached. -/
theorem fill_loop_add {γ : Type} (get : PyObject → M γ) (store_event : Nat → γ → Event)
    (list : PyObject) (m : Nat) :
    ∀ (k idx : Nat) (arr : Option (List γ)) (w : World),
      fill_loop get store_event list (k + m) idx arr w
        = (fill_loop get store_event list k idx arr >>= fun arr1 =>
            fill_loop get store_event list m (idx + k) arr1) w := by
  intro k
  induction k with
  | zero =>
    intro idx arr w
    rw [Nat.zero_add]
    rfl
  | succ k ih =>
    intro idx arr w
    have hkm : k + 1 + m = (k + m) + 1 := by omega
    rw [hkm]
    simp only [fill_loop]
    rw [bind_assoc_apply]
    refine bind_congr_apply _ w fun item w1 => ?_
    cases item with
    | none => rfl
    | some pyobj =>
      show (get pyobj >>= _) w1 = ((get pyobj >>= _) >>= _) w1
      rw [bind_assoc_apply]
      refine bind_congr_apply _ w1 fun value w2 => ?_
      rw [bind_assoc_apply]
      refine bind_congr_apply _ w2 fun arr1 w3 => ?_
      rw [ih (idx + 1) arr1 w3]
      have hidx : idx + (k + 1) = idx + 1 + k := by omega
      rw [hidx]

/-- The loop of the vector operations when the items it reaches convert: the `count` cells
from `idx` on receive the converted items, one store after the other in increasing index
order. The items of the list behind the last index reached are not looked at. -/
theorem fill_loop_range {γ : Type} (get : PyObject → M γ) (store_event : Nat → γ → Event)
    (tp : PyTypeObject) (items : List PyObject) (val : PyObject → γ) :
    ∀ (count idx : Nat) (cells : List γ) (w : World), w.err = none →
      idx + count ≤ items.length → idx + count ≤ cells.length →
      (∀ item ∈ (items.drop idx).take count, ∀ w : World, w.err = none →
        get item w = .ret (val item) w) →
      fill_loop get store_event (.list tp items) count idx (some cells) w
        = .ret (some (cells.take idx ++ ((items.drop idx).take count).map val
              ++ cells.drop (idx + count)))
            { w with trace := w.trace ++ (List.zipWith store_event (List.range' idx count)
                (((items.drop idx).take count).map val)) } := by
  intro count
  induction count with
  | zero =>
    intro idx cells w hw _ _ _
    simp [fill_loop]
  | succ count ih =>
    intro idx cells w hw hi hc hget
    have hidx : idx < items.length := by omega
    have hcell : idx < cells.length := by omega
    have hdrop : items.drop idx = items[idx] :: items.drop (idx + 1) :=
      List.drop_eq_getElem_cons hidx
    have hg := hget items[idx] (by rw [hdrop, List.take_succ_cons]; exact List.mem_cons_self _ _)
      w hw
    have step := ih (idx + 1) (cells.set idx (val items[idx]))
      { w with trace := w.trace ++ [store_event idx (val items[idx])] } hw (by omega)
      (by simp; omega)
      (fun item hitem => hget item (by
        rw [hdrop, List.take_succ_cons]
        exact List.mem_cons_of_mem _ hitem))
    simp only [fill_loop, bind_apply, PyList_GetItem, List.get?_eq_getElem?,
      List.getElem?_eq_getElem hidx, pure_apply, hg, store, hcell, if_true, log_apply, step]
    rw [take_succ_set cells idx _ hcell]
    have e1 : idx + 1 + count = idx + (count + 1) := by omega
    rw [show (cells.set idx (val items[idx])).drop (idx + 1 + count) = cells.drop (idx + (count + 1)) by
      rw [drop_succ_set]; rw [e1]]
    have hdrop2 : List.drop idx (List.map val items)
        = val items[idx] :: List.drop (idx + 1) (List.map val items) := by
      rw [← List.map_drop, hdrop, List.map_cons, List.map_drop]
    simp [List.range'_succ, hdrop2]

/-- The loop of the vector operations up to its first item that does not convert: when the
`k` items in front of it convert and the conversion of the item with the index `k` ends
the run, the loop has made the `k` stores and ends the run as that conversion does. -/
theorem fill_loop_first_failure {γ : Type} (get : PyObject → M γ)
    (store_event : Nat → γ → Event) (tp : PyTypeObject) (items : List PyObject)
    (val : PyObject → γ) (k m : Nat) (bad : PyObject) (cells : List γ) (w w2 : World)
    (hw : w.err = none) (hk : k < items.length) (hcells : k ≤ cells.length)
    (hbad : items[k] = bad)
    (hget : ∀ item ∈ items.take k, ∀ w : World, w.err = none → get item w = .ret (val item) w)
    (hfail : get bad
      { w with trace := w.trace ++
          List.zipWith store_event (List.range' 0 k) ((items.take k).map val) } = .halted w2) :
    fill_loop get store_event (.list tp items) (k + (m + 1)) 0 (some cells) w = .halted w2 := by
  have h1 := fill_loop_range get store_event tp items val k 0 cells w hw (by omega) (by omega)
    (by simpa using hget)
  rw [fill_loop_add, bind_of_ret h1]
  simp only [fill_loop, Nat.zero_add, bind_apply, PyList_GetItem, List.get?_eq_getElem?,
    List.getElem?_eq_getElem hk, pure_apply, hbad]
  simp only [List.drop_zero] at hfail ⊢
  rw [hfail]

/-- The loop of the integer vector operations run over the first `n` items of a longer list,
when those are `int` objects inside the 32-bit range: the array of `n` elements receives
their values; the items behind them are not looked at. -/
theorem fill_loop_integers_prefix (a : Adapter) (env : Env) (expr : String) (tp : PyTypeObject)
    (elems : List (PyTypeObject × Int)) (rest : List PyObject) (cells : List Int) (w : World)
    (hw : w.err = none) (hrange : ∀ e ∈ elems, -(2 ^ 31) ≤ e.2 ∧ e.2 ≤ 2 ^ 31 - 1)
    (hlen : cells.length = elems.length) :
    fill_loop (fun item => get_integer a env item expr false) Event.store_int
        (.list tp (elems.map (fun e => PyObject.long e.1 e.2) ++ rest)) elems.length 0
        (some cells) w
      = .ret (some (elems.map Prod.snd))
          { w with trace := w.trace ++
              List.zipWith Event.store_int (List.range' 0 elems.length) (elems.map Prod.snd) } := by
  have htake : ((elems.map (fun e => PyObject.long e.1 e.2) ++ rest).drop 0).take elems.length
      = elems.map (fun e => PyObject.long e.1 e.2) := by
    rw [List.drop_zero, List.take_left']
    exact List.length_map _ _
  have hget : ∀ item ∈ ((elems.map (fun e => PyObject.long e.1 e.2) ++ rest).drop 0).take
        elems.length, ∀ w : World, w.err = none →
      get_integer a env item expr false w
        = .ret ((fun o => match o with | PyObject.long _ v => v | _ => 0) item) w := by
    rw [htake]
    intro item hitem w1 hw1
    obtain ⟨e, he, rfl⟩ := List.mem_map.mp hitem
    have := get_integer_ret a env e.1 e.2 expr false w1 hw1 (hrange e he).1 (hrange e he).2
    simpa using this
  have h := fill_loop_range (fun item => get_integer a env item expr false) Event.store_int tp
    (elems.map (fun e => PyObject.long e.1 e.2) ++ rest)
    (fun o => match o with | PyObject.long _ v => v | _ => 0) elems.length 0 cells w hw
    (by simp) (by omega) hget
  rw [h, htake]
  have hmap : List.map ((fun o => match o with | PyObject.long _ v => v | _ => 0) ∘
      fun (e : PyTypeObject × Int) => PyObject.long e.1 e.2) elems = elems.map Prod.snd := by
    apply List.map_congr_left
    intro e _
    rfl
  have hdrop : List.drop elems.length cells = [] := by
    apply List.drop_eq_nil_of_le
    omega
  simp [hmap, hdrop]

/-- The loop of the real vector operations run over the first `n` items of a longer list,
when those are `float` objects that pass the range test: the array of `n` elements receives
their values; the items behind them are not looked at. -/
theorem fill_loop_reals_prefix (a : Adapter) (env : Env) (expr : String) (tp : PyTypeObject)
    (elems : List (PyTypeObject × CDouble)) (rest : List PyObject) (cells : List CDouble)
    (w : World) (hw : w.err = none)
    (hrange : ∀ e ∈ elems, (CDouble.gt e.2 REAL_MAX || CDouble.lt e.2 REAL_MAX.neg) = false)
    (hlen : cells.length = elems.length) :
    fill_loop (fun item => get_real a env item expr false) Event.store_real
        (.list tp (elems.map (fun e => PyObject.float e.1 e.2) ++ rest)) elems.length 0
        (some cells) w
      = .ret (some (elems.map Prod.snd))
          { w with trace := w.trace ++
              List.zipWith Event.store_real (List.range' 0 elems.length) (elems.map Prod.snd) } := by
  have htake : ((elems.map (fun e => PyObject.float e.1 e.2) ++ rest).drop 0).take elems.length
      = elems.map (fun e => PyObject.float e.1 e.2) := by
    rw [List.drop_zero, List.take_left']
    exact List.length_map _ _
  have hget : ∀ item ∈ ((elems.map (fun e => PyObject.float e.1 e.2) ++ rest).drop 0).take
        elems.length, ∀ w : World, w.err = none →
      get_real a env item expr false w
        = .ret ((fun o => match o with | PyObject.float _ d => d | _ => .nan) item) w := by
    rw [htake]
    intro item hitem w1 hw1
    obtain ⟨e, he, rfl⟩ := List.mem_map.mp hitem
    have := get_real_ret a env e.1 e.2 expr false w1 hw1 (hrange e he)
    simpa using this
  have h := fill_loop_range (fun item => get_real a env item expr false) Event.store_real tp
    (elems.map (fun e => PyObject.float e.1 e.2) ++ rest)
    (fun o => match o with | PyObject.float _ d => d | _ => .nan) elems.length 0 cells w hw
    (by simp) (by omega) hget
  rw [h, htake]
  have hmap : List.map ((fun o => match o with | PyObject.float _ d => d | _ => CDouble.nan) ∘
      fun (e : PyTypeObject × CDouble) => PyObject.float e.1 e.2) elems = elems.map Prod.snd := by
    apply List.map_congr_left
    intro e _
    rfl
  have hdrop : List.drop elems.length cells = [] := by
    apply List.drop_eq_nil_of_le
    omega
  simp [hmap, hdrop]

/-- C30: in the FLI and NVC adapters the loop of the vector operations runs up to the length
of the destination. When the stored list begins with `n` items that convert and the
destination has `n` elements, exactly those `n` items are checked and copied, at the indices
`0, ..., n-1`, and the function returns; whatever items follow in the list (`rest`: of the
wrong type, out of range, or fine) are not looked at and raise no error. -/
theorem destination_length_bounds_loop (env : Env) (tp : PyTypeObject) (rest : List PyObject)
    (w : World) (hw : w.err = none) :
    (∀ (elems : List (PyTypeObject × Int)) (vec : List Int),
      (∀ e ∈ elems, -(2 ^ 31) ≤ e.2 ∧ e.2 ≤ 2 ^ 31 - 1) → vec.length = elems.length →
      env.run_eval_input "__eval_result__.get()"
        = .ok (.list tp (elems.map (fun e => PyObject.long e.1 e.2) ++ rest)) →
      FLI.p_get_integer_vector env vec w
        = .ret (some (elems.map Prod.snd))
            { w with trace := w.trace ++
                (List.zipWith Event.store_int (List.range' 0 elems.length) (elems.map Prod.snd) ++
                [Event.Py_DECREF
                  (.list tp (elems.map (fun e => PyObject.long e.1 e.2) ++ rest))]) }
      ∧ NVC.get_integer_vector env vec w
        = .ret (some (elems.map Prod.snd))
            { w with trace := w.trace ++
                (List.zipWith Event.store_int (List.range' 0 elems.length) (elems.map Prod.snd) ++
                [Event.Py_DECREF
                  (.list tp (elems.map (fun e => PyObject.long e.1 e.2) ++ rest))]) })
    ∧ (∀ (elems : List (PyTypeObject × CDouble)) (vec : List CDouble),
      (∀ e ∈ elems, (CDouble.gt e.2 REAL_MAX || CDouble.lt e.2 REAL_MAX.neg) = false) →
      vec.length = elems.length →
      env.run_eval_input "__eval_result__.get()"
        = .ok (.list tp (elems.map (fun e => PyObject.float e.1 e.2) ++ rest)) →
      FLI.p_get_real_vector env vec w
        = .ret (some (elems.map Prod.snd))
            { w with trace := w.trace ++
                (List.zipWith Event.store_real (List.range' 0 elems.length)
                  (elems.map Prod.snd) ++
                [Event.Py_DECREF
                  (.list tp (elems.map (fun e => PyObject.float e.1 e.2) ++ rest))]) }
      ∧ NVC.get_real_vector env vec w
        = .ret (some (elems.map Prod.snd))
            { w with trace := w.trace ++
                (List.zipWith Event.store_real (List.range' 0 elems.length)
                  (elems.map Prod.snd) ++
                [Event.Py_DECREF
                  (.list tp (elems.map (fun e => PyObject.float e.1 e.2) ++ rest))]) }) := by
  constructor
  · intro elems vec hrange hlen hrun
    have hlist : PyList_Check (.list tp (elems.map (fun e => PyObject.long e.1 e.2) ++ rest))
        = true := rfl
    have hF := fill_loop_integers_prefix .fli env "__eval_result__.get()" tp elems rest vec w
      hw hrange hlen
    have hN := fill_loop_integers_prefix .nvc env "__eval_result__.get()" tp elems rest vec w
      hw hrange hlen
    constructor
    · simp only [FLI.p_get_integer_vector,
        bind_of_ret (eval_ret .fli env "__eval_result__.get()" _ w hrun), hlist, hlen,
        Bool.not_true, Bool.false_eq_true, ↓reduceIte, pure_bind_apply, bind_of_ret hF,
        log_bind_apply, pure_apply, List.append_assoc]
    · simp only [NVC.get_integer_vector,
        bind_of_ret (eval_ret .nvc env "__eval_result__.get()" _ w hrun), hlist, hlen,
        Bool.not_true, Bool.false_eq_true, ↓reduceIte, pure_bind_apply, bind_of_ret hN,
        log_bind_apply, pure_apply, List.append_assoc]
  · intro elems vec hrange hlen hrun
    have hlist : PyList_Check (.list tp (elems.map (fun e => PyObject.float e.1 e.2) ++ rest))
        = true := rfl
    have hF := fill_loop_reals_prefix .fli env "__eval_result__.get()" tp elems rest vec w
      hw hrange hlen
    have hN := fill_loop_reals_prefix .nvc env "__eval_result__.get()" tp elems rest vec w
      hw hrange hlen
    constructor
    · simp only [FLI.p_get_real_vector,
        bind_of_ret (eval_ret .fli env "__eval_result__.get()" _ w hrun), hlist, hlen,
        Bool.not_true, Bool.false_eq_true, ↓reduceIte, pure_bind_apply, bind_of_ret hF,
        log_bind_apply, pure_apply, List.append_assoc]
    · simp only [NVC.get_real_vector,
        bind_of_ret (eval_ret .nvc env "__eval_result__.get()" _ w hrun), hlist, hlen,
        Bool.not_true, Bool.false_eq_true, ↓reduceIte, pure_bind_apply, bind_of_ret hN,
        log_bind_apply, pure_apply, List.append_assoc]

/-- Witness of C30: the stored list `[1, 2, str(3), 2**31]` and a destination of two elements
in the FLI adapter: 1 and 2 are copied, the `str` and the integer out of range behind them
raise no error. -/
theorem destination_length_bounds_loop_witness :
    ready.err = none
    ∧ FLI.p_get_integer_vector
        (session (.ok (.list PyList_Type
          [.long PyLong_Type 1, .long PyLong_Type 2, .unicode (some "3"),
           .long PyLong_Type 2147483648]))) [0, 0] ready
      = .ret (some [1, 2])
          { ready with trace :=
              [Event.store_int 0 1, Event.store_int 1 2,
               Event.Py_DECREF (.list PyList_Type
                 [.long PyLong_Type 1, .long PyLong_Type 2, .unicode (some "3"),
                  .long PyLong_Type 2147483648])] } :=
  ⟨rfl,
    ((destination_length_bounds_loop
        (session (.ok (.list PyList_Type
          [.long PyLong_Type 1, .long PyLong_Type 2, .unicode (some "3"),
           .long PyLong_Type 2147483648])))
        PyList_Type [.unicode (some "3"), .long PyLong_Type 2147483648] ready rfl).1
      [(PyLong_Type, 1), (PyLong_Type, 2)] [0, 0] (by decide) rfl rfl).1⟩

/-! ## The first element that does not convert -/

/-- An object that is not an `int` inside the 32-bit range is not converted by
`get_integer`: the run ends in the reporter. -/
theorem get_integer_rejects (a : Adapter) (env : Env) (pyobj : PyObject) (expr : String)
    (dec_ref_count : Bool) (w : World)
    (h : ¬ ∃ tp v, pyobj = .long tp v ∧ -(2 ^ 31) ≤ v ∧ v ≤ 2 ^ 31 - 1) :
    ∃ w2, get_integer a env pyobj expr dec_ref_count w = .halted w2 := by
  rcases get_integer_defined a env pyobj expr dec_ref_count w with ⟨v, w1, hret⟩ | hhalt
  · exfalso
    cases hcheck : PyLong_Check pyobj with
    | false =>
      obtain ⟨w2, h2⟩ := handle_type_check_error_halted a env pyobj "evaluating to integer" expr w
      rw [get_integer_type_error a env pyobj expr dec_ref_count w hcheck, h2 Int] at hret
      cases hret
    | true =>
      cases pyobj with
      | long tp x =>
        by_cases hin : -(2 ^ 31) ≤ x ∧ x ≤ 2 ^ 31 - 1
        · exact h ⟨tp, x, rfl, hin.1, hin.2⟩
        · by_cases hfit : LONG_MIN env.data_model ≤ x ∧ x ≤ LONG_MAX env.data_model
          · cases herr : w.err with
            | none =>
              obtain ⟨w2, h2⟩ := py_error_handler_halted a env "parsing evaluation result of"
                (some expr) (some "Result out of VHDL integer range.") true
                { w with trace := w.trace ++
                  (if dec_ref_count then [Event.Py_DECREF (.long tp x)] else []) }
              rw [get_integer_range_error a env tp x expr dec_ref_count w herr hfit (by omega),
                h2 Int] at hret
              cases hret
            | some e =>
              obtain ⟨w2, h2⟩ := py_error_handler_halted a env "parsing evaluation result of"
                (some expr) none true
                { w with trace := w.trace ++
                  (if dec_ref_count then [Event.Py_DECREF (.long tp x)] else []) ++
                  [Event.Py_DECREF_exc] }
              rw [get_integer_pending a env tp x expr dec_ref_count w e herr hfit,
                h2 Int] at hret
              cases hret
          · obtain ⟨w2, h2⟩ := py_error_handler_halted a env "parsing evaluation result of"
              (some expr) none true
              { w with
                err := some ⟨some (.unicode (some "Python int too large to convert to C long"))⟩
                trace := w.trace ++
                  (if dec_ref_count then [Event.Py_DECREF (.long tp x)] else []) ++
                  [Event.Py_DECREF_exc] }
            rw [get_integer_conversion_error a env tp x expr dec_ref_count w hfit,
              h2 Int] at hret
            cases hret
      | float tp d => cases hcheck
      | list tp items => cases hcheck
      | unicode u => cases hcheck
      | other tp => cases hcheck
  · exact hhalt

/-- An object that is not a `float` passing the range test is not converted by `get_real`:
the run ends in the reporter. -/
theorem get_real_rejects (a : Adapter) (env : Env) (pyobj : PyObject) (expr : String)
    (dec_ref_count : Bool) (w : World)
    (h : ¬ ∃ tp d, pyobj = .float tp d
      ∧ (CDouble.gt d REAL_MAX || CDouble.lt d REAL_MAX.neg) = false) :
    ∃ w2, get_real a env pyobj expr dec_ref_count w = .halted w2 := by
  rcases get_real_defined a env pyobj expr dec_ref_count w with ⟨v, w1, hret⟩ | hhalt
  · exfalso
    cases hcheck : PyFloat_Check pyobj with
    | false =>
      obtain ⟨w2, h2⟩ := handle_type_check_error_halted a env pyobj "evaluating to real" expr w
      rw [get_real_type_error a env pyobj expr dec_ref_count w hcheck, h2 CDouble] at hret
      cases hret
    | true =>
      cases pyobj with
      | float tp x =>
        cases htest : (CDouble.gt x REAL_MAX || CDouble.lt x REAL_MAX.neg) with
        | false => exact h ⟨tp, x, rfl, htest⟩
        | true =>
          cases herr : w.err with
          | none =>
            obtain ⟨w2, h2⟩ := py_error_handler_halted a env "parsing evaluation result of"
              (some expr) (some "Result out of VHDL real range.") true
              { w with trace := w.trace ++
                (if dec_ref_count then [Event.Py_DECREF (.float tp x)] else []) }
            rw [get_real_range_error a env tp x expr dec_ref_count w herr htest,
              h2 CDouble] at hret
            cases hret
          | some e =>
            obtain ⟨w2, h2⟩ := py_error_handler_halted a env "parsing evaluation result of"
              (some expr) none true
              { w with trace := w.trace ++
                (if dec_ref_count then [Event.Py_DECREF (.float tp x)] else []) ++
                [Event.Py_DECREF_exc] }
            rw [get_real_pending a env tp x expr dec_ref_count w e herr, h2 CDouble] at hret
            cases hret
      | long tp v => cases hcheck
      | list tp items => cases hcheck
      | unicode u => cases hcheck
      | other tp => cases hcheck
  · exact hhalt

/-- The loop of the integer vector operations on a list that begins with `int` objects inside
the 32-bit range followed by the object `bad`, when it runs past them: their values are
stored, and the loop ends as the conversion of `bad` does in the state reached. -/
theorem fill_loop_integers_failure (a : Adapter) (env : Env) (expr : String)
    (tp : PyTypeObject) (elems : List (PyTypeObject × Int)) (bad : PyObject)
    (rest : List PyObject) (m : Nat) (cells : List Int) (w w2 : World) (hw : w.err = none)
    (hrange : ∀ e ∈ elems, -(2 ^ 31) ≤ e.2 ∧ e.2 ≤ 2 ^ 31 - 1)
    (hcells : elems.length ≤ cells.length)
    (hfail : get_integer a env bad expr false
      { w with trace := w.trace ++
          List.zipWith Event.store_int (List.range' 0 elems.length) (elems.map Prod.snd) }
      = .halted w2) :
    fill_loop (fun item => get_integer a env item expr false) Event.store_int
        (.list tp (elems.map (fun e => PyObject.long e.1 e.2) ++ bad :: rest))
        (elems.length + (m + 1)) 0 (some cells) w
      = .halted w2 := by
  have hlen : (elems.map (fun e => PyObject.long e.1 e.2)).length = elems.length :=
    List.length_map _ _
  have htake : (elems.map (fun e => PyObject.long e.1 e.2) ++ bad :: rest).take elems.length
      = elems.map (fun e => PyObject.long e.1 e.2) := List.take_left' hlen
  have hmap : List.map ((fun o => match o with | PyObject.long _ v => v | _ => 0) ∘
      fun (e : PyTypeObject × Int) => PyObject.long e.1 e.2) elems = elems.map Prod.snd := by
    apply List.map_congr_left
    intro e _
    rfl
  refine fill_loop_first_failure (fun item => get_integer a env item expr false)
    Event.store_int tp _ (fun o => match o with | PyObject.long _ v => v | _ => 0)
    elems.length m bad cells w w2 hw (by simp) hcells ?_ ?_ ?_
  · rw [List.getElem_append_right (by omega)]
    simp [hlen]
  · rw [htake]
    intro item hitem w1 hw1
    obtain ⟨e, he, rfl⟩ := List.mem_map.mp hitem
    have := get_integer_ret a env e.1 e.2 expr false w1 hw1 (hrange e he).1 (hrange e he).2
    simpa using this
  · rw [htake, List.map_map, hmap]
    exact hfail

/-- The loop of the real vector operations on a list that begins with `float` objects that
pass the range test followed by the object `bad`, when it runs past them: their values are
stored, and the loop ends as the conversion of `bad` does in the state reached. -/
theorem fill_loop_reals_failure (a : Adapter) (env : Env) (expr : String)
    (tp : PyTypeObject) (elems : List (PyTypeObject × CDouble)) (bad : PyObject)
    (rest : List PyObject) (m : Nat) (cells : List CDouble) (w w2 : World) (hw : w.err = none)
    (hrange : ∀ e ∈ elems, (CDouble.gt e.2 REAL_MAX || CDouble.lt e.2 REAL_MAX.neg) = false)
    (hcells : elems.length ≤ cells.length)
    (hfail : get_real a env bad expr false
      { w with trace := w.trace ++
          List.zipWith Event.store_real (List.range' 0 elems.length) (elems.map Prod.snd) }
      = .halted w2) :
    fill_loop (fun item => get_real a env item expr false) Event.store_real
        (.list tp (elems.map (fun e => PyObject.float e.1 e.2) ++ bad :: rest))
        (elems.length + (m + 1)) 0 (some cells) w
      = .halted w2 := by
  have hlen : (elems.map (fun e => PyObject.float e.1 e.2)).length = elems.length :=
    List.length_map _ _
  have htake : (elems.map (fun e => PyObject.float e.1 e.2) ++ bad :: rest).take elems.length
      = elems.map (fun e => PyObject.float e.1 e.2) := List.take_left' hlen
  have hmap : List.map ((fun o => match o with | PyObject.float _ d => d | _ => CDouble.nan) ∘
      fun (e : PyTypeObject × CDouble) => PyObject.float e.1 e.2) elems = elems.map Prod.snd := by
    apply List.map_congr_left
    intro e _
    rfl
  refine fill_loop_first_failure (fun item => get_real a env item expr false)
    Event.store_real tp _ (fun o => match o with | PyObject.float _ d => d | _ => .nan)
    elems.length m bad cells w w2 hw (by simp) hcells ?_ ?_ ?_
  · rw [List.getElem_append_right (by omega)]
    simp [hlen]
  · rw [htake]
    intro item hitem w1 hw1
    obtain ⟨e, he, rfl⟩ := List.mem_map.mp hitem
    have := get_real_ret a env e.1 e.2 expr false w1 hw1 (hrange e he)
    simpa using this
  · rw [htake, List.map_map, hmap]
    exact hfail

/-- The shape shared by the vector operations of the FLI, GHDL and NVC adapters, on a list
whose loop ends the run: the operation ends there, with nothing done after it. -/
theorem vector_operation_halted {γ : Type} (a : Adapter) (env : Env) (context : String)
    (get : PyObject → M γ) (store_event : Nat → γ → Event) (count : PyObject → Nat)
    (vec : List γ) (tp : PyTypeObject) (items : List PyObject) (w w2 : World)
    (hrun : env.run_eval_input "__eval_result__.get()" = .ok (.list tp items))
    (hloop : fill_loop get store_event (.list tp items) (count (.list tp items)) 0 (some vec) w
      = .halted w2) :
    (do
      let eval_result ← eval a env "__eval_result__.get()"
      if !PyList_Check eval_result then
        handle_type_check_error a env eval_result context "__eval_result__.get()"
      let arr ← fill_loop get store_event eval_result (count eval_result) 0 (some vec)
      log (.Py_DECREF eval_result)
      return arr : M (Option (List γ))) w = .halted w2 := by
  have hlist : PyList_Check (.list tp items) = true := rfl
  simp only [bind_of_ret (eval_ret a env "__eval_result__.get()" _ w hrun), hlist,
    Bool.not_true, Bool.false_eq_true, ↓reduceIte, pure_bind_apply, bind_of_halted hloop]

/-- The run of `eval_integer_vector` of the VHPI adapter on a list that begins with `int`
objects inside the 32-bit range followed by the object `bad`: the block is allocated, the
values in front of `bad` are stored, and the run ends as the conversion of `bad` does; no
put follows. -/
theorem vhpi_eval_integer_vector_failure (env : Env) (tp : PyTypeObject) (cb_p : vhpiCbDataS)
    (expr : String) (w w2 : World) (elems : List (PyTypeObject × Int)) (bad : PyObject)
    (rest : List PyObject) (hw : w.err = none)
    (hh : cb_p.parameter_handle = true) (hp : cb_p.parameter = some expr)
    (hrange : ∀ e ∈ elems, -(2 ^ 31) ≤ e.2 ∧ e.2 ≤ 2 ^ 31 - 1)
    (hfit : ((elems.length + (rest.length + 1) : Nat) : Int) * 4 < 2 ^ 31)
    (hrun : env.run_eval_input expr
      = .ok (.list tp (elems.map (fun e => PyObject.long e.1 e.2) ++ bad :: rest)))
    (hfail : get_integer .vhpi env bad expr false
      { w with trace := w.trace ++ ([Event.malloc ((elems.length + (rest.length + 1) : Nat) * 4)]
          ++ List.zipWith Event.store_int (List.range' 0 elems.length) (elems.map Prod.snd)) }
      = .halted w2) :
    VHPI.eval_integer_vector env cb_p w = .halted w2 := by
  generalize hn : elems.length + (rest.length + 1) = n at hfit hfail
  have hsize : to_int (n : Int) = n := by
    unfold to_int
    omega
  have hbytes : to_int ((n : Int) * 4) = n * 4 := by
    unfold to_int
    omega
  have hcap : ((n : Int) * 4).toNat / 4 = n := by omega
  have hm := malloc_ret env.heap_int ((n : Int) * 4) 4 w (by omega)
  rw [hcap] at hm
  have hV := fill_loop_integers_failure .vhpi env expr tp elems bad rest rest.length
    ((List.range n).map env.heap_int)
    { w with trace := w.trace ++ [Event.malloc (n * 4)] } w2 hw hrange
    (by simp; omega) (by simpa using hfail)
  rw [hn] at hV
  have hlist : PyList_Check (.list tp (elems.map (fun e => PyObject.long e.1 e.2) ++ bad :: rest))
      = true := rfl
  have hlsize : PyList_GET_SIZE
      (.list tp (elems.map (fun e => PyObject.long e.1 e.2) ++ bad :: rest)) = n := by
    rw [← hn]
    simp [PyList_GET_SIZE]
  simp only [VHPI.eval_integer_vector,
    bind_of_ret (vhpi_get_parameter_ret env cb_p expr w hh hp),
    bind_of_ret (eval_ret .vhpi env expr _ w hrun),
    pure_bind_apply, if_apply, Bool.not_true, Bool.false_eq_true, ↓reduceIte,
    hlist, hlsize, hsize, hbytes, Int.toNat_ofNat, bind_of_ret hm, bind_of_halted hV]

/-- The run of `eval_real_vector` of the VHPI adapter on a list that begins with `float`
objects that pass the range test followed by the object `bad`: the block is allocated, the
values in front of `bad` are stored, and the run ends as the conversion of `bad` does; no
put follows. -/
theorem vhpi_eval_real_vector_failure (env : Env) (tp : PyTypeObject) (cb_p : vhpiCbDataS)
    (expr : String) (w w2 : World) (elems : List (PyTypeObject × CDouble)) (bad : PyObject)
    (rest : List PyObject) (hw : w.err = none)
    (hh : cb_p.parameter_handle = true) (hp : cb_p.parameter = some expr)
    (hrange : ∀ e ∈ elems, (CDouble.gt e.2 REAL_MAX || CDouble.lt e.2 REAL_MAX.neg) = false)
    (hfit : ((elems.length + (rest.length + 1) : Nat) : Int) * 8 < 2 ^ 31)
    (hrun : env.run_eval_input expr
      = .ok (.list tp (elems.map (fun e => PyObject.float e.1 e.2) ++ bad :: rest)))
    (hfail : get_real .vhpi env bad expr false
      { w with trace := w.trace ++ ([Event.malloc ((elems.length + (rest.length + 1) : Nat) * 8)]
          ++ List.zipWith Event.store_real (List.range' 0 elems.length) (elems.map Prod.snd)) }
      = .halted w2) :
    VHPI.eval_real_vector env cb_p w = .halted w2 := by
  generalize hn : elems.length + (rest.length + 1) = n at hfit hfail
  have hsize : to_int (n : Int) = n := by
    unfold to_int
    omega
  have hbytes : to_int ((n : Int) * 8) = n * 8 := by
    unfold to_int
    omega
  have hcap : ((n : Int) * 8).toNat / 8 = n := by omega
  have hm := malloc_ret env.heap_real ((n : Int) * 8) 8 w (by omega)
  rw [hcap] at hm
  have hV := fill_loop_reals_failure .vhpi env expr tp elems bad rest rest.length
    ((List.range n).map env.heap_real)
    { w with trace := w.trace ++ [Event.malloc (n * 8)] } w2 hw hrange
    (by simp; omega) (by simpa using hfail)
  rw [hn] at hV
  have hlist : PyList_Check (.list tp (elems.map (fun e => PyObject.float e.1 e.2) ++ bad :: rest))
      = true := rfl
  have hlsize : PyList_GET_SIZE
      (.list tp (elems.map (fun e => PyObject.float e.1 e.2) ++ bad :: rest)) = n := by
    rw [← hn]
    simp [PyList_GET_SIZE]
  simp only [VHPI.eval_real_vector,
    bind_of_ret (vhpi_get_parameter_ret env cb_p expr w hh hp),
    bind_of_ret (eval_ret .vhpi env expr _ w hrun),
    pure_bind_apply, if_apply, Bool.not_true, Bool.false_eq_true, ↓reduceIte,
    hlist, hlsize, hsize, hbytes, Int.toNat_ofNat, bind_of_ret hm, bind_of_halted hV]

/-- The conversion `get_integer` makes no deposit. -/
theorem get_integer_deposits (a : Adapter) (env : Env) (pyobj : PyObject) (expr : String)
    (dec_ref_count : Bool) (w : World) :
    List.countP Event.is_deposit (get_integer a env pyobj expr dec_ref_count w).world.trace
      = List.countP Event.is_deposit w.trace := by
  cases hcheck : PyLong_Check pyobj with
  | false =>
    obtain ⟨reason, hr⟩ := handle_type_check_error_eq a env pyobj "evaluating to integer" expr
    rw [get_integer_type_error a env pyobj expr dec_ref_count w hcheck, hr Int w,
      py_error_handler_deposits]
  | true =>
    cases pyobj with
    | long tp v =>
      by_cases hfit : LONG_MIN env.data_model ≤ v ∧ v ≤ LONG_MAX env.data_model
      · cases herr : w.err with
        | none =>
          by_cases hin : -(2 ^ 31) ≤ v ∧ v ≤ 2 ^ 31 - 1
          · rw [get_integer_ret a env tp v expr dec_ref_count w herr hin.1 hin.2]
            cases dec_ref_count <;>
              simp [Outcome.world, List.countP_append, List.countP_cons, Event.is_deposit]
          · rw [get_integer_range_error a env tp v expr dec_ref_count w herr hfit (by omega),
              py_error_handler_deposits]
            cases dec_ref_count <;>
              simp [List.countP_append, List.countP_cons, Event.is_deposit]
        | some e =>
          rw [get_integer_pending a env tp v expr dec_ref_count w e herr hfit,
            py_error_handler_deposits]
          cases dec_ref_count <;>
            simp [List.countP_append, List.countP_cons, Event.is_deposit]
      · rw [get_integer_conversion_error a env tp v expr dec_ref_count w hfit,
          py_error_handler_deposits]
        cases dec_ref_count <;>
          simp [List.countP_append, List.countP_cons, Event.is_deposit]
    | float tp d => cases hcheck
    | list tp items => cases hcheck
    | unicode u => cases hcheck
    | other tp => cases hcheck

/-- The conversion `get_real` makes no deposit. -/
theorem get_real_deposits (a : Adapter) (env : Env) (pyobj : PyObject) (expr : String)
    (dec_ref_count : Bool) (w : World) :
    List.countP Event.is_deposit (get_real a env pyobj expr dec_ref_count w).world.trace
      = List.countP Event.is_deposit w.trace := by
  cases hcheck : PyFloat_Check pyobj with
  | false =>
    obtain ⟨reason, hr⟩ := handle_type_check_error_eq a env pyobj "evaluating to real" expr
    rw [get_real_type_error a env pyobj expr dec_ref_count w hcheck, hr CDouble w,
      py_error_handler_deposits]
  | true =>
    cases pyobj with
    | float tp d =>
      cases herr : w.err with
      | none =>
        cases htest : (CDouble.gt d REAL_MAX || CDouble.lt d REAL_MAX.neg) with
        | false =>
          rw [get_real_ret a env tp d expr dec_ref_count w herr htest]
          cases dec_ref_count <;>
            simp [Outcome.world, List.countP_append, List.countP_cons, Event.is_deposit]
        | true =>
          rw [get_real_range_error a env tp d expr dec_ref_count w herr htest,
            py_error_handler_deposits]
          cases dec_ref_count <;>
            simp [List.countP_append, List.countP_cons, Event.is_deposit]
      | some e =>
        rw [get_real_pending a env tp d expr dec_ref_count w e herr, py_error_handler_deposits]
        cases dec_ref_count <;>
          simp [List.countP_append, List.countP_cons, Event.is_deposit]
    | long tp v => cases hcheck
    | list tp items => cases hcheck
    | unicode u => cases hcheck
    | other tp => cases hcheck

/-- C26: the vector operations convert the items of the list in increasing index order. When
the items in front of the index `k` convert and the item `bad` with the index `k` is one
that `get_integer` (resp. `get_real`) does not accept, the loop stores the `k` values in front
of it and then ends the run exactly as `get_integer` (resp. `get_real`) does on `bad`: with
the context "evaluating to integer" (resp. "evaluating to real") when `bad` is of the wrong
type, and with "parsing evaluation result of" and the reason "Result out of VHDL integer
range." (resp. "... real range.") when it is out of range. The items behind `bad` are not
converted, the operation does not return, and the VHPI adapter makes no put. When every item
the loop reaches converts, the loop returns (the first statement of each part). -/
theorem vector_first_failing_element (env : Env) (tp : PyTypeObject) (bad : PyObject)
    (rest : List PyObject) (w : World) (hw : w.err = none) :
    (∀ elems : List (PyTypeObject × Int), (∀ e ∈ elems, -(2 ^ 31) ≤ e.2 ∧ e.2 ≤ 2 ^ 31 - 1) →
      (∀ (a : Adapter) (expr : String) (cells : List Int), cells.length = elems.length →
        fill_loop (fun item => get_integer a env item expr false) Event.store_int
            (.list tp (elems.map (fun e => PyObject.long e.1 e.2) ++ bad :: rest))
            elems.length 0 (some cells) w
          = .ret (some (elems.map Prod.snd))
              { w with trace := w.trace ++
                (List.zipWith Event.store_int (List.range' 0 elems.length)
                  (elems.map Prod.snd)) })
      ∧ ((¬ ∃ tpb v, bad = .long tpb v ∧ -(2 ^ 31) ≤ v ∧ v ≤ 2 ^ 31 - 1) →
        (∀ (a : Adapter) (expr : String) (m : Nat) (cells : List Int),
          elems.length ≤ cells.length →
          ∃ w2, get_integer a env bad expr false
              { w with trace := w.trace ++
                (List.zipWith Event.store_int (List.range' 0 elems.length)
                  (elems.map Prod.snd)) } = .halted w2
            ∧ fill_loop (fun item => get_integer a env item expr false) Event.store_int
                (.list tp (elems.map (fun e => PyObject.long e.1 e.2) ++ bad :: rest))
                (elems.length + (m + 1)) 0 (some cells) w = .halted w2)
        ∧ (∀ (a : Adapter) (expr : String) (w1 : World), PyLong_Check bad = false →
          get_integer a env bad expr false w1
            = handle_type_check_error a env bad "evaluating to integer" expr w1)
        ∧ (∀ (a : Adapter) (expr : String) (w1 : World) (tpb : PyTypeObject) (v : Int),
          bad = .long tpb v → w1.err = none →
          LONG_MIN env.data_model ≤ v ∧ v ≤ LONG_MAX env.data_model →
          get_integer a env bad expr false w1
            = py_error_handler a env "parsing evaluation result of" (some expr)
                (some "Result out of VHDL integer range.") true w1)
        ∧ (env.run_eval_input "__eval_result__.get()"
            = .ok (.list tp (elems.map (fun e => PyObject.long e.1 e.2) ++ bad :: rest)) →
          (∀ vec : List Int, elems.length < vec.length →
            ∃ w2, get_integer .fli env bad "__eval_result__.get()" false
                { w with trace := w.trace ++
                  (List.zipWith Event.store_int (List.range' 0 elems.length)
                    (elems.map Prod.snd)) } = .halted w2
              ∧ FLI.p_get_integer_vector env vec w = .halted w2)
          ∧ (∀ vec : List Int, elems.length ≤ vec.length →
            ∃ w2, get_integer .ghdl env bad "__eval_result__.get()" false
                { w with trace := w.trace ++
                  (List.zipWith Event.store_int (List.range' 0 elems.length)
                    (elems.map Prod.snd)) } = .halted w2
              ∧ GHDL.get_integer_vector env vec w = .halted w2)
          ∧ (∀ vec : List Int, elems.length < vec.length →
            ∃ w2, get_integer .nvc env bad "__eval_result__.get()" false
                { w with trace := w.trace ++
                  (List.zipWith Event.store_int (List.range' 0 elems.length)
                    (elems.map Prod.snd)) } = .halted w2
              ∧ NVC.get_integer_vector env vec w = .halted w2))
        ∧ (∀ (cb_p : vhpiCbDataS) (expr : String), cb_p.parameter_handle = true →
          cb_p.parameter = some expr →
          env.run_eval_input expr
            = .ok (.list tp (elems.map (fun e => PyObject.long e.1 e.2) ++ bad :: rest)) →
          ((elems.length + (rest.length + 1) : Nat) : Int) * 4 < 2 ^ 31 →
          ∃ w2, get_integer .vhpi env bad expr false
              { w with trace := w.trace ++
                ([Event.malloc ((elems.length + (rest.length + 1) : Nat) * 4)] ++
                  List.zipWith Event.store_int (List.range' 0 elems.length)
                    (elems.map Prod.snd)) } = .halted w2
            ∧ VHPI.eval_integer_vector env cb_p w = .halted w2
            ∧ List.countP Event.is_deposit w2.trace = List.countP Event.is_deposit w.trace)))
    ∧ (∀ elems : List (PyTypeObject × CDouble),
      (∀ e ∈ elems, (CDouble.gt e.2 REAL_MAX || CDouble.lt e.2 REAL_MAX.neg) = false) →
      (∀ (a : Adapter) (expr : String) (cells : List CDouble), cells.length = elems.length →
        fill_loop (fun item => get_real a env item expr false) Event.store_real
            (.list tp (elems.map (fun e => PyObject.float e.1 e.2) ++ bad :: rest))
            elems.length 0 (some cells) w
          = .ret (some (elems.map Prod.snd))
              { w with trace := w.trace ++
                (List.zipWith Event.store_real (List.range' 0 elems.length)
                  (elems.map Prod.snd)) })
      ∧ ((¬ ∃ tpb d, bad = .float tpb d
            ∧ (CDouble.gt d REAL_MAX || CDouble.lt d REAL_MAX.neg) = false) →
        (∀ (a : Adapter) (expr : String) (m : Nat) (cells : List CDouble),
          elems.length ≤ cells.length →
          ∃ w2, get_real a env bad expr false
              { w with trace := w.trace ++
                (List.zipWith Event.store_real (List.range' 0 elems.length)
                  (elems.map Prod.snd)) } = .halted w2
            ∧ fill_loop (fun item => get_real a env item expr false) Event.store_real
                (.list tp (elems.map (fun e => PyObject.float e.1 e.2) ++ bad :: rest))
                (elems.length + (m + 1)) 0 (some cells) w = .halted w2)
        ∧ (∀ (a : Adapter) (expr : String) (w1 : World), PyFloat_Check bad = false →
          get_real a env bad expr false w1
            = handle_type_check_error a env bad "evaluating to real" expr w1)
        ∧ (∀ (a : Adapter) (expr : String) (w1 : World) (tpb : PyTypeObject) (d : CDouble),
          bad = .float tpb d → w1.err = none →
          get_real a env bad expr false w1
            = py_error_handler a env "parsing evaluation result of" (some expr)
                (some "Result out of VHDL real range.") true w1)
        ∧ (env.run_eval_input "__eval_result__.get()"
            = .ok (.list tp (elems.map (fun e => PyObject.float e.1 e.2) ++ bad :: rest)) →
          (∀ vec : List CDouble, elems.length < vec.length →
            ∃ w2, get_real .fli env bad "__eval_result__.get()" false
                { w with trace := w.trace ++
                  (List.zipWith Event.store_real (List.range' 0 elems.length)
                    (elems.map Prod.snd)) } = .halted w2
              ∧ FLI.p_get_real_vector env vec w = .halted w2)
          ∧ (∀ vec : List CDouble, elems.length ≤ vec.length →
            ∃ w2, get_real .ghdl env bad "__eval_result__.get()" false
                { w with trace := w.trace ++
                  (List.zipWith Event.store_real (List.range' 0 elems.length)
                    (elems.map Prod.snd)) } = .halted w2
              ∧ GHDL.get_real_vector env vec w = .halted w2)
          ∧ (∀ vec : List CDouble, elems.length < vec.length →
            ∃ w2, get_real .nvc env bad "__eval_result__.get()" false
                { w with trace := w.trace ++
                  (List.zipWith Event.store_real (List.range' 0 elems.length)
                    (elems.map Prod.snd)) } = .halted w2
              ∧ NVC.get_real_vector env vec w = .halted w2))
        ∧ (∀ (cb_p : vhpiCbDataS) (expr : String), cb_p.parameter_handle = true →
          cb_p.parameter = some expr →
          env.run_eval_input expr
            = .ok (.list tp (elems.map (fun e => PyObject.float e.1 e.2) ++ bad :: rest)) →
          ((elems.length + (rest.length + 1) : Nat) : Int) * 8 < 2 ^ 31 →
          ∃ w2, get_real .vhpi env bad expr false
              { w with trace := w.trace ++
                ([Event.malloc ((elems.length + (rest.length + 1) : Nat) * 8)] ++
                  List.zipWith Event.store_real (List.range' 0 elems.length)
                    (elems.map Prod.snd)) } = .halted w2
            ∧ VHPI.eval_real_vector env cb_p w = .halted w2
            ∧ List.countP Event.is_deposit w2.trace
                = List.countP Event.is_deposit w.trace))) := by
  constructor
  · intro elems hrange
    refine ⟨fun a expr cells hlen =>
      fill_loop_integers_prefix a env expr tp elems (bad :: rest) cells w hw hrange hlen,
      fun hbad => ⟨?_, ?_, ?_, ?_, ?_⟩⟩
    · intro a expr m cells hcells
      obtain ⟨w2, h2⟩ := get_integer_rejects a env bad expr false
        { w with trace := w.trace ++
          (List.zipWith Event.store_int (List.range' 0 elems.length) (elems.map Prod.snd)) } hbad
      exact ⟨w2, h2, fill_loop_integers_failure a env expr tp elems bad rest m cells w w2 hw
        hrange hcells h2⟩
    · intro a expr w1 hcheck
      exact get_integer_type_error a env bad expr false w1 hcheck
    · rintro a expr w1 tpb v rfl herr hfit
      have hout : v < -(2 ^ 31) ∨ 2 ^ 31 - 1 < v := by
        by_contra hin
        exact hbad ⟨tpb, v, rfl, by omega, by omega⟩
      rw [get_integer_range_error a env tpb v expr false w1 herr hfit hout]
      simp
    · intro hrun
      refine ⟨?_, ?_, ?_⟩
      · intro vec hlt
        obtain ⟨w2, h2⟩ := get_integer_rejects .fli env bad "__eval_result__.get()" false
          { w with trace := w.trace ++
            (List.zipWith Event.store_int (List.range' 0 elems.length) (elems.map Prod.snd)) }
          hbad
        have hloop := fill_loop_integers_failure .fli env "__eval_result__.get()" tp elems bad
          rest (vec.length - elems.length - 1) vec w w2 hw hrange (by omega) h2
        have hcount : elems.length + (vec.length - elems.length - 1 + 1) = vec.length := by
          omega
        rw [hcount] at hloop
        exact ⟨w2, h2, vector_operation_halted .fli env "evaluating to integer_vector" _
          Event.store_int (fun _ => vec.length) vec tp _ w w2 hrun hloop⟩
      · intro vec hle
        obtain ⟨w2, h2⟩ := get_integer_rejects .ghdl env bad "__eval_result__.get()" false
          { w with trace := w.trace ++
            (List.zipWith Event.store_int (List.range' 0 elems.length) (elems.map Prod.snd)) }
          hbad
        have hloop := fill_loop_integers_failure .ghdl env "__eval_result__.get()" tp elems bad
          rest rest.length vec w w2 hw hrange hle h2
        have hcount : elems.length + (rest.length + 1)
            = PyList_GET_SIZE
                (.list tp (elems.map (fun e => PyObject.long e.1 e.2) ++ bad :: rest)) := by
          simp [PyList_GET_SIZE]
        rw [hcount] at hloop
        exact ⟨w2, h2, vector_operation_halted .ghdl env "evaluating to integer_vector" _
          Event.store_int PyList_GET_SIZE vec tp _ w w2 hrun hloop⟩
      · intro vec hlt
        obtain ⟨w2, h2⟩ := get_integer_rejects .nvc env bad "__eval_result__.get()" false
          { w with trace := w.trace ++
            (List.zipWith Event.store_int (List.range' 0 elems.length) (elems.map Prod.snd)) }
          hbad
        have hloop := fill_loop_integers_failure .nvc env "__eval_result__.get()" tp elems bad
          rest (vec.length - elems.length - 1) vec w w2 hw hrange (by omega) h2
        have hcount : elems.length + (vec.length - elems.length - 1 + 1) = vec.length := by
          omega
        rw [hcount] at hloop
        exact ⟨w2, h2, vector_operation_halted .nvc env "evaluating to integer_vector" _
          Event.store_int (fun _ => vec.length) vec tp _ w w2 hrun hloop⟩
    · intro cb_p expr hh hp hrun hfit
      obtain ⟨w2, h2⟩ := get_integer_rejects .vhpi env bad expr false
        { w with trace := w.trace ++
          ([Event.malloc ((elems.length + (rest.length + 1) : Nat) * 4)] ++
            List.zipWith Event.store_int (List.range' 0 elems.length) (elems.map Prod.snd)) }
        hbad
      refine ⟨w2, h2, vhpi_eval_integer_vector_failure env tp cb_p expr w w2 elems bad rest hw
        hh hp hrange hfit hrun h2, ?_⟩
      have hd := get_integer_deposits .vhpi env bad expr false
        { w with trace := w.trace ++
          ([Event.malloc ((elems.length + (rest.length + 1) : Nat) * 4)] ++
            List.zipWith Event.store_int (List.range' 0 elems.length) (elems.map Prod.snd)) }
      rw [h2] at hd
      rw [show (Outcome.halted w2 : Outcome Int).world = w2 from rfl] at hd
      rw [hd]
      simp [List.countP_append, List.countP_cons, Event.is_deposit,
        countP_stores Event.is_deposit Event.store_int (fun _ _ => rfl)]
  · intro elems hrange
    refine ⟨fun a expr cells hlen =>
      fill_loop_reals_prefix a env expr tp elems (bad :: rest) cells w hw hrange hlen,
      fun hbad => ⟨?_, ?_, ?_, ?_, ?_⟩⟩
    · intro a expr m cells hcells
      obtain ⟨w2, h2⟩ := get_real_rejects a env bad expr false
        { w with trace := w.trace ++
          (List.zipWith Event.store_real (List.range' 0 elems.length) (elems.map Prod.snd)) } hbad
      exact ⟨w2, h2, fill_loop_reals_failure a env expr tp elems bad rest m cells w w2 hw
        hrange hcells h2⟩
    · intro a expr w1 hcheck
      exact get_real_type_error a env bad expr false w1 hcheck
    · rintro a expr w1 tpb d rfl herr
      have hout : (CDouble.gt d REAL_MAX || CDouble.lt d REAL_MAX.neg) = true := by
        cases htest : (CDouble.gt d REAL_MAX || CDouble.lt d REAL_MAX.neg) with
        | true => rfl
        | false => exact absurd ⟨tpb, d, rfl, htest⟩ hbad
      rw [get_real_range_error a env tpb d expr false w1 herr hout]
      simp
    · intro hrun
      refine ⟨?_, ?_, ?_⟩
      · intro vec hlt
        obtain ⟨w2, h2⟩ := get_real_rejects .fli env bad "__eval_result__.get()" false
          { w with trace := w.trace ++
            (List.zipWith Event.store_real (List.range' 0 elems.length) (elems.map Prod.snd)) }
          hbad
        have hloop := fill_loop_reals_failure .fli env "__eval_result__.get()" tp elems bad
          rest (vec.length - elems.length - 1) vec w w2 hw hrange (by omega) h2
        have hcount : elems.length + (vec.length - elems.length - 1 + 1) = vec.length := by
          omega
        rw [hcount] at hloop
        exact ⟨w2, h2, vector_operation_halted .fli env "evaluating to real_vector" _
          Event.store_real (fun _ => vec.length) vec tp _ w w2 hrun hloop⟩
      · intro vec hle
        obtain ⟨w2, h2⟩ := get_real_rejects .ghdl env bad "__eval_result__.get()" false
          { w with trace := w.trace ++
            (List.zipWith Event.store_real (List.range' 0 elems.length) (elems.map Prod.snd)) }
          hbad
        have hloop := fill_loop_reals_failure .ghdl env "__eval_result__.get()" tp elems bad
          rest rest.length vec w w2 hw hrange hle h2
        have hcount : elems.length + (rest.length + 1)
            = PyList_GET_SIZE
                (.list tp (elems.map (fun e => PyObject.float e.1 e.2) ++ bad :: rest)) := by
          simp [PyList_GET_SIZE]
        rw [hcount] at hloop
        exact ⟨w2, h2, vector_operation_halted .ghdl env "evaluating to real_vector" _
          Event.store_real PyList_GET_SIZE vec tp _ w w2 hrun hloop⟩
      · intro vec hlt
        obtain ⟨w2, h2⟩ := get_real_rejects .nvc env bad "__eval_result__.get()" false
          { w with trace := w.trace ++
            (List.zipWith Event.store_real (List.range' 0 elems.length) (elems.map Prod.snd)) }
          hbad
        have hloop := fill_loop_reals_failure .nvc env "__eval_result__.get()" tp elems bad
          rest (vec.length - elems.length - 1) vec w w2 hw hrange (by omega) h2
        have hcount : elems.length + (vec.length - elems.length - 1 + 1) = vec.length := by
          omega
        rw [hcount] at hloop
        exact ⟨w2, h2, vector_operation_halted .nvc env "evaluating to real_vector" _
          Event.store_real (fun _ => vec.length) vec tp _ w w2 hrun hloop⟩
    · intro cb_p expr hh hp hrun hfit
      obtain ⟨w2, h2⟩ := get_real_rejects .vhpi env bad expr false
        { w with trace := w.trace ++
          ([Event.malloc ((elems.length + (rest.length + 1) : Nat) * 8)] ++
            List.zipWith Event.store_real (List.range' 0 elems.length) (elems.map Prod.snd)) }
        hbad
      refine ⟨w2, h2, vhpi_eval_real_vector_failure env tp cb_p expr w w2 elems bad rest hw
        hh hp hrange hfit hrun h2, ?_⟩
      have hd := get_real_deposits .vhpi env bad expr false
        { w with trace := w.trace ++
          ([Event.malloc ((elems.length + (rest.length + 1) : Nat) * 8)] ++
            List.zipWith Event.store_real (List.range' 0 elems.length) (elems.map Prod.snd)) }
      rw [h2] at hd
      rw [show (Outcome.halted w2 : Outcome CDouble).world = w2 from rfl] at hd
      rw [hd]
      simp [List.countP_append, List.countP_cons, Event.is_deposit,
        countP_stores Event.is_deposit Event.store_real (fun _ _ => rfl)]

/-- Witness of C26: the stored list `[1, str(2), 2**31]` and a destination of three elements
in the FLI adapter. The value 1 is stored, and the run ends as `get_integer` does on the
`str` with the index 1. -/
theorem vector_first_failing_element_witness :
    ready.err = none
    ∧ ∃ w2, get_integer .fli
          (session (.ok (.list PyList_Type
            [.long PyLong_Type 1, .unicode (some "2"), .long PyLong_Type 2147483648])))
          (.unicode (some "2")) "__eval_result__.get()" false
          { ready with trace := [Event.store_int 0 1] } = .halted w2
      ∧ FLI.p_get_integer_vector
          (session (.ok (.list PyList_Type
            [.long PyLong_Type 1, .unicode (some "2"), .long PyLong_Type 2147483648])))
          [0, 0, 0] ready = .halted w2 :=
  ⟨rfl,
    (((((vector_first_failing_element
        (session (.ok (.list PyList_Type
          [.long PyLong_Type 1, .unicode (some "2"), .long PyLong_Type 2147483648])))
        PyList_Type (.unicode (some "2")) [.long PyLong_Type 2147483648] ready rfl).1
      [(PyLong_Type, 1)] (by decide)).2
      (by
        rintro ⟨tpb, v, h, -⟩
        cases h)).2.2.2.1 rfl).1 [0, 0, 0] (by decide))⟩

/-- The same run in full: the error reported is the type error of the item with the index 1,
not the range error of the item behind it. -/
theorem vector_first_failing_element_run :
    FLI.p_get_integer_vector
        (session (.ok (.list PyList_Type
          [.long PyLong_Type 1, .unicode (some "2"), .long PyLong_Type 2147483648])))
        [0, 0, 0] ready
      = .halted { ready with trace :=
          [Event.store_int 0 1, Event.Py_DECREF_locals, Event.Py_FinalizeEx,
           Event.printf
             ("ERROR evaluating to integer:\n\n__eval_result__.get()\n\n"
               ++ "Expression evaluates to str\n\n"),
           Event.mti_FatalError] } := rfl

/-! ## The copies of `get_parameter`, byte by byte -/

/-- The characters in front of the first NUL do not depend on what follows that NUL. -/
theorem takeWhile_append_stop (l1 l2 : List Char) :
    (l1 ++ Char.ofNat 0 :: l2).takeWhile (fun c => c ≠ Char.ofNat 0)
      = l1.takeWhile (fun c => c ≠ Char.ofNat 0) := by
  induction l1 with
  | nil => simp
  | cons c l1 ih =>
    by_cases hc : c = Char.ofNat 0
    · simp [hc]
    · have hp : (fun c => decide (c ≠ Char.ofNat 0)) c = true := decide_eq_true hc
      rw [List.cons_append,
        @List.takeWhile_cons_of_pos _ (fun c => decide (c ≠ Char.ofNat 0)) c _ hp,
        @List.takeWhile_cons_of_pos _ (fun c => decide (c ≠ Char.ofNat 0)) c _ hp, ih]

/-- The terminator stored behind `n` bytes: the C string the array holds is made of the
bytes in front of the first NUL among them. -/
theorem c_str_set_terminator (bytes tail : List Char) (h : 0 < tail.length) :
    c_str ((bytes ++ tail).set bytes.length (Char.ofNat 0)) = c_str bytes := by
  cases tail with
  | nil => simp at h
  | cons t tail =>
    unfold c_str
    have hset : (bytes ++ t :: tail).set bytes.length (Char.ofNat 0)
        = bytes ++ Char.ofNat 0 :: tail := by
      simp [List.set_append]
    rw [hset, takeWhile_append_stop]

/-- The array after `strncpy` holds the same C string as the source, also when the source has
a NUL among its `n` bytes. -/
theorem c_str_strncpy (dst src : List Char) (hdst : src.length < dst.length) :
    c_str ((strncpy dst src src.length).set src.length (Char.ofNat 0)) = c_str src := by
  unfold strncpy
  simp only [List.take_length]
  by_cases hfull : (src.takeWhile (fun c => c ≠ Char.ofNat 0)).length = src.length
  · have hall : src.takeWhile (fun c => c ≠ Char.ofNat 0) = src := by
      have hpre := @List.takeWhile_prefix _ src (fun c => decide (c ≠ Char.ofNat 0))
      exact hpre.eq_of_length hfull
    rw [hall, Nat.sub_self, List.replicate_zero, List.append_nil]
    exact c_str_set_terminator src (dst.drop src.length) (by simp; omega)
  · have hlt : (src.takeWhile (fun c => c ≠ Char.ofNat 0)).length < src.length := by
      have := (@List.takeWhile_prefix _ src (fun c => decide (c ≠ Char.ofNat 0))).length_le
      omega
    obtain ⟨k, hk⟩ : ∃ k, src.length - (src.takeWhile (fun c => c ≠ Char.ofNat 0)).length
        = k + 1 := ⟨_, (Nat.succ_pred_eq_of_pos (by omega)).symm⟩
    rw [hk, List.replicate_succ]
    have hidx : src.length
        = (src.takeWhile (fun c => c ≠ Char.ofNat 0)).length + (k + 1) := by omega
    unfold c_str
    have hset : (src.takeWhile (fun c => c ≠ Char.ofNat 0)
        ++ Char.ofNat 0 :: List.replicate k (Char.ofNat 0) ++ dst.drop src.length).set
          src.length (Char.ofNat 0)
        = src.takeWhile (fun c => c ≠ Char.ofNat 0)
          ++ Char.ofNat 0 :: ((List.replicate k (Char.ofNat 0) ++ dst.drop src.length).set
              k (Char.ofNat 0)) := by
      rw [List.append_assoc, List.set_append]
      simp only [List.cons_append]
      rw [if_neg (by omega)]
      have hsub : src.length - (src.takeWhile (fun c => c ≠ Char.ofNat 0)).length = k + 1 := hk
      rw [hsub, List.set_cons_succ]
    rw [hset, takeWhile_append_stop, List.takeWhile_idem]

/-- The array after `memcpy` holds the same C string as the source. -/
theorem c_str_memcpy (dst src : List Char) (hdst : src.length < dst.length) :
    c_str ((memcpy dst src src.length).set src.length (Char.ofNat 0)) = c_str src := by
  unfold memcpy
  rw [List.take_length]
  exact c_str_set_terminator src (dst.drop src.length) (by simp; omega)

theorem strncpy_length (dst src : List Char) (n : Nat) (hn : n ≤ dst.length) :
    (strncpy dst src n).length = dst.length := by
  unfold strncpy
  have h := (@List.takeWhile_prefix _ (src.take n)
    (fun c => decide (c ≠ Char.ofNat 0))).length_le
  have h2 : (src.take n).length ≤ n := by
    rw [List.length_take]
    omega
  simp only [List.length_append, List.length_replicate, List.length_drop]
  omega

theorem memcpy_length (dst src : List Char) (n : Nat) (hn : n ≤ dst.length)
    (hsrc : n ≤ src.length) : (memcpy dst src n).length = dst.length := by
  unfold memcpy
  simp only [List.length_append, List.length_take, List.length_drop]
  omega

/-- An array with a NUL at some index begins with its C string followed by a NUL. -/
theorem take_c_str_terminator (bytes : List Char) (n : Nat)
    (h : bytes[n]? = some (Char.ofNat 0)) :
    bytes.take ((c_str bytes).length + 1) = (c_str bytes).data ++ [Char.ofNat 0] := by
  unfold c_str
  show bytes.take ((bytes.takeWhile (fun c => c ≠ Char.ofNat 0)).length + 1)
    = bytes.takeWhile (fun c => c ≠ Char.ofNat 0) ++ [Char.ofNat 0]
  induction bytes generalizing n with
  | nil => simp at h
  | cons c bytes ih =>
    by_cases hc : c = Char.ofNat 0
    · simp [hc]
    · have hp : (fun c => decide (c ≠ Char.ofNat 0)) c = true := decide_eq_true hc
      rw [@List.takeWhile_cons_of_pos _ (fun c => decide (c ≠ Char.ofNat 0)) c _ hp]
      cases n with
      | zero =>
        simp only [List.getElem?_cons_zero, Option.some.injEq] at h
        exact absurd h hc
      | succ m =>
        simp only [List.getElem?_cons_succ] at h
        simp only [List.length_cons, List.take_succ_cons, List.cons_append]
        rw [ih m h]

/-- Dropping one element more than the first part of a list has. -/
theorem drop_succ_append (l1 l2 : List Char) (n : Nat) (h : l1.length = n) :
    (l1 ++ l2).drop (n + 1) = (l2.drop 1) := by
  subst h
  induction l1 with
  | nil => rfl
  | cons c l1 ih => simp [ih]

/-- No byte of a C string is a NUL. -/
theorem c_str_no_nul (bytes : List Char) : ∀ c ∈ (c_str bytes).data, c ≠ Char.ofNat 0 := by
  intro c hc
  have h := List.mem_takeWhile_imp hc
  simpa using h

/-- C28: for every VHDL string of fewer than 100,000 bytes, `get_parameter` of the GHDL
adapter (`strncpy`, then the terminator at the index `length`) and `get_parameter` of the NVC
adapter (`memcpy`, then the terminator at the index `length`) return, and return the same
null-terminated string. Each returns its static array of 100,000 bytes with a NUL stored at
the index `length`; both arrays begin with the same bytes followed by a NUL, none of these
bytes being a NUL: the bytes of the source in front of its first NUL, or all of them when it
has none. That holds also when a NUL lies among the bytes of the source, and whatever the two
static arrays held before. -/
theorem get_parameter_copies_agree (ghdl_buffer nvc_buffer source : List Char) (w : World)
    (hg : ghdl_buffer.length = MAX_VHDL_PARAMETER_STRING_LENGTH)
    (hn : nvc_buffer.length = MAX_VHDL_PARAMETER_STRING_LENGTH)
    (hlen : source.length < MAX_VHDL_PARAMETER_STRING_LENGTH) :
    ∃ after_strncpy after_memcpy,
      GHDL.get_parameter_bytes ghdl_buffer source w = .ret after_strncpy w
      ∧ NVC.get_parameter_bytes nvc_buffer source w = .ret after_memcpy w
      ∧ after_strncpy.length = MAX_VHDL_PARAMETER_STRING_LENGTH
      ∧ after_memcpy.length = MAX_VHDL_PARAMETER_STRING_LENGTH
      ∧ after_strncpy[source.length]? = some (Char.ofNat 0)
      ∧ after_memcpy[source.length]? = some (Char.ofNat 0)
      ∧ after_strncpy.take ((c_str source).length + 1) = (c_str source).data ++ [Char.ofNat 0]
      ∧ after_memcpy.take ((c_str source).length + 1) = (c_str source).data ++ [Char.ofNat 0]
      ∧ (∀ c ∈ (c_str source).data, c ≠ Char.ofNat 0)
      ∧ (c_str source).length ≤ source.length
      ∧ after_memcpy.take source.length = source
      ∧ after_strncpy.drop (source.length + 1) = ghdl_buffer.drop (source.length + 1)
      ∧ after_memcpy.drop (source.length + 1) = nvc_buffer.drop (source.length + 1)
      ∧ c_str after_strncpy = c_str after_memcpy
      ∧ c_str after_strncpy = c_str source
      ∧ GHDL.get_parameter (String.mk source) w = .ret (c_str after_strncpy) w
      ∧ NVC.get_parameter (String.mk source) w = .ret (c_str after_memcpy) w := by
  have hs := c_str_strncpy ghdl_buffer source (by omega)
  have hm := c_str_memcpy nvc_buffer source (by omega)
  have hls := strncpy_length ghdl_buffer source source.length (by omega)
  have hlm := memcpy_length nvc_buffer source source.length (by omega) (le_refl _)
  have hp := copy_parameter_ret (String.mk source) w hlen
  have hgs : ((strncpy ghdl_buffer source source.length).set source.length
      (Char.ofNat 0))[source.length]? = some (Char.ofNat 0) := by
    exact List.getElem?_set_self (by rw [hls, hg]; exact hlen)
  have hgm : ((memcpy nvc_buffer source source.length).set source.length
      (Char.ofNat 0))[source.length]? = some (Char.ofNat 0) := by
    exact List.getElem?_set_self (by rw [hlm, hn]; exact hlen)
  have hts := take_c_str_terminator _ _ hgs
  have htm := take_c_str_terminator _ _ hgm
  rw [hs] at hts
  rw [hm] at htm
  refine ⟨(strncpy ghdl_buffer source source.length).set source.length (Char.ofNat 0),
    (memcpy nvc_buffer source source.length).set source.length (Char.ofNat 0),
    ?_, ?_, ?_, ?_, hgs, hgm, hts, htm, c_str_no_nul source, ?_, ?_, ?_, ?_,
    hs.trans hm.symm, hs, ?_, ?_⟩
  · unfold GHDL.get_parameter_bytes
    simp only
    rw [if_pos (by omega), if_pos (by omega)]
    rfl
  · unfold NVC.get_parameter_bytes
    simp only
    rw [if_pos (by omega), if_pos (by omega)]
    rfl
  · rw [List.length_set, hls, hg]
  · rw [List.length_set, hlm, hn]
  · exact (@List.takeWhile_prefix _ source (fun c => decide (c ≠ Char.ofNat 0))).length_le
  · rw [List.set_take, List.set_eq_of_length_le (by simp)]
    unfold memcpy
    rw [List.take_length, List.take_left]
  · rw [List.drop_set_of_lt _ _ (Nat.lt_succ_self _)]
    unfold strncpy
    have h := (@List.takeWhile_prefix _ (source.take source.length)
      (fun c => decide (c ≠ Char.ofNat 0))).length_le
    have h2 : (source.take source.length).length = source.length := by simp
    rw [drop_succ_append _ _ _ (by
      simp only [List.length_append, List.length_replicate]
      omega), List.drop_drop]
  · rw [List.drop_set_of_lt _ _ (Nat.lt_succ_self _)]
    unfold memcpy
    rw [List.take_length, drop_succ_append _ _ _ rfl, List.drop_drop]
  · rw [hs]
    exact hp
  · rw [hm]
    exact hp

/-- Witness of C28: the three bytes `1`, NUL, `2` as source and two arrays that hold
different bytes before the call: both copies return their array of 100,000 bytes with a NUL
at the index 3, beginning with `1` and a NUL; the string in both is "1". -/
theorem get_parameter_copies_agree_witness :
    (List.replicate 100000 'x').length = MAX_VHDL_PARAMETER_STRING_LENGTH
    ∧ (List.replicate 100000 'y').length = MAX_VHDL_PARAMETER_STRING_LENGTH
    ∧ ['1', Char.ofNat 0, '2'].length < MAX_VHDL_PARAMETER_STRING_LENGTH
    ∧ ∃ after_strncpy after_memcpy,
      GHDL.get_parameter_bytes (List.replicate 100000 'x') ['1', Char.ofNat 0, '2'] ready
        = .ret after_strncpy ready
      ∧ NVC.get_parameter_bytes (List.replicate 100000 'y') ['1', Char.ofNat 0, '2'] ready
        = .ret after_memcpy ready
      ∧ after_strncpy.length = 100000
      ∧ after_memcpy.length = 100000
      ∧ after_strncpy[3]? = some (Char.ofNat 0)
      ∧ after_memcpy[3]? = some (Char.ofNat 0)
      ∧ after_strncpy.take 2 = ['1', Char.ofNat 0]
      ∧ after_memcpy.take 2 = ['1', Char.ofNat 0]
      ∧ after_memcpy.take 3 = ['1', Char.ofNat 0, '2']
      ∧ c_str after_strncpy = "1"
      ∧ c_str after_memcpy = "1" := by
  have hx : (List.replicate 100000 'x').length = MAX_VHDL_PARAMETER_STRING_LENGTH :=
    List.length_replicate _ _
  have hy : (List.replicate 100000 'y').length = MAX_VHDL_PARAMETER_STRING_LENGTH :=
    List.length_replicate _ _
  have hl : ['1', Char.ofNat 0, '2'].length < MAX_VHDL_PARAMETER_STRING_LENGTH := by decide
  obtain ⟨s, m, h1, h2, h3, h4, h5, h6, h7, h8, -, -, h9, -, -, h10, h11, -, -⟩ :=
    get_parameter_copies_agree (List.replicate 100000 'x') (List.replicate 100000 'y')
      ['1', Char.ofNat 0, '2'] ready hx hy hl
  exact ⟨hx, hy, hl, s, m, h1, h2, h3, h4, h5, h6, h7, h8, h9, h11.trans (by decide),
    (h10.symm.trans h11).trans (by decide)⟩

/-! ## The string handed to the VHPI host -/

/-- A string with no NUL among its bytes is the C string it is stored as, and `strlen`
counts all its bytes. -/
theorem strlen_of_no_nul (s : String) (hnul : ∀ c ∈ s.data, c ≠ Char.ofNat 0) :
    c_str s.data = s ∧ strlen s = s.length := by
  have hc : c_str s.data = s := by
    unfold c_str
    have : s.data.takeWhile (fun c => decide (c ≠ Char.ofNat 0)) = s.data := by
      rw [List.takeWhile_eq_self_iff]
      intro c hc
      exact decide_eq_true (hnul c hc)
    rw [this]
  refine ⟨hc, ?_⟩
  unfold strlen
  rw [hc]

/-- What holds of C24: when `strlen` still finds the text `s` at the address `get_string` has
returned, `s` has no NUL among its bytes and fewer than `2^31` of them, `eval_string` of the
VHPI adapter releases the result and hands the host, for the size constraint and then for
the deposit, the string `s` (its bytes and the terminator behind them) with the element
count `numElems` equal to the number of bytes of `s` and the buffer size `bufSize` equal to
that number plus one; when the host accepts both puts the function returns. -/
theorem eval_string_deposit (env : Env) (cb_p : vhpiCbDataS) (expr : String)
    (pyobj : PyObject) (s : String) (w : World)
    (hh : cb_p.parameter_handle = true) (hp : cb_p.parameter = some expr)
    (hrun : env.run_eval_input expr = .ok pyobj) (hs : get_string env (some pyobj) = some s)
    (hread : env.after_release s = some s)
    (hnul : ∀ c ∈ s.data, c ≠ Char.ofNat 0) (hlen : (s.length : Int) < 2 ^ 31)
    (hput : ∀ mode, cb_p.put_value_fails mode ⟨s.length + 1, some s.length, .str s⟩ = false) :
    VHPI.eval_string env cb_p w
      = .ret ()
          { w with trace := w.trace ++
              [Event.Py_DECREF pyobj,
               Event.vhpi_put_value .vhpiSizeConstraint ⟨s.length + 1, some s.length, .str s⟩,
               Event.vhpi_put_value .vhpiDeposit ⟨s.length + 1, some s.length, .str s⟩] } := by
  obtain ⟨hc, hl⟩ := strlen_of_no_nul s hnul
  have hto : to_int (s.length : Int) = s.length := by
    unfold to_int
    omega
  have hr := vhpi_eval_string_run env cb_p expr pyobj s s w hh hp hrun hs hread
  rw [hc, hl, hto] at hr
  rw [hr, if_neg (by simp [hput]), if_neg (by simp [hput])]

/-- A small text, whose released bytes are still in place when `strlen` reads them: the
expression `str(3.14)` evaluates to the `str` object `3.14`; the host receives the string
"3.14" with `numElems = 4` and `bufSize = 5`. -/
theorem eval_string_small_text :
    VHPI.eval_string (session (.ok (.unicode (some "3.14")))) (accepting_call "str(3.14)")
        ready
      = .ret ()
          { ready with trace :=
              [Event.Py_DECREF (.unicode (some "3.14")),
               Event.vhpi_put_value .vhpiSizeConstraint ⟨5, some 4, .str "3.14"⟩,
               Event.vhpi_put_value .vhpiDeposit ⟨5, some 4, .str "3.14"⟩] } :=
  eval_string_deposit (session (.ok (.unicode (some "3.14")))) (accepting_call "str(3.14)")
    "str(3.14)" (.unicode (some "3.14")) "3.14" ready rfl rfl rfl rfl rfl (by decide)
    (by decide) (fun _ => rfl)

/-- The run of `eval_string` of the VHPI adapter when the memory `get_string` has released is
not mapped any more: `strlen` reads it after `Py_DECREF(pyobj)`, and nothing is put. -/
theorem vhpi_eval_string_faults (env : Env) (cb_p : vhpiCbDataS) (expr : String)
    (pyobj : PyObject) (released : String) (w : World)
    (hh : cb_p.parameter_handle = true) (hp : cb_p.parameter = some expr)
    (hrun : env.run_eval_input expr = .ok pyobj)
    (hs : get_string env (some pyobj) = some released)
    (hread : env.after_release released = none) :
    VHPI.eval_string env cb_p w
      = .undefined .use_after_free { w with trace := w.trace ++ [Event.Py_DECREF pyobj] } := by
  simp only [VHPI.eval_string,
    bind_of_ret (vhpi_get_parameter_ret env cb_p expr w hh hp),
    bind_of_ret (eval_ret .vhpi env expr _ w hrun), hs, hread, log_bind_apply]
  rfl

/-- In a session as `session` describes it, a released block of 128 KiB or more is not
mapped any more. -/
theorem session_after_release_large (result : Except PyErr PyObject) (text : String)
    (h : 131072 ≤ text.length) : (session result).after_release text = none := by
  have h1 : ¬ text.length < 131072 := by omega
  simp only [session, h1, ↓reduceIte]

/-- C24, the failing input: a result whose text has 1,000,000 bytes and no NUL (the value of
`str(1) * 1000000`). `get_string` returns the address of the bytes after it has released the
object that holds them, `eval_string` releases the result as well and then calls `strlen` on
that address: the block is no longer mapped, the read faults, and the host is handed
nothing, neither a size constraint nor a deposit. -/
theorem eval_string_reads_released_text :
    (String.mk (List.replicate 1000000 '1')).length = 1000000
    ∧ get_string (session (.ok (.unicode (some (String.mk (List.replicate 1000000 '1'))))))
        (some (.unicode (some (String.mk (List.replicate 1000000 '1')))))
      = some (String.mk (List.replicate 1000000 '1'))
    ∧ VHPI.eval_string
        (session (.ok (.unicode (some (String.mk (List.replicate 1000000 '1'))))))
        (accepting_call "str(1) * 1000000") ready
      = .undefined .use_after_free
          { ready with trace :=
              [Event.Py_DECREF (.unicode (some (String.mk (List.replicate 1000000 '1'))))] } :=
  ⟨List.length_replicate _ _, rfl,
    vhpi_eval_string_faults _ (accepting_call "str(1) * 1000000") "str(1) * 1000000" _ _ ready
      rfl rfl rfl rfl
      (session_after_release_large _ _ (by
        have hl : (String.mk (List.replicate 1000000 '1')).length = 1000000 :=
          List.length_replicate _ _
        rw [hl]
        norm_num))⟩

/-! ## A result that has no text -/

/-- When `get_string` returns `NULL`, the string operation of every adapter reads through
it: `strlen(str)` in `eval_string` of the VHPI adapter and `strcpy` in the string operations
of the FLI, GHDL and NVC adapters; no reporter is entered. -/
theorem string_operations_read_null (env : Env) (pyobj : PyObject) (w : World)
    (hs : get_string env (some pyobj) = none) :
    (∀ (cb_p : vhpiCbDataS) (expr : String), cb_p.parameter_handle = true →
      cb_p.parameter = some expr → env.run_eval_input expr = .ok pyobj →
      VHPI.eval_string env cb_p w
        = .undefined .null_dereference { w with trace := w.trace ++ [Event.Py_DECREF pyobj] })
    ∧ (env.run_eval_input "__eval_result__.get()" = .ok pyobj →
      ∀ vec : List Char,
        FLI.p_get_string env vec w = .undefined .null_dereference w
        ∧ GHDL.get_py_string env vec w = .undefined .null_dereference w
        ∧ NVC.get_py_string env vec w = .undefined .null_dereference w) := by
  constructor
  · intro cb_p expr hh hp hrun
    simp only [VHPI.eval_string,
      bind_of_ret (vhpi_get_parameter_ret env cb_p expr w hh hp),
      bind_of_ret (eval_ret .vhpi env expr _ w hrun), hs, log_bind_apply]
    rfl
  · intro hrun vec
    refine ⟨?_, ?_, ?_⟩
    · simp only [FLI.p_get_string,
        bind_of_ret (eval_ret .fli env "__eval_result__.get()" _ w hrun), hs]
      rfl
    · simp only [GHDL.get_py_string,
        bind_of_ret (eval_ret .ghdl env "__eval_result__.get()" _ w hrun), hs]
      rfl
    · simp only [NVC.get_py_string,
        bind_of_ret (eval_ret .nvc env "__eval_result__.get()" _ w hrun), hs]
      rfl

/-- C25, the failing input: a result whose `str()` raises (an object of a class `Broken`
whose `__str__` raises), so that `get_string` returns `NULL`. `eval_string` of the VHPI
adapter releases the result and calls `strlen` on the `NULL` pointer; `p_get_string` of the
FLI adapter and `get_py_string` of the GHDL and NVC adapters pass it to `strcpy`. No message
is reported and no halting primitive is called. In the same session `handle_type_check_error`
and `py_error_handler` do check the result of `get_string` for `NULL`. -/
theorem unprintable_result_read_through_null :
    get_string (session (.ok (.other ⟨some (some "Broken")⟩)))
        (some (.other ⟨some (some "Broken")⟩)) = none
    ∧ VHPI.eval_string (session (.ok (.other ⟨some (some "Broken")⟩)))
        (accepting_call "Broken()") ready
      = .undefined .null_dereference
          { ready with trace := [Event.Py_DECREF (.other ⟨some (some "Broken")⟩)] }
    ∧ FLI.p_get_string (session (.ok (.other ⟨some (some "Broken")⟩))) ['a', 'b'] ready
      = .undefined .null_dereference ready
    ∧ GHDL.get_py_string (session (.ok (.other ⟨some (some "Broken")⟩))) ['a', 'b'] ready
      = .undefined .null_dereference ready
    ∧ NVC.get_py_string (session (.ok (.other ⟨some (some "Broken")⟩))) ['a', 'b'] ready
      = .undefined .null_dereference ready
    ∧ (handle_type_check_error .nvc (session (.ok (.long PyLong_Type 0)))
        (.other ⟨some none⟩) "evaluating to integer" "Broken()" : M Unit) ready
      = .halted { ready with trace :=
          [Event.Py_DECREF_locals, Event.Py_FinalizeEx,
           Event.printf
             ("ERROR evaluating to integer:\n\nBroken()\n\n"
               ++ "Expression evaluates to an unknown type.\n\n"),
           Event.assert_0] } :=
  ⟨rfl, rfl, rfl, rfl, rfl, rfl⟩

/-- A result that has a text, in the FLI adapter: the bytes of the text and the terminator
are copied into a VHDL string with room for them. -/
theorem p_get_string_copies :
    FLI.p_get_string (session (.ok (.unicode (some "ab")))) ['x', 'x', 'x', 'x'] ready
      = .ret ['a', 'b', Char.ofNat 0, 'x']
          { ready with trace := [Event.Py_DECREF (.unicode (some "ab"))] } := rfl

/-! ## The context of a conversion failure -/

/-- The function `check_conversion_error` of `python_pkg.c` with an exception pending, in
every adapter: the context is "parsing evaluation result of". -/
theorem check_conversion_error_context (a : Adapter) (env : Env) (expr : String) (w : World)
    (e : PyErr) (hw : w.err = some e) :
    check_conversion_error a env expr w
      = py_error_handler a env "parsing evaluation result of" (some expr) none true
          { w with trace := w.trace ++ [Event.Py_DECREF_exc] } := by
  unfold check_conversion_error
  simp only [get_world_bind_apply, hw, Option.isSome_some, ↓reduceIte, log_bind_apply]

/-- C21, as amended: when the conversion to the C type raises, `check_conversion_error` of
the shared marshaler enters the error reporter with the context "parsing evaluation result
of" and no reason; that is the context the range checks of `get_integer` and `get_real` pass
together with the reasons "Result out of VHDL integer range." and "Result out of VHDL real
range.". The type checks pass the contexts "evaluating to integer" and "evaluating to
real". -/
theorem conversion_and_range_context (a : Adapter) (env : Env) (expr : String)
    (dec_ref_count : Bool) (w : World) :
    (∀ e, w.err = some e →
      check_conversion_error a env expr w
        = py_error_handler a env "parsing evaluation result of" (some expr) none true
            { w with trace := w.trace ++ [Event.Py_DECREF_exc] })
    ∧ (∀ tp v, ¬ (LONG_MIN env.data_model ≤ v ∧ v ≤ LONG_MAX env.data_model) →
      get_integer a env (.long tp v) expr dec_ref_count w
        = py_error_handler a env "parsing evaluation result of" (some expr) none true
            { w with
              err := some ⟨some (.unicode (some "Python int too large to convert to C long"))⟩
              trace := w.trace ++
                (if dec_ref_count then [Event.Py_DECREF (.long tp v)] else []) ++
                [Event.Py_DECREF_exc] })
    ∧ (∀ tp v, w.err = none →
      LONG_MIN env.data_model ≤ v ∧ v ≤ LONG_MAX env.data_model →
      v < -(2 ^ 31) ∨ 2 ^ 31 - 1 < v →
      get_integer a env (.long tp v) expr dec_ref_count w
        = py_error_handler a env "parsing evaluation result of" (some expr)
            (some "Result out of VHDL integer range.") true
            { w with trace := w.trace ++
              (if dec_ref_count then [Event.Py_DECREF (.long tp v)] else []) })
    ∧ (∀ tp d, w.err = none →
      (CDouble.gt d REAL_MAX || CDouble.lt d REAL_MAX.neg) = true →
      get_real a env (.float tp d) expr dec_ref_count w
        = py_error_handler a env "parsing evaluation result of" (some expr)
            (some "Result out of VHDL real range.") true
            { w with trace := w.trace ++
              (if dec_ref_count then [Event.Py_DECREF (.float tp d)] else []) })
    ∧ (∀ pyobj, PyLong_Check pyobj = false →
      get_integer a env pyobj expr dec_ref_count w
        = handle_type_check_error a env pyobj "evaluating to integer" expr w)
    ∧ (∀ pyobj, PyFloat_Check pyobj = false →
      get_real a env pyobj expr dec_ref_count w
        = handle_type_check_error a env pyobj "evaluating to real" expr w) :=
  ⟨fun e he => check_conversion_error_context a env expr w e he,
    fun tp v hfit => get_integer_conversion_error a env tp v expr dec_ref_count w hfit,
    fun tp v hw hfit h => get_integer_range_error a env tp v expr dec_ref_count w hw hfit h,
    fun tp d hw h => get_real_range_error a env tp d expr dec_ref_count w hw h,
    fun pyobj h => get_integer_type_error a env pyobj expr dec_ref_count w h,
    fun pyobj h => get_real_type_error a env pyobj expr dec_ref_count w h⟩

/-- Witness of C21: `get_integer` on the `int` `2**63`, which does not fit the C type `long`
of an LP64 platform, and on `2**31`, which does. -/
theorem conversion_and_range_context_witness :
    get_integer .fli (session (.ok (.long PyLong_Type 0)))
        (.long PyLong_Type 9223372036854775808) "2**63" true ready
      = py_error_handler .fli (session (.ok (.long PyLong_Type 0)))
          "parsing evaluation result of" (some "2**63") none true
          { ready with
            err := some ⟨some (.unicode (some "Python int too large to convert to C long"))⟩
            trace := ready.trace ++
              (if true then [Event.Py_DECREF (.long PyLong_Type 9223372036854775808)] else [])
              ++ [Event.Py_DECREF_exc] }
    ∧ get_integer .fli (session (.ok (.long PyLong_Type 0)))
        (.long PyLong_Type 2147483648) "2**31" true ready
      = py_error_handler .fli (session (.ok (.long PyLong_Type 0)))
          "parsing evaluation result of" (some "2**31")
          (some "Result out of VHDL integer range.") true
          { ready with trace := ready.trace ++
            (if true then [Event.Py_DECREF (.long PyLong_Type 2147483648)] else []) } :=
  ⟨(conversion_and_range_context .fli (session (.ok (.long PyLong_Type 0))) "2**63" true
      ready).2.1 PyLong_Type 9223372036854775808 (by decide),
    (conversion_and_range_context .fli (session (.ok (.long PyLong_Type 0))) "2**31" true
      ready).2.2.1 PyLong_Type 2147483648 rfl (by decide) (by decide)⟩

/-- C21, counterexample: with an `OverflowError` pending, `check_conversion_error` of
`python_pkg.c` enters the reporter with the context "parsing evaluation result of", the
context of the range check; the call is not a call of the reporter with a context "target
type casting evaluation result of". -/
theorem conversion_context_is_range_context :
    check_conversion_error .fli (session (.ok (.long PyLong_Type 0))) "2**63"
        { ready with
          err := some ⟨some (.unicode (some "Python int too large to convert to C long"))⟩ }
      = py_error_handler .fli (session (.ok (.long PyLong_Type 0)))
          "parsing evaluation result of" (some "2**63") none true
          { ready with
            err := some ⟨some (.unicode (some "Python int too large to convert to C long"))⟩
            trace := [Event.Py_DECREF_exc] }
    ∧ check_conversion_error .fli (session (.ok (.long PyLong_Type 0))) "2**63"
        { ready with
          err := some ⟨some (.unicode (some "Python int too large to convert to C long"))⟩ }
      ≠ py_error_handler .fli (session (.ok (.long PyLong_Type 0)))
          "target type casting evaluation result of" (some "2**63") none true
          { ready with
            err := some ⟨some (.unicode (some "Python int too large to convert to C long"))⟩
            trace := [Event.Py_DECREF_exc] } := by
  refine ⟨rfl, fun h => ?_⟩
  have h1 := congrArg (fun o : Outcome Unit => o.world.trace.filterMap fun e =>
    match e with
    | .printf text => some text
    | _ => none) h
  revert h1
  decide

/-! ## The copies of the marshaler -/

/-- The reporter of `python_fli.c` and of `python_vhpi.cpp` never returns. -/
theorem standalone_py_error_handler_halted (f : Standalone) (env : Env) (context : String)
    (code_or_expr reason : Option String) (cleanup : Bool) (w : World) :
    ∃ w1, ∀ α : Type,
      (Standalone.py_error_handler f env context code_or_expr reason cleanup : M α) w
        = .halted w1 := by
  unfold Standalone.py_error_handler Standalone.PyErr_GetRaisedException halting_primitive
  cases reason with
  | some r =>
    obtain ⟨events, hc⟩ := python_cleanup_ret f.adapter env w
    cases cleanup <;> cases code_or_expr <;> simp [hc]
  | none =>
    cases herr : w.err with
    | none =>
      obtain ⟨events, hc⟩ := python_cleanup_ret f.adapter env w
      cases cleanup <;> cases code_or_expr <;> simp [hc, herr, get_world, set_err]
    | some e =>
      obtain ⟨events, hc⟩ := python_cleanup_ret f.adapter env
        { err := none, locals_set := w.locals_set, trace := w.trace ++ [Event.Py_DECREF_exc] }
      cases cleanup <;> cases code_or_expr <;> simp [hc, herr, get_world, set_err, log]

/-- What follows a call of the reporter of a copy is not executed. -/
@[simp] theorem standalone_py_error_handler_then {α β : Type} (g : α → World → Outcome β)
    (f : Standalone) (env : Env) (context : String) (code_or_expr reason : Option String)
    (cleanup : Bool) (w : World) :
    (match (Standalone.py_error_handler f env context code_or_expr reason cleanup : M α) w with
      | .ret x w1 => g x w1
      | .halted w1 => .halted w1
      | .undefined u w1 => .undefined u w1)
      = (Standalone.py_error_handler f env context code_or_expr reason cleanup : M β) w := by
  obtain ⟨w1, h⟩ := standalone_py_error_handler_halted f env context code_or_expr reason
    cleanup w
  simp [h]

/-- What follows a call of `handle_type_check_error` of a copy is not executed. -/
@[simp] theorem standalone_handle_type_check_error_then {α β : Type}
    (g : α → World → Outcome β) (f : Standalone) (env : Env) (pyobj : PyObject)
    (context expr : String) (w : World) :
    (match (Standalone.handle_type_check_error f env pyobj context expr : M α) w with
      | .ret x w1 => g x w1
      | .halted w1 => .halted w1
      | .undefined u w1 => .undefined u w1)
      = (Standalone.handle_type_check_error f env pyobj context expr : M β) w := by
  unfold Standalone.handle_type_check_error
  cases PyType_GetName pyobj with
  | none => simp
  | some type_name =>
    cases hs : get_string env (some type_name) with
    | none => simp [hs]
    | some type_name_str => cases f <;> simp [hs]

/-- The run of that witness in full: the same context and the same reason, each through the
output primitive of its file. -/
theorem marshaler_copies_agree_run :
    Standalone.get_real .python_vhpi (session (.ok (.long PyLong_Type 0)))
        (.float PyFloat_Type (.finite (10 ^ 39))) "1e39" true ready
      = .halted { ready with trace :=
          [Event.Py_DECREF (.float PyFloat_Type (.finite (10 ^ 39))), Event.Py_DECREF_locals,
           Event.Py_FinalizeEx,
           Event.vhpi_assert .vhpiError
             "ERROR parsing evaluation result of:\n\n1e39\n\nResult out of VHDL real range.\n\n",
           Event.vhpi_control_stop] }
    ∧ get_real .ghdl (session (.ok (.long PyLong_Type 0)))
        (.float PyFloat_Type (.finite (10 ^ 39))) "1e39" true ready
      = .halted { ready with trace :=
          [Event.Py_DECREF (.float PyFloat_Type (.finite (10 ^ 39))), Event.Py_DECREF_locals,
           Event.Py_FinalizeEx,
           Event.printf
             "ERROR parsing evaluation result of:\n\n1e39\n\nResult out of VHDL real range.\n\n",
           Event.assert_0] } := ⟨rfl, rfl⟩

/-- C23: for every value `x` that has a length (`len x` is a number `n`, whatever the builtin
`len` is), the method `set` of an instance of `__EvalResult__` returns the `int` `n`, and
every `get` that follows before another `set` returns `x`, the stored object; `get` on the
instance `__eval_result__`, on which `set` has not been called, returns `None`. -/
theorem eval_result_set_get (len : PyObject → Except PyErr Nat) (self : __EvalResult__)
    (x : PyObject) (n : Nat) (hlen : len x = .ok n) :
    (self.set len x).1 = .ok (.long PyLong_Type n)
    ∧ (∀ k : Nat, ((fun s => (__EvalResult__.get s).2)^[k] (self.set len x).2).get.1 = x)
    ∧ __eval_result__.get.1 = Py_None := by
  refine ⟨by simp [__EvalResult__.set, hlen, Except.map], ?_, rfl⟩
  intro k
  induction k with
  | zero => rfl
  | succ k ih =>
    rw [Function.iterate_succ_apply']
    exact ih

/-- Witness of C23: the list `[1, 2, 3]` stored in `__eval_result__`. -/
theorem eval_result_set_get_witness :
    len_of_list (.list PyList_Type
        [.long PyLong_Type 1, .long PyLong_Type 2, .long PyLong_Type 3]) = .ok 3
    ∧ (__eval_result__.set len_of_list (.list PyList_Type
        [.long PyLong_Type 1, .long PyLong_Type 2, .long PyLong_Type 3])).1
        = .ok (.long PyLong_Type 3)
    ∧ (__eval_result__.set len_of_list (.list PyList_Type
        [.long PyLong_Type 1, .long PyLong_Type 2, .long PyLong_Type 3])).2.get.1
        = .list PyList_Type [.long PyLong_Type 1, .long PyLong_Type 2, .long PyLong_Type 3] :=
  ⟨rfl,
    (eval_result_set_get len_of_list __eval_result__ (.list PyList_Type
      [.long PyLong_Type 1, .long PyLong_Type 2, .long PyLong_Type 3]) 3 rfl).1,
    (eval_result_set_get len_of_list __eval_result__ (.list PyList_Type
      [.long PyLong_Type 1, .long PyLong_Type 2, .long PyLong_Type 3]) 3 rfl).2.1 0⟩

/-- The method `set` stores the value before it asks for the length: a value without a
length is stored too, and `set` raises. -/
theorem eval_result_set_without_length :
    (__eval_result__.set len_of_list (.long PyLong_Type 7)).1
      = .error ⟨some (.unicode (some "object has no len()"))⟩
    ∧ (__eval_result__.set len_of_list (.long PyLong_Type 7)).2.get.1 = .long PyLong_Type 7 :=
  ⟨rfl, rfl⟩

/-! ## The scopes `globals` and `locals` -/

/-- The function `eval`, case by case. -/
theorem scoped_eval_eq {σ : Type} (a : Adapter) (I : Interpreter σ) (env : Env)
    (expr : String) (sc : Scopes σ) (w : World) :
    Scoped.eval a I env expr sc w
      = match I.PyRun_String expr .Py_eval_input sc.globals sc.locals sc.interpreter with
        | (.ok pyobj, interpreter) => .ret (pyobj, { sc with interpreter := interpreter }) w
        | (.error e, _) =>
          py_error_handler a env "evaluating" (some expr) none true { w with err := some e } := by
  unfold Scoped.eval
  rcases I.PyRun_String expr .Py_eval_input sc.globals sc.locals sc.interpreter with ⟨r, s⟩
  cases r <;> rfl

/-- The function `exec` after `get_parameter`, case by case. -/
theorem scoped_exec_code_eq {σ : Type} (a : Adapter) (I : Interpreter σ) (env : Env)
    (code : String) (sc : Scopes σ) (w : World) :
    Scoped.exec_code a I env code sc w
      = match I.PyRun_String code .Py_file_input sc.globals sc.locals sc.interpreter with
        | (.ok _, interpreter) => .ret ((), { sc with interpreter := interpreter }) w
        | (.error e, _) =>
          py_error_handler a env "executing" (some code) none true { w with err := some e } := by
  unfold Scoped.exec_code
  rcases I.PyRun_String code .Py_file_input sc.globals sc.locals sc.interpreter with ⟨r, s⟩
  cases r <;> rfl

/-- When `eval` returns, it returns what `PyRun_String` answered for the two variables, and
leaves the two variables and the state of the bridge as they were. -/
theorem scoped_eval_ret {σ : Type} (a : Adapter) (I : Interpreter σ) (env : Env)
    (expr : String) (sc sc1 : Scopes σ) (w w1 : World) (pyobj : PyObject)
    (h : Scoped.eval a I env expr sc w = .ret (pyobj, sc1) w1) :
    I.PyRun_String expr .Py_eval_input sc.globals sc.locals sc.interpreter
      = (.ok pyobj, sc1.interpreter)
    ∧ sc1.globals = sc.globals ∧ sc1.locals = sc.locals ∧ w1 = w := by
  rw [scoped_eval_eq] at h
  rcases hr : I.PyRun_String expr .Py_eval_input sc.globals sc.locals sc.interpreter
    with ⟨r, s⟩
  rw [hr] at h
  cases r with
  | ok obj =>
    simp only [Outcome.ret.injEq, Prod.mk.injEq] at h
    obtain ⟨⟨h1, h2⟩, h3⟩ := h
    subst h1 h2 h3
    exact ⟨rfl, rfl, rfl, rfl⟩
  | error e =>
    obtain ⟨w2, h2⟩ := py_error_handler_halted a env "evaluating" (some expr) none true
      { w with err := some e }
    simp only [h2] at h
    cases h

/-- When the code is executed, `PyRun_String` was called for the two variables, and the two
variables and the state of the bridge are left as they were. -/
theorem scoped_exec_code_ret {σ : Type} (a : Adapter) (I : Interpreter σ) (env : Env)
    (code : String) (sc sc1 : Scopes σ) (w w1 : World)
    (h : Scoped.exec_code a I env code sc w = .ret ((), sc1) w1) :
    (∃ r, I.PyRun_String code .Py_file_input sc.globals sc.locals sc.interpreter
      = (.ok r, sc1.interpreter))
    ∧ sc1.globals = sc.globals ∧ sc1.locals = sc.locals ∧ w1 = w := by
  rw [scoped_exec_code_eq] at h
  rcases hr : I.PyRun_String code .Py_file_input sc.globals sc.locals sc.interpreter
    with ⟨r, s⟩
  rw [hr] at h
  cases r with
  | ok obj =>
    simp only [Outcome.ret.injEq, Prod.mk.injEq, true_and] at h
    obtain ⟨h2, h3⟩ := h
    subst h2 h3
    exact ⟨⟨obj, rfl⟩, rfl, rfl, rfl⟩
  | error e =>
    obtain ⟨w2, h2⟩ := py_error_handler_halted a env "executing" (some code) none true
      { w with err := some e }
    simp only [h2] at h
    cases h
/-- The reporter reads of the session only what the scopes leave as it is. -/
theorem py_error_handler_scopes {α σ : Type} (a : Adapter) (I : Interpreter σ) (env : Env)
    (sc : Scopes σ) (context : String) (code_or_expr reason : Option String) (cleanup : Bool)
    (w : World) :
    (py_error_handler a (sc.env I env) context code_or_expr reason cleanup : M α) w
      = py_error_handler a env context code_or_expr reason cleanup w := by
  rw [py_error_handler_eq, py_error_handler_eq]
  have hs : ∀ o, get_string (sc.env I env) o = get_string env o := by
    intro o
    cases o with
    | none => rfl
    | some p => cases p <;> rfl
  simp only [hs]
  rfl

/-- The function `eval` of `python_pkg.c` is `eval` with the two variables explicit, once the
answer of the interpreter is that of `PyRun_String` for the two variables. -/
theorem scoped_eval_value {σ : Type} (a : Adapter) (I : Interpreter σ) (env : Env)
    (expr : String) (sc : Scopes σ) (w : World) :
    (Scoped.eval a I env expr sc w).value = eval a (sc.env I env) expr w := by
  rw [scoped_eval_eq]
  unfold eval
  have henv : (sc.env I env).run_eval_input expr
      = (I.PyRun_String expr .Py_eval_input sc.globals sc.locals sc.interpreter).1 := rfl
  rw [henv]
  rcases I.PyRun_String expr .Py_eval_input sc.globals sc.locals sc.interpreter with ⟨r, s⟩
  cases r with
  | ok obj => rfl
  | error e =>
    obtain ⟨w2, h2⟩ := py_error_handler_halted a env "evaluating" (some expr) none true
      { w with err := some e }
    simp only [h2, Outcome.value]
    rw [← h2 PyObject, ← py_error_handler_scopes a I env sc]
    rfl

/-- The function `exec` after `get_parameter` is that function with the two variables
explicit, once the answer of the interpreter is that of `PyRun_String` for the two
variables. -/
theorem scoped_exec_code_value {σ : Type} (a : Adapter) (I : Interpreter σ) (env : Env)
    (code : String) (sc : Scopes σ) (w : World) :
    (Scoped.exec_code a I env code sc w).value = exec_code a (sc.env I env) code w := by
  rw [scoped_exec_code_eq]
  unfold exec_code
  have henv : (sc.env I env).run_file_input code
      = (match (I.PyRun_String code .Py_file_input sc.globals sc.locals sc.interpreter).1 with
        | .ok _ => none
        | .error e => some e) := rfl
  rw [henv]
  rcases I.PyRun_String code .Py_file_input sc.globals sc.locals sc.interpreter with ⟨r, s⟩
  cases r with
  | ok obj => rfl
  | error e =>
    obtain ⟨w2, h2⟩ := py_error_handler_halted a env "executing" (some code) none true
      { w with err := some e }
    simp only [h2, Outcome.value]
    rw [← h2 Unit, ← py_error_handler_scopes a I env sc]
    rfl
/-- The function `python_setup` of the FLI, GHDL and NVC adapters from `Py_Initialize()` on,
case by case, with the two variables explicit. -/
theorem scoped_python_setup_common_eq {σ : Type} (a : Adapter) (I : Interpreter σ) (env : Env)
    (sc : Scopes σ) (w : World) :
    Scoped.python_setup_common a I env sc w
      = (if env.is_initialized = false then
          ffi_error_handler a env "Failed to initialize Python" false
            { w with trace := w.trace ++ [Event.Py_Initialize] }
        else if env.main_module = false then
          ffi_error_handler a env "Failed to get the main module" true
            { w with trace := w.trace ++ [Event.Py_Initialize] }
        else if env.module_dict = false then
          ffi_error_handler a env "Failed to get the global dictionary" true
            { w with trace := w.trace ++ [Event.Py_Initialize] }
        else
          match I.PyRun_String eval_result_code .Py_file_input
              (some (I.PyModule_GetDict (I.Py_Initialize sc.interpreter)))
              (some (I.PyModule_GetDict (I.Py_Initialize sc.interpreter)))
              (I.Py_Initialize sc.interpreter) with
          | (.ok _, interpreter) =>
            .ret ((), { globals := some (I.PyModule_GetDict (I.Py_Initialize sc.interpreter))
                        locals := some (I.PyModule_GetDict (I.Py_Initialize sc.interpreter))
                        interpreter := interpreter })
              { w with locals_set := true, trace := w.trace ++ [Event.Py_Initialize] }
          | (.error e, _) =>
            ffi_error_handler a env "Failed to initialize predefined Python objects" true
              { err := some e, locals_set := true,
                trace := w.trace ++ [Event.Py_Initialize] }) := by
  unfold Scoped.python_setup_common
  cases hi : env.is_initialized <;> cases hm : env.main_module <;> cases hd : env.module_dict <;>
    (simp only [log_bind_apply, if_apply, Bool.not_true, Bool.not_false, Bool.false_eq_true,
      ↓reduceIte, ffi_error_handler_bind_apply, pure_bind_apply, reduceCtorEq]
     try rfl)
  rcases I.PyRun_String eval_result_code .Py_file_input
      (some (I.PyModule_GetDict (I.Py_Initialize sc.interpreter)))
      (some (I.PyModule_GetDict (I.Py_Initialize sc.interpreter)))
      (I.Py_Initialize sc.interpreter) with ⟨r, s⟩
  cases r <;> rfl
/-- The function `python_setup` of `python_pkg_vhpi.c`, case by case, with the two variables
explicit. -/
theorem scoped_vhpi_python_setup_eq {σ : Type} (I : Interpreter σ) (env : Env)
    (sc : Scopes σ) (w : World) :
    Scoped.vhpi_python_setup I env sc w
      = (if env.is_initialized = false then
          ffi_error_handler .vhpi env "Failed to initialize Python" false
            { w with trace := w.trace ++ [Event.Py_Initialize] }
        else if env.main_module = false then
          ffi_error_handler .vhpi env "Failed to get the main module" true
            { w with trace := w.trace ++ [Event.Py_Initialize] }
        else if env.module_dict = false then
          ffi_error_handler .vhpi env "Failed to get the global dictionary" true
            { w with trace := w.trace ++ [Event.Py_Initialize] }
        else
          .ret ((), { globals := some (I.PyModule_GetDict (I.Py_Initialize sc.interpreter))
                      locals := some (I.PyModule_GetDict (I.Py_Initialize sc.interpreter))
                      interpreter := I.Py_Initialize sc.interpreter })
            { w with locals_set := true, trace := w.trace ++ [Event.Py_Initialize] }) := by
  unfold Scoped.vhpi_python_setup
  cases hi : env.is_initialized <;> cases hm : env.main_module <;> cases hd : env.module_dict <;>
    (simp only [log_bind_apply, if_apply, Bool.not_true, Bool.not_false, Bool.false_eq_true,
      ↓reduceIte, ffi_error_handler_bind_apply, pure_bind_apply, reduceCtorEq]
     try rfl)

/-- After the shared part of `python_setup` has returned, `globals` and `locals` hold the
address of the dictionary of `__main__`, and the error indicator is as it was. -/
theorem scoped_python_setup_common_ret {σ : Type} (a : Adapter) (I : Interpreter σ)
    (env : Env) (sc sc1 : Scopes σ) (w w1 : World)
    (h : Scoped.python_setup_common a I env sc w = .ret ((), sc1) w1) :
    sc1.globals = some (I.PyModule_GetDict (I.Py_Initialize sc.interpreter))
    ∧ sc1.locals = sc1.globals ∧ w1.err = w.err := by
  rw [scoped_python_setup_common_eq] at h
  split_ifs at h with h1 h2 h3
  · rw [ffi_error_handler_eq] at h
    cases h
  · rw [ffi_error_handler_eq] at h
    cases h
  · rw [ffi_error_handler_eq] at h
    cases h
  · rcases hr : I.PyRun_String eval_result_code .Py_file_input
        (some (I.PyModule_GetDict (I.Py_Initialize sc.interpreter)))
        (some (I.PyModule_GetDict (I.Py_Initialize sc.interpreter)))
        (I.Py_Initialize sc.interpreter) with ⟨r, s⟩
    rw [hr] at h
    cases r with
    | ok obj =>
      simp only [Outcome.ret.injEq, Prod.mk.injEq, true_and] at h
      obtain ⟨h4, h5⟩ := h
      subst h4 h5
      exact ⟨rfl, rfl, rfl⟩
    | error e =>
      simp only [ffi_error_handler_eq] at h
      cases h

/-- After `python_setup` of an adapter has returned, `globals` and `locals` hold the address
of the dictionary of `__main__`, and the error indicator is as it was. -/
theorem scoped_python_setup_ret {σ : Type} (a : Adapter) (I : Interpreter σ)
    (env : Env) (sc sc1 : Scopes σ) (w w1 : World)
    (h : Scoped.python_setup a I env sc w = .ret ((), sc1) w1) :
    sc1.globals = some (I.PyModule_GetDict (I.Py_Initialize sc.interpreter))
    ∧ sc1.locals = sc1.globals ∧ w1.err = w.err := by
  cases a with
  | fli => exact scoped_python_setup_common_ret .fli I env sc sc1 w w1 h
  | nvc => exact scoped_python_setup_common_ret .nvc I env sc sc1 w w1 h
  | ghdl =>
    exact scoped_python_setup_common_ret .ghdl I env sc sc1
      { w with trace := w.trace ++ [Event.putenv "PYTHONLEGACYWINDOWSDLLLOADING=1"] ++
          [Event.Py_SetPythonHome "c:\\msys64\\mingw64"] } w1 h
  | vhpi =>
    have h0 : Scoped.vhpi_python_setup I env sc w = .ret ((), sc1) w1 := h
    rw [scoped_vhpi_python_setup_eq] at h0
    split_ifs at h0 with h1 h2 h3
    · rw [ffi_error_handler_eq] at h0
      cases h0
    · rw [ffi_error_handler_eq] at h0
      cases h0
    · rw [ffi_error_handler_eq] at h0
      cases h0
    · simp only [Outcome.ret.injEq, Prod.mk.injEq, true_and] at h0
      obtain ⟨h4, h5⟩ := h0
      subst h4 h5
      exact ⟨rfl, rfl, rfl⟩
/-- When `exec` of the FLI, GHDL and NVC adapters returns, `PyRun_String` was called on the
parameter for the two variables, and the two variables and the state of the bridge are left
as they were. -/
theorem scoped_exec_ret {σ : Type} (a : Adapter) (I : Interpreter σ) (env : Env)
    (code : String) (sc sc1 : Scopes σ) (w w1 : World)
    (h : Scoped.exec a I env code sc w = .ret ((), sc1) w1) :
    (∃ r, I.PyRun_String (c_str code.data) .Py_file_input sc.globals sc.locals sc.interpreter
      = (.ok r, sc1.interpreter))
    ∧ sc1.globals = sc.globals ∧ sc1.locals = sc.locals ∧ w1 = w := by
  unfold Scoped.exec at h
  by_cases hlen : code.length < MAX_VHDL_PARAMETER_STRING_LENGTH
  · rw [bind_of_ret (copy_parameter_ret code w hlen)] at h
    exact scoped_exec_code_ret a I env _ sc sc1 w w1 h
  · have hc : copy_parameter code w
        = .undefined (.store_out_of_bounds code.length MAX_VHDL_PARAMETER_STRING_LENGTH) w := by
      unfold copy_parameter
      rw [if_neg hlen]
      rfl
    simp [hc] at h

/-- When the interpreter evaluates the parameter to an `int` in the 32-bit range,
`eval_integer` of the FLI, GHDL and NVC adapters returns its value and leaves the two
variables as they were. -/
theorem scoped_eval_integer_ret {σ : Type} (a : Adapter) (I : Interpreter σ) (env : Env)
    (expr : String) (sc : Scopes σ) (w : World) (tp : PyTypeObject) (v : Int) (s : σ)
    (hlen : expr.length < MAX_VHDL_PARAMETER_STRING_LENGTH) (hw : w.err = none)
    (hlo : -(2 ^ 31) ≤ v) (hhi : v ≤ 2 ^ 31 - 1)
    (hrun : I.PyRun_String (c_str expr.data) .Py_eval_input sc.globals sc.locals
      sc.interpreter = (.ok (.long tp v), s)) :
    Scoped.eval_integer a I env expr sc w
      = .ret (v, { sc with interpreter := s })
          { w with trace := w.trace ++ [Event.Py_DECREF (.long tp v)] } := by
  have he : Scoped.eval a I env (c_str expr.data) sc w
      = .ret (.long tp v, { sc with interpreter := s }) w := by
    rw [scoped_eval_eq, hrun]
  unfold Scoped.eval_integer
  rw [bind_of_ret (copy_parameter_ret expr w hlen), bind_of_ret he]
  dsimp only
  rw [bind_of_ret (get_integer_ret a env tp v (c_str expr.data) true w hw hlo hhi)]
  rfl
/-- When `exec` of the VHPI adapter returns, `PyRun_String` was called on the parameter for
the two variables, and the two variables and the state of the bridge are left as they
were. -/
theorem scoped_vhpi_exec_ret {σ : Type} (I : Interpreter σ) (env : Env) (cb_p : vhpiCbDataS)
    (code : String) (sc sc1 : Scopes σ) (w w1 : World)
    (hh : cb_p.parameter_handle = true) (hp : cb_p.parameter = some code)
    (h : Scoped.vhpi_exec I env cb_p sc w = .ret ((), sc1) w1) :
    (∃ r, I.PyRun_String code .Py_file_input sc.globals sc.locals sc.interpreter
      = (.ok r, sc1.interpreter))
    ∧ sc1.globals = sc.globals ∧ sc1.locals = sc.locals ∧ w1 = w := by
  unfold Scoped.vhpi_exec at h
  rw [bind_of_ret (vhpi_get_parameter_ret env cb_p code w hh hp)] at h
  exact scoped_exec_code_ret .vhpi I env code sc sc1 w w1 h

/-- When the interpreter evaluates the parameter to an `int` in the 32-bit range and the host
accepts the deposit, `eval_integer` of the VHPI adapter deposits its value and leaves the two
variables as they were. -/
theorem scoped_vhpi_eval_integer_ret {σ : Type} (I : Interpreter σ) (env : Env)
    (cb_p : vhpiCbDataS) (expr : String) (sc : Scopes σ) (w : World) (tp : PyTypeObject)
    (v : Int) (s : σ)
    (hh : cb_p.parameter_handle = true) (hp : cb_p.parameter = some expr)
    (hput : cb_p.put_value_fails .vhpiDeposit ⟨0, none, .intg v⟩ = false)
    (hw : w.err = none) (hlo : -(2 ^ 31) ≤ v) (hhi : v ≤ 2 ^ 31 - 1)
    (hrun : I.PyRun_String expr .Py_eval_input sc.globals sc.locals sc.interpreter
      = (.ok (.long tp v), s)) :
    Scoped.vhpi_eval_integer I env cb_p sc w
      = .ret ((), { sc with interpreter := s })
          { w with trace := w.trace ++
            [Event.Py_DECREF (.long tp v),
             Event.vhpi_put_value .vhpiDeposit ⟨0, none, .intg v⟩] } := by
  have he : Scoped.eval .vhpi I env expr sc w
      = .ret (.long tp v, { sc with interpreter := s }) w := by
    rw [scoped_eval_eq, hrun]
  unfold Scoped.vhpi_eval_integer
  rw [bind_of_ret (vhpi_get_parameter_ret env cb_p expr w hh hp), bind_of_ret he]
  dsimp only
  rw [bind_of_ret (get_integer_ret .vhpi env tp v expr true w hw hlo hhi)]
  simp only [bind_of_ret (vhpi_put_value_apply _ _ _ _), hput, Bool.false_eq_true,
    ↓reduceIte, pure_bind_apply, pure_apply, List.append_assoc, List.cons_append,
    List.nil_append, if_apply]

/-- C22: in every adapter, after `python_setup` has returned, `globals` and `locals` hold the
same address, that of the dictionary of `__main__`. Every call of `eval`, and every call of
`PyRun_String` in `exec`, is the call of `PyRun_String` for these two variables in the state
the interpreter was left in, and leaves both variables as they are: the answers the other
theorems take from the session are the answers of that call. Hence: whenever the
interpreter, run on `code` and then on `expr` against one dictionary used as globals and as
locals, evaluates `expr` to the `int` `v` of the 32-bit range, then after `python_setup` and
`exec` of `code` have returned, `eval_integer` of `expr` returns `v` in the FLI, GHDL and NVC
adapters and deposits `v` in the VHPI adapter (when the host accepts the deposit), and the
two variables are still those `python_setup` has set. -/
theorem scopes_shared_and_kept {σ : Type} (a : Adapter) (I : Interpreter σ) (env : Env) :
    (∀ (sc sc1 : Scopes σ) (w w1 : World),
        Scoped.python_setup a I env sc w = .ret ((), sc1) w1 →
        sc1.locals = sc1.globals
        ∧ sc1.globals = some (I.PyModule_GetDict (I.Py_Initialize sc.interpreter)))
    ∧ (∀ (expr : String) (sc : Scopes σ) (w : World),
        (Scoped.eval a I env expr sc w).value = eval a (sc.env I env) expr w
        ∧ ∀ (pyobj : PyObject) (sc1 : Scopes σ) (w1 : World),
            Scoped.eval a I env expr sc w = .ret (pyobj, sc1) w1 →
            I.PyRun_String expr .Py_eval_input sc.globals sc.locals sc.interpreter
              = (.ok pyobj, sc1.interpreter)
            ∧ sc1.globals = sc.globals ∧ sc1.locals = sc.locals)
    ∧ (∀ (code : String) (sc : Scopes σ) (w : World),
        (Scoped.exec_code a I env code sc w).value = exec_code a (sc.env I env) code w
        ∧ ∀ (sc1 : Scopes σ) (w1 : World),
            Scoped.exec_code a I env code sc w = .ret ((), sc1) w1 →
            (∃ r, I.PyRun_String code .Py_file_input sc.globals sc.locals sc.interpreter
              = (.ok r, sc1.interpreter))
            ∧ sc1.globals = sc.globals ∧ sc1.locals = sc.locals)
    ∧ (a ≠ .vhpi →
        ∀ (sc sc1 sc2 : Scopes σ) (w w1 w2 : World) (code expr : String) (v : Int),
          w.err = none →
          Scoped.python_setup a I env sc w = .ret ((), sc1) w1 →
          Scoped.exec a I env code sc1 w1 = .ret ((), sc2) w2 →
          expr.length < MAX_VHDL_PARAMETER_STRING_LENGTH →
          -(2 ^ 31) ≤ v → v ≤ 2 ^ 31 - 1 →
          (∀ (dict : Nat) (s s1 : σ) (r : PyObject),
            I.PyRun_String (c_str code.data) .Py_file_input (some dict) (some dict) s
              = (.ok r, s1) →
            ∃ tp s2, I.PyRun_String (c_str expr.data) .Py_eval_input (some dict) (some dict) s1
              = (.ok (.long tp v), s2)) →
          sc2.globals = sc1.globals ∧ sc2.locals = sc1.locals
          ∧ ∃ sc3 w3, Scoped.eval_integer a I env expr sc2 w2 = .ret (v, sc3) w3
              ∧ sc3.globals = sc1.globals ∧ sc3.locals = sc1.locals)
    ∧ (∀ (sc sc1 sc2 : Scopes σ) (w w1 w2 : World) (code expr : String) (v : Int)
          (cb_code cb_expr : vhpiCbDataS),
          w.err = none →
          Scoped.python_setup .vhpi I env sc w = .ret ((), sc1) w1 →
          cb_code.parameter_handle = true → cb_code.parameter = some code →
          Scoped.vhpi_exec I env cb_code sc1 w1 = .ret ((), sc2) w2 →
          cb_expr.parameter_handle = true → cb_expr.parameter = some expr →
          cb_expr.put_value_fails .vhpiDeposit ⟨0, none, .intg v⟩ = false →
          -(2 ^ 31) ≤ v → v ≤ 2 ^ 31 - 1 →
          (∀ (dict : Nat) (s s1 : σ) (r : PyObject),
            I.PyRun_String code .Py_file_input (some dict) (some dict) s = (.ok r, s1) →
            ∃ tp s2, I.PyRun_String expr .Py_eval_input (some dict) (some dict) s1
              = (.ok (.long tp v), s2)) →
          sc2.globals = sc1.globals ∧ sc2.locals = sc1.locals
          ∧ ∃ tp sc3, Scoped.vhpi_eval_integer I env cb_expr sc2 w2
                = .ret ((), sc3)
                    { w2 with trace := w2.trace ++
                      [Event.Py_DECREF (.long tp v),
                       Event.vhpi_put_value .vhpiDeposit ⟨0, none, .intg v⟩] }
              ∧ sc3.globals = sc1.globals ∧ sc3.locals = sc1.locals) := by
  refine ⟨?_, ?_, ?_, ?_, ?_⟩
  · intro sc sc1 w w1 h
    obtain ⟨h1, h2, -⟩ := scoped_python_setup_ret a I env sc sc1 w w1 h
    exact ⟨h2, h1⟩
  · intro expr sc w
    refine ⟨scoped_eval_value a I env expr sc w, ?_⟩
    intro pyobj sc1 w1 h
    obtain ⟨h1, h2, h3, -⟩ := scoped_eval_ret a I env expr sc sc1 w w1 pyobj h
    exact ⟨h1, h2, h3⟩
  · intro code sc w
    refine ⟨scoped_exec_code_value a I env code sc w, ?_⟩
    intro sc1 w1 h
    obtain ⟨h1, h2, h3, -⟩ := scoped_exec_code_ret a I env code sc sc1 w w1 h
    exact ⟨h1, h2, h3⟩
  · intro _ sc sc1 sc2 w w1 w2 code expr v hw hsetup hexec hlen hlo hhi hlaw
    obtain ⟨hg, hl, herr⟩ := scoped_python_setup_ret a I env sc sc1 w w1 hsetup
    obtain ⟨⟨r, hr⟩, hg2, hl2, hw2⟩ := scoped_exec_ret a I env code sc1 sc2 w1 w2 hexec
    rw [hl, hg] at hr
    obtain ⟨tp, s2, hrun⟩ := hlaw _ _ _ r hr
    have hrun2 : I.PyRun_String (c_str expr.data) .Py_eval_input sc2.globals sc2.locals
        sc2.interpreter = (.ok (.long tp v), s2) := by
      rw [hg2, hl2, hl, hg]
      exact hrun
    have hw2err : w2.err = none := by
      rw [hw2, herr]
      exact hw
    exact ⟨hg2, hl2, _, _,
      scoped_eval_integer_ret a I env expr sc2 w2 tp v s2 hlen hw2err hlo hhi hrun2, hg2, hl2⟩
  · intro sc sc1 sc2 w w1 w2 code expr v cb_code cb_expr hw hsetup hh hp hexec hh2 hp2 hput
      hlo hhi hlaw
    obtain ⟨hg, hl, herr⟩ := scoped_python_setup_ret .vhpi I env sc sc1 w w1 hsetup
    obtain ⟨⟨r, hr⟩, hg2, hl2, hw2⟩ :=
      scoped_vhpi_exec_ret I env cb_code code sc1 sc2 w1 w2 hh hp hexec
    rw [hl, hg] at hr
    obtain ⟨tp, s2, hrun⟩ := hlaw _ _ _ r hr
    have hrun2 : I.PyRun_String expr .Py_eval_input sc2.globals sc2.locals
        sc2.interpreter = (.ok (.long tp v), s2) := by
      rw [hg2, hl2, hl, hg]
      exact hrun
    have hw2err : w2.err = none := by
      rw [hw2, herr]
      exact hw
    exact ⟨hg2, hl2, tp, _,
      scoped_vhpi_eval_integer_ret I env cb_expr expr sc2 w2 tp v s2 hh2 hp2 hput hw2err hlo
        hhi hrun2, hg2, hl2⟩

/-- Witness of C22: the FLI adapter on an interpreter of assignments and names. After
`python_setup`, both variables hold the address 1; `exec` of "x = 42" binds `x` in that
dictionary; `eval_integer` of "x" returns 42, and the two variables are as they were. -/
theorem scopes_shared_and_kept_witness :
    Scoped.python_setup .fli namespace_interpreter (session (.ok Py_None)) no_scopes not_set_up
      = .ret ((), { globals := some 1, locals := some 1, interpreter := [] })
          { not_set_up with locals_set := true, trace := [Event.Py_Initialize] }
    ∧ Scoped.exec .fli namespace_interpreter (session (.ok Py_None)) "x = 42"
        { globals := some 1, locals := some 1, interpreter := [] }
        { not_set_up with locals_set := true, trace := [Event.Py_Initialize] }
      = .ret ((), { globals := some 1, locals := some 1, interpreter := [(1, "x", 42)] })
          { not_set_up with locals_set := true, trace := [Event.Py_Initialize] }
    ∧ ∃ sc3 w3, Scoped.eval_integer .fli namespace_interpreter (session (.ok Py_None)) "x"
          { globals := some 1, locals := some 1, interpreter := [(1, "x", 42)] }
          { not_set_up with locals_set := true, trace := [Event.Py_Initialize] }
        = .ret (42, sc3) w3
      ∧ sc3.globals = some 1 ∧ sc3.locals = some 1 :=
  ⟨rfl, rfl,
    ((scopes_shared_and_kept .fli namespace_interpreter (session (.ok Py_None))).2.2.2.1
      (by decide) no_scopes
      { globals := some 1, locals := some 1, interpreter := [] }
      { globals := some 1, locals := some 1, interpreter := [(1, "x", 42)] }
      not_set_up
      { not_set_up with locals_set := true, trace := [Event.Py_Initialize] }
      { not_set_up with locals_set := true, trace := [Event.Py_Initialize] }
      "x = 42" "x" 42 rfl rfl rfl (by decide) (by decide) (by decide)
      (by
        intro dict s s1 r h
        refine ⟨PyLong_Type, s1, ?_⟩
        have h1 : s1 = (dict, "x", 42) :: s := by
          have h2 := congrArg Prod.snd h
          exact h2.symm
        subst h1
        simp [namespace_interpreter, c_str])).2.2⟩

/-- The run of that witness in full, and a name that was not bound: `eval_integer` of "y"
ends in the reporter, entered by `eval` with the `NameError` pending. -/
theorem scopes_shared_and_kept_run :
    Scoped.eval_integer .fli namespace_interpreter (session (.ok Py_None)) "x"
        { globals := some 1, locals := some 1, interpreter := [(1, "x", 42)] } ready
      = .ret (42, { globals := some 1, locals := some 1, interpreter := [(1, "x", 42)] })
          { ready with trace := [Event.Py_DECREF (.long PyLong_Type 42)] }
    ∧ Scoped.eval_integer .fli namespace_interpreter (session (.ok Py_None)) "y"
        { globals := some 1, locals := some 1, interpreter := [(1, "x", 42)] } ready
      = .halted
          { err := some ⟨some (.unicode (some "name y is not defined"))⟩, locals_set := true,
            trace := [Event.Py_DECREF_locals, Event.Py_FinalizeEx,
              Event.printf ("ERROR evaluating:\n\ny\n\n" ++ stale_bytes ++ "\n\n"),
              Event.mti_FatalError] } := ⟨rfl, rfl⟩

/-- The same round trip in the VHPI adapter: `exec` of "x = 42", then `eval_integer` of "x"
deposits 42. -/
theorem scopes_shared_and_kept_vhpi_run :
    Scoped.python_setup .vhpi namespace_interpreter (session (.ok Py_None)) no_scopes not_set_up
      = .ret ((), { globals := some 1, locals := some 1, interpreter := [] })
          { not_set_up with locals_set := true, trace := [Event.Py_Initialize] }
    ∧ Scoped.vhpi_exec namespace_interpreter (session (.ok Py_None)) (accepting_call "x = 42")
        { globals := some 1, locals := some 1, interpreter := [] } ready
      = .ret ((), { globals := some 1, locals := some 1, interpreter := [(1, "x", 42)] }) ready
    ∧ Scoped.vhpi_eval_integer namespace_interpreter (session (.ok Py_None))
        (accepting_call "x")
        { globals := some 1, locals := some 1, interpreter := [(1, "x", 42)] } ready
      = .ret ((), { globals := some 1, locals := some 1, interpreter := [(1, "x", 42)] })
          { ready with trace :=
            [Event.Py_DECREF (.long PyLong_Type 42),
             Event.vhpi_put_value .vhpiDeposit ⟨0, none, .intg 42⟩] } := ⟨rfl, rfl, rfl⟩

/-! ## The two message shapes of the fatal paths -/

end VUnit
